import Mathlib

/-!
# Redbook: token lifecycle and session-state engine

A shallow embedding of the authentication core of the `redbook` service:

* `internal/auth/jwt.go`      : `Claims`, `GenerateTokens`, `ParseToken`, `ParseTokenAllowExpired`
* `internal/auth/session.go`  : `SessionManager` over a Redis key space
* `service/user_service.go`   : `UserService.Login`, `UserService.RotateRefreshToken`
* `middleware/auth_middleware.go` : `AuthMiddleware`
* `middleware/rate_limit.go`  : `LoginRateLimiter`
* `api/v1/user_api.go`        : `UserAPI.Logout`, `UserAPI.RefreshToken`
* `cmd/main.go`               : the logout route behind `AuthMiddleware`

Modelling conventions.

* Instants are `Int` nanoseconds since the Unix epoch (`time.Time`), durations are `Int`
  nanoseconds (`time.Duration`, an int64: products wrap).  Every handler reads the clock
  once; the instant is the argument `now`.
* A Go `error` is an `Option String`: `none` is `nil`, `some m` is an error whose `Error()`
  text is `m`.  A Go result `(v, err)` is a pair.
* Redis is a function from keys to entries; an entry carries its value and the instant at
  which it expires.  Every Redis command takes a `Conn` argument that says whether the
  round trip to the server worked; a command on a connection that is down changes nothing
  and returns the connection's error.
* The third-party `golang-jwt` package is a parameter (`JWT`): signing and
  signature-checked decoding.  The validation of the registered claims, which the package
  performs on the decoded claims, is written out (`Validate`).
* The user table (`dao.UserDAO`) and the bcrypt check (`utils.CheckPasswordHash`) are
  parameters (`Deps`).
-/

namespace Redbook

/-! ## Go values -/

/-- Go `error`: `none` is `nil`, `some m` is an error with `Error()` text `m`. -/
abbrev GoError := Option String

/-- The constant `time.Second`, in nanoseconds. -/
def Second : Int := 1000000000

/-- Two's complement wrap-around of a mathematical integer into int64. -/
def wrapInt64 (x : Int) : Int := (x + 2 ^ 63) % 2 ^ 64 - 2 ^ 63

/-- The expression `time.Duration(n) * time.Second` for an int64 `n`. -/
def secondsDuration (n : Int) : Int := wrapInt64 (wrapInt64 n * Second)

/-- The call `jwt.NewNumericDate(t)`: `t` truncated to `jwt.TimePrecision` (one second);
the result is kept as whole Unix seconds, which is what the token's JSON carries. -/
def NewNumericDate (t : Int) : Int := t / Second

/-! ## config/config.go -/

/-- The struct `config.JWTConfig`. -/
structure JWTConfig where
  Secret : String
  AccessExpire : Int
  RefreshExpire : Int
  deriving DecidableEq, Repr

/-! ## internal/auth/jwt.go -/

/-- The struct `auth.Claims`: the two custom fields and the registered claims that the
validator of `golang-jwt` looks at (`exp`, `nbf`, `iat`), in whole Unix seconds. -/
structure Claims where
  UserID : Nat
  Device : String
  ExpiresAt : Option Int
  NotBefore : Option Int
  IssuedAt : Option Int
  deriving DecidableEq, Repr

/-- The two entry points of `golang-jwt` that the code uses, as functions of the key.
`SignedString key c` is `jwt.NewWithClaims(jwt.SigningMethodHS256, c).SignedString(key)`
(it cannot fail for an HMAC method with a byte-slice key).  `Decode key tok` is the part of
`jwt.ParseWithClaims(tok, &Claims{}, keyfunc)` that precedes claims validation: split,
decode, check the signature with `key`; `none` is any error. -/
structure JWT where
  SignedString : String → Claims → String
  Decode : String → String → Option Claims

/-- What the package guarantees: a signed token decodes, under the same key, to the claims
that were signed; the empty string is not a token. -/
structure JWT.Lawful (J : JWT) : Prop where
  decode_signed : ∀ (key : String) (c : Claims), J.Decode key (J.SignedString key c) = some c
  decode_empty : ∀ (key : String), J.Decode key "" = none

/-- The default `Validator.Validate` of `golang-jwt` v5 without leeway: `exp`, when present,
must be after `now`; `nbf`, when present, must not be after `now`; `iat` is not looked at. -/
def Validate (now : Int) (c : Claims) : Bool :=
  (match c.ExpiresAt with
   | none => true
   | some exp => decide (now < exp * Second)) &&
  (match c.NotBefore with
   | none => true
   | some nbf => decide (nbf * Second ≤ now))

/-- The call `jwt.ParseWithClaims(tok, &Claims{}, keyfunc, opts...)`; `skipValidation` is the
option `jwt.WithoutClaimsValidation()`. -/
def ParseWithClaims (J : JWT) (key : String) (now : Int) (skipValidation : Bool)
    (tok : String) : Option Claims :=
  match J.Decode key tok with
  | none => none
  | some c => if skipValidation || Validate now c then some c else none

/-- The value `accessClaims` built in `GenerateTokens`. -/
def accessClaims (cfg : JWTConfig) (now : Int) (userID : Nat) (device : String) : Claims :=
  { UserID := userID, Device := device,
    ExpiresAt := some (NewNumericDate (now + secondsDuration cfg.AccessExpire)),
    NotBefore := none,
    IssuedAt := some (NewNumericDate now) }

/-- The value `refreshClaims` built in `GenerateTokens`. -/
def refreshClaims (cfg : JWTConfig) (now : Int) (userID : Nat) (device : String) : Claims :=
  { UserID := userID, Device := device,
    ExpiresAt := some (NewNumericDate (now + secondsDuration cfg.RefreshExpire)),
    NotBefore := none,
    IssuedAt := some (NewNumericDate now) }

/-- `GenerateTokens` issues an access token and a refresh token for the user / device
pair; both carry the same claim structure and differ in `exp` only. -/
def GenerateTokens (J : JWT) (cfg : JWTConfig) (now : Int) (userID : Nat) (device : String) :
    String × String :=
  let accessToken := J.SignedString cfg.Secret (accessClaims cfg now userID device)
  let refreshToken := J.SignedString cfg.Secret (refreshClaims cfg now userID device)
  (accessToken, refreshToken)

/-- `ParseToken` validates signature and expiry. -/
def ParseToken (J : JWT) (cfg : JWTConfig) (now : Int) (tokenStr : String) : Option Claims :=
  ParseWithClaims J cfg.Secret now false tokenStr

/-- `ParseTokenAllowExpired` validates the signature but skips the claims validation. -/
def ParseTokenAllowExpired (J : JWT) (cfg : JWTConfig) (now : Int) (tokenStr : String) :
    Option Claims :=
  ParseWithClaims J cfg.Secret now true tokenStr

/-! ## Redis -/

/-- One key of the Redis key space: the stored string and the instant at which the key
expires (`none`: no expiry). -/
structure Entry where
  value : String
  expireAt : Option Int
  deriving DecidableEq, Repr

/-- The Redis key space. -/
abbrev Redis := String → Option Entry

/-- Whether the round trip of one command to the Redis server works; `down m` is a
connectivity failure or timeout reported by the client as an error with text `m`. -/
inductive Conn where
  | up
  | down (err : String)
  deriving DecidableEq, Repr

/-- The entry under `key` that a command executed at `now` sees: expired keys are gone. -/
def Redis.lookup (rdb : Redis) (now : Int) (key : String) : Option Entry :=
  match rdb key with
  | none => none
  | some e =>
    match e.expireAt with
    | none => some e
    | some d => if now < d then some e else none

/-- The client call `rdb.Set(ctx, key, value, ttl)`: a positive `ttl` is sent as `EX`/`PX`,
`redis.KeepTTL` (-1) as `KEEPTTL`, anything else sets the key without expiry.  The expiry
instant is kept to the nanosecond (the server keeps milliseconds). -/
def Redis.Set (rdb : Redis) (now : Int) (conn : Conn) (key value : String) (ttl : Int) :
    Redis × GoError :=
  match conn with
  | .down m => (rdb, some m)
  | .up =>
    let expireAt : Option Int :=
      if 0 < ttl then some (now + ttl)
      else if ttl = -1 then (rdb.lookup now key).bind (fun e => e.expireAt)
      else none
    (fun k => if k = key then some { value := value, expireAt := expireAt } else rdb k, none)

/-- The client call `rdb.Get(ctx, key).Result()`; a missing key is the error `redis.Nil`. -/
def Redis.Get (rdb : Redis) (now : Int) (conn : Conn) (key : String) : String × GoError :=
  match conn with
  | .down m => ("", some m)
  | .up =>
    match rdb.lookup now key with
    | none => ("", some "redis: nil")
    | some e => (e.value, none)

/-- The client call `rdb.Del(ctx, key)`. -/
def Redis.Del (rdb : Redis) (conn : Conn) (key : String) : Redis × GoError :=
  match conn with
  | .down m => (rdb, some m)
  | .up => (fun k => if k = key then none else rdb k, none)

/-- The client call `rdb.Exists(ctx, key).Result()` for one key: the number of the keys
that exist. -/
def Redis.Exists (rdb : Redis) (now : Int) (conn : Conn) (key : String) : Int × GoError :=
  match conn with
  | .down m => (0, some m)
  | .up => (if (rdb.lookup now key).isSome then 1 else 0, none)

/-! ## internal/auth/session.go -/

/-- The key `fmt.Sprintf("rb:session:%d:%s", userID, device)`. -/
def sessionKey (userID : Nat) (device : String) : String :=
  "rb:session:" ++ Nat.repr userID ++ ":" ++ device

/-- The key `fmt.Sprintf("rb:black:%s", token)`. -/
def blackKey (token : String) : String :=
  "rb:black:" ++ token

/-- `SaveRefreshToken` stores the refresh token for the user/device pair. -/
def SaveRefreshToken (rdb : Redis) (now : Int) (conn : Conn) (userID : Nat) (device token : String)
    (ttl : Int) : Redis × GoError :=
  rdb.Set now conn (sessionKey userID device) token ttl

/-- `GetRefreshToken` fetches the latest refresh token for a user/device. -/
def GetRefreshToken (rdb : Redis) (now : Int) (conn : Conn) (userID : Nat) (device : String) :
    String × GoError :=
  rdb.Get now conn (sessionKey userID device)

/-- `DeleteRefreshToken` removes the stored refresh token. -/
def DeleteRefreshToken (rdb : Redis) (conn : Conn) (userID : Nat) (device : String) :
    Redis × GoError :=
  rdb.Del conn (sessionKey userID device)

/-- `AddBlackList` writes the blacklist marker of a token. -/
def AddBlackList (rdb : Redis) (now : Int) (conn : Conn) (token : String) (ttl : Int) :
    Redis × GoError :=
  rdb.Set now conn (blackKey token) "1" ttl

/-- `InBlackList` reports whether a token has a blacklist marker. -/
def InBlackList (rdb : Redis) (now : Int) (conn : Conn) (token : String) : Bool × GoError :=
  let r := rdb.Exists now conn (blackKey token)
  (decide (r.1 = 1), r.2)

/-! ## model/user.go, dao/user_dao.go, utils -/

/-- The fields of `model.User` that login reads. -/
structure User where
  ID : Nat
  Username : String
  Password : String
  deriving DecidableEq, Repr

/-- The collaborators of `UserService.Login`: `dao.UserDAO.GetByUsername` (`none` is any
error of the query, a missing row included) and `utils.CheckPasswordHash`. -/
structure Deps where
  GetByUsername : String → Option User
  CheckPasswordHash : String → String → Bool

/-! ## service/user_service.go -/

/-- The result `(accessToken, refreshToken, err)` of the two token-issuing service calls,
next to the key space they leave behind. -/
structure Issued where
  rdb : Redis
  accessToken : String
  refreshToken : String
  err : GoError

/-- `UserService.Login` handles username/password authentication and issues a token pair.
`save` is the connection of the one Redis command it sends. -/
def Login (J : JWT) (cfg : JWTConfig) (D : Deps) (rdb : Redis) (now : Int) (save : Conn)
    (username password device : String) : Issued :=
  match D.GetByUsername username with
  | none => ⟨rdb, "", "", some "用户名或密码错误"⟩
  | some user =>
    if user.ID = 0 then ⟨rdb, "", "", some "用户名或密码错误"⟩
    else if !D.CheckPasswordHash password user.Password then
      ⟨rdb, "", "", some "用户名或密码错误"⟩
    else
      let tokens := GenerateTokens J cfg now user.ID device
      let ttl := secondsDuration cfg.RefreshExpire
      let saved := SaveRefreshToken rdb now save user.ID device tokens.2 ttl
      ⟨saved.1, tokens.1, tokens.2, none⟩

/-- `UserService.RotateRefreshToken` checks the refresh token, writes the blacklist and
issues a new pair.  `get`, `save`, `black` are the connections of its three Redis commands. -/
def RotateRefreshToken (J : JWT) (cfg : JWTConfig) (rdb : Redis) (now : Int)
    (get save black : Conn) (refreshToken headerDevice : String) : Issued :=
  if refreshToken = "" then ⟨rdb, "", "", some "missing refresh token"⟩
  else
    match ParseToken J cfg now refreshToken with
    | none => ⟨rdb, "", "", some "refresh token invalid"⟩
    | some claims =>
      if headerDevice ≠ "" ∧ headerDevice ≠ claims.Device then
        ⟨rdb, "", "", some "device mismatch"⟩
      else
        let got := GetRefreshToken rdb now get claims.UserID claims.Device
        if got.2 ≠ none ∨ got.1 ≠ refreshToken then
          ⟨rdb, "", "", some "refresh token expired or rotated"⟩
        else
          let tokens := GenerateTokens J cfg now claims.UserID claims.Device
          let ttl := secondsDuration cfg.RefreshExpire
          let saved := SaveRefreshToken rdb now save claims.UserID claims.Device tokens.2 ttl
          match saved.2 with
          | some e => ⟨saved.1, "", "", some e⟩
          | none =>
            let listed := AddBlackList saved.1 now black refreshToken ttl
            ⟨listed.1, tokens.1, tokens.2, none⟩

/-! ## HTTP -/

/-- The Go function `strings.HasPrefix`. -/
def HasPrefix (s pre : String) : Bool := pre.data.isPrefixOf s.data

/-- The Go function `strings.TrimPrefix`. -/
def TrimPrefix (s pre : String) : String :=
  if HasPrefix s pre then String.mk (s.data.drop pre.data.length) else s

/-- What a handler writes with `c.JSON(status, gin.H{...})`: the status code and the
fields of the JSON object. -/
structure Response where
  status : Nat
  body : List (String × String)
  deriving DecidableEq, Repr

/-! ## middleware/auth_middleware.go -/

/-- What the guard does with a request: answer it itself and abort the chain, or set
`user_id` and `device` in the context and call `c.Next()`. -/
inductive Guard where
  | abort (resp : Response)
  | next (user_id : Nat) (device : String)
  deriving DecidableEq, Repr

/-- `AuthMiddleware` on a request whose `Authorization` header is `authHeader`; `look` is the
connection of the blacklist lookup. -/
def AuthMiddleware (J : JWT) (cfg : JWTConfig) (rdb : Redis) (now : Int) (look : Conn)
    (authHeader : String) : Guard :=
  if !HasPrefix authHeader "Bearer " then
    .abort ⟨401, [("error", "missing token")]⟩
  else
    let token := TrimPrefix authHeader "Bearer "
    let found := (InBlackList rdb now look token).1
    if found then .abort ⟨401, [("error", "token invalid")]⟩
    else
      match ParseToken J cfg now token with
      | none => .abort ⟨401, [("error", "invalid token")]⟩
      | some claims => .next claims.UserID claims.Device

/-! ## api/v1/user_api.go -/

/-- `UserAPI.Logout` on a request whose `Authorization` header is `authHeader`: the key
space it leaves and the response it writes.  `get`, `black`, `del` are the connections of
the session read, the blacklist write and the session delete (the first branch sends the
last two only). -/
def Logout (J : JWT) (cfg : JWTConfig) (rdb : Redis) (now : Int) (get black del : Conn)
    (authHeader : String) : Redis × Response :=
  if !HasPrefix authHeader "Bearer " then
    (rdb, ⟨400, [("error", "missing token")]⟩)
  else
    let tokenStr := TrimPrefix authHeader "Bearer "
    match ParseToken J cfg now tokenStr with
    | some claims =>
      let listed := AddBlackList rdb now black tokenStr (secondsDuration cfg.AccessExpire)
      match listed.2 with
      | some _ => (listed.1, ⟨500, [("error", "blacklist failed")]⟩)
      | none =>
        let deleted := DeleteRefreshToken listed.1 del claims.UserID claims.Device
        (deleted.1, ⟨200, [("message", "logout success")]⟩)
    | none =>
      match ParseTokenAllowExpired J cfg now tokenStr with
      | none => (rdb, ⟨401, [("error", "invalid token")]⟩)
      | some claims =>
        let got := GetRefreshToken rdb now get claims.UserID claims.Device
        if got.2 ≠ none ∨ got.1 = "" ∨ got.1 ≠ tokenStr then
          (rdb, ⟨401, [("error", "refresh invalid or expired")]⟩)
        else
          let listed := AddBlackList rdb now black tokenStr (secondsDuration cfg.RefreshExpire)
          match listed.2 with
          | some _ => (listed.1, ⟨500, [("error", "blacklist failed")]⟩)
          | none =>
            let deleted := DeleteRefreshToken listed.1 del claims.UserID claims.Device
            (deleted.1, ⟨200, [("message", "logout success")]⟩)

/-! ## A concrete `JWT`

A small signing scheme that satisfies `JWT.Lawful`, used to run the handlers on concrete
requests: a token is the decimal rendering of the claims, field after field, followed by
the device and then the key. -/

/-- The decimal digits of `n`, least significant first, closed by a dot. -/
def encNat (n : Nat) : List Char :=
  (Nat.digits 10 n).map (fun d => Char.ofNat (48 + d)) ++ ['.']

/-- Cut a character list at its first dot. -/
def splitDot : List Char → Option (List Char × List Char)
  | [] => none
  | c :: cs => if c = '.' then some ([], cs) else (splitDot cs).map (fun p => (c :: p.1, p.2))

/-- Read back a number written by `encNat`. -/
def decNat (l : List Char) : Option (Nat × List Char) :=
  (splitDot l).map (fun p => (Nat.ofDigits 10 (p.1.map (fun c => c.toNat - 48)), p.2))

/-- An optional whole number: `n`, or a sign and the magnitude. -/
def encOpt : Option Int → List Char
  | none => ['n']
  | some z => (if z < 0 then 'm' else 'p') :: encNat z.natAbs

/-- Read back a value written by `encOpt`. -/
def decOpt : List Char → Option (Option Int × List Char)
  | [] => none
  | c :: cs =>
    if c = 'n' then some (none, cs)
    else if c = 'm' then (decNat cs).map (fun p => (some (-(p.1 : Int)), p.2))
    else if c = 'p' then (decNat cs).map (fun p => (some (p.1 : Int), p.2))
    else none

/-- The token of the concrete scheme for claims `c` under `key`. -/
def demoSign (key : String) (c : Claims) : String :=
  String.mk (encNat c.UserID ++ encOpt c.ExpiresAt ++ encOpt c.NotBefore ++ encOpt c.IssuedAt
    ++ encNat c.Device.data.length ++ c.Device.data ++ key.data)

/-- Decode a token of the concrete scheme and compare its trailing key. -/
def demoDecode (key : String) (tok : String) : Option Claims :=
  (decNat tok.data).bind fun u =>
  (decOpt u.2).bind fun e =>
  (decOpt e.2).bind fun n =>
  (decOpt n.2).bind fun i =>
  (decNat i.2).bind fun len =>
  if len.2.drop len.1 = key.data then
    some { UserID := u.1, Device := String.mk (len.2.take len.1),
           ExpiresAt := e.1, NotBefore := n.1, IssuedAt := i.1 }
  else none

/-- The concrete signing scheme. -/
def demoJWT : JWT := ⟨demoSign, demoDecode⟩

/-! ## A concrete deployment -/

/-- A configuration: access tokens live 15 minutes, refresh tokens 7 days. -/
def demoCfg : JWTConfig := { Secret := "k", AccessExpire := 900, RefreshExpire := 604800 }

/-- A user table with the one user `alice` (id 1) and a password check that accepts her
password. -/
def demoDeps : Deps :=
  { GetByUsername := fun u => if u = "alice" then some ⟨1, "alice", "hash"⟩ else none,
    CheckPasswordHash := fun pw h => pw == "pw" && h == "hash" }

/-- The empty key space. -/
def noKeys : Redis := fun _ => none

/-- An instant: 2023-11-14 22:13:20.25 UTC. -/
def t0 : Int := 1700000000250000000

/-- The login of `alice` on device `d1` against the empty key space. -/
def demoLogin (J : JWT) (now : Int) (save : Conn) : Issued :=
  Login J demoCfg demoDeps noKeys now save "alice" "pw" "d1"

/-- A rotation with device hint `d1` whose session read and write work. -/
def demoRotate (J : JWT) (rdb : Redis) (now : Int) (black : Conn) (tok : String) : Issued :=
  RotateRefreshToken J demoCfg rdb now Conn.up Conn.up black tok "d1"

/-! ## The private route (cmd/main.go) -/

/-- The route `POST /api/v1/users/logout` as `main` registers it: the group's
`AuthMiddleware` runs first and, unless it aborts the chain, `UserAPI.Logout` runs next.
`look` is the connection of the guard's blacklist lookup, the other three are the
handler's. -/
def privateLogout (J : JWT) (cfg : JWTConfig) (rdb : Redis) (now : Int)
    (look get black del : Conn) (authHeader : String) : Redis × Response :=
  match AuthMiddleware J cfg rdb now look authHeader with
  | .abort resp => (rdb, resp)
  | .next _ _ => Logout J cfg rdb now get black del authHeader

/-! ## api/v1/user_api.go, refresh -/

/-- `UserAPI.RefreshToken`.  `bind` is the outcome of `c.ShouldBindJSON(&req)`: the text of
the binding error, or the bound `req.RefreshToken` (the `required` tag makes a missing or
empty field a binding error); `device` is the `X-Device` header. -/
def RefreshToken (J : JWT) (cfg : JWTConfig) (rdb : Redis) (now : Int) (get save black : Conn)
    (bind : Except String String) (device : String) : Redis × Response :=
  match bind with
  | .error e => (rdb, ⟨400, [("error", e)]⟩)
  | .ok refreshToken =>
    let r := RotateRefreshToken J cfg rdb now get save black refreshToken device
    match r.err with
    | some e => (r.rdb, ⟨401, [("error", e)]⟩)
    | none => (r.rdb, ⟨200, [("access_token", r.accessToken), ("refresh_token", r.refreshToken)]⟩)

/-! ## The two halves of a rotation

`RotateRefreshToken` sends its Redis commands one by one.  To speak about two calls that
run at the same time the function is cut at the point between the session read and the
session write. -/

/-- Lines 81 to 98 of `RotateRefreshToken`: the checks up to and including the comparison
of the session record; the claims on success, the returned failure otherwise. -/
def rotateCheck (J : JWT) (cfg : JWTConfig) (rdb : Redis) (now : Int) (get : Conn)
    (refreshToken headerDevice : String) : Except Issued Claims :=
  if refreshToken = "" then .error ⟨rdb, "", "", some "missing refresh token"⟩
  else
    match ParseToken J cfg now refreshToken with
    | none => .error ⟨rdb, "", "", some "refresh token invalid"⟩
    | some claims =>
      if headerDevice ≠ "" ∧ headerDevice ≠ claims.Device then
        .error ⟨rdb, "", "", some "device mismatch"⟩
      else
        let got := GetRefreshToken rdb now get claims.UserID claims.Device
        if got.2 ≠ none ∨ got.1 ≠ refreshToken then
          .error ⟨rdb, "", "", some "refresh token expired or rotated"⟩
        else .ok claims

/-- Lines 100 to 113 of `RotateRefreshToken`: issue the new pair, save the new refresh
token, blacklist the old one. -/
def rotateIssue (J : JWT) (cfg : JWTConfig) (rdb : Redis) (now : Int) (save black : Conn)
    (refreshToken : String) (claims : Claims) : Issued :=
  let tokens := GenerateTokens J cfg now claims.UserID claims.Device
  let ttl := secondsDuration cfg.RefreshExpire
  let saved := SaveRefreshToken rdb now save claims.UserID claims.Device tokens.2 ttl
  match saved.2 with
  | some e => ⟨saved.1, "", "", some e⟩
  | none =>
    let listed := AddBlackList saved.1 now black refreshToken ttl
    ⟨listed.1, tokens.1, tokens.2, none⟩

/-! ## Integers in Redis and in headers -/

/-- The decimal rendering of an int64 (`%d`, and the way Redis stores a counter). -/
def fmtInt64 (z : Int) : String :=
  if z < 0 then "-" ++ Nat.repr z.natAbs else Nat.repr z.natAbs

/-- The value of a decimal digit character. -/
def digitVal (c : Char) : Nat := c.toNat - 48

/-- The number written by a list of decimal digits, most significant first. -/
def decVal (l : List Char) : Nat := l.foldl (fun a c => 10 * a + digitVal c) 0

/-- Read a non-empty list of decimal digits. -/
def parseDecimal (l : List Char) : Option Nat :=
  if l ≠ [] ∧ l.all Char.isDigit = true then some (decVal l) else none

/-- The integer a Redis string value stands for, as `INCR` reads it: the canonical decimal
rendering of an int64 and nothing else. -/
def parseInt64 (s : String) : Option Int :=
  let z : Option Int :=
    match s.data with
    | [] => none
    | c :: cs =>
      if c = '-' then (parseDecimal cs).map (fun n => -(n : Int))
      else (parseDecimal (c :: cs)).map (fun n => (n : Int))
  z.bind (fun v => if fmtInt64 v = s ∧ -(2 ^ 63) ≤ v ∧ v < 2 ^ 63 then some v else none)

/-- The client call `rdb.Incr(ctx, key).Result()`: a missing key counts as 0 and the new key
has no expiry; an existing key keeps its expiry. -/
def Redis.Incr (rdb : Redis) (now : Int) (conn : Conn) (key : String) : Redis × Int × GoError :=
  match conn with
  | .down m => (rdb, 0, some m)
  | .up =>
    match rdb.lookup now key with
    | none => (fun k => if k = key then some { value := "1", expireAt := none } else rdb k, 1, none)
    | some e =>
      match parseInt64 e.value with
      | none => (rdb, 0, some "ERR value is not an integer or out of range")
      | some n =>
        if n + 1 < 2 ^ 63 then
          (fun k => if k = key then some { value := fmtInt64 (n + 1), expireAt := e.expireAt }
            else rdb k, n + 1, none)
        else (rdb, 0, some "ERR increment or decrement would overflow")

/-- The helper `formatSec` of the Redis client: the whole seconds of a duration, a positive
duration below one second counting as one second. -/
def formatSec (dur : Int) : Int :=
  if 0 < dur ∧ dur < Second then 1
  else if 0 ≤ dur then dur / Second
  else -((-dur) / Second)

/-- The client call `rdb.Expire(ctx, key, expiration)`: `EXPIRE key formatSec(expiration)`.
On a missing key it does nothing; a timeout that is not positive deletes the key. -/
def Redis.Expire (rdb : Redis) (now : Int) (conn : Conn) (key : String) (expiration : Int) :
    Redis × Bool × GoError :=
  match conn with
  | .down m => (rdb, false, some m)
  | .up =>
    match rdb.lookup now key with
    | none => (rdb, false, none)
    | some e =>
      if formatSec expiration ≤ 0 then (fun k => if k = key then none else rdb k, true, none)
      else
        (fun k => if k = key then
            some { value := e.value, expireAt := some (now + formatSec expiration * Second) }
          else rdb k, true, none)

/-! ## middleware/rate_limit.go -/

/-- The key `fmt.Sprintf("rb:rl:%s:%s", limiterName, ip)`. -/
def rlKey (limiterName ip : String) : String :=
  "rb:rl:" ++ limiterName ++ ":" ++ ip

/-- Rounding of the quotient `a / b` (`b` positive) to the nearest integer, ties to even. -/
def roundHalfEven (a b : Int) : Int :=
  if 2 * (a % b) < b then a / b
  else if b < 2 * (a % b) then a / b + 1
  else if (a / b) % 2 = 0 then a / b else a / b + 1

/-- The text `fmt.Sprintf("%.f", window.Seconds())`: the seconds of the window rounded to an
integer.  Exact for a window of a whole number of seconds (below 2^53); for other windows the
floating-point value of `Seconds()` is replaced by the exact quotient. -/
def fmtSeconds (window : Int) : String := fmtInt64 (roundHalfEven window Second)

/-- What the limiter does with a request: the headers it sets, and the response with which
it aborts the chain (`none`: it calls `c.Next()`). -/
structure Limited where
  headers : List (String × String)
  abort : Option Response
  deriving DecidableEq, Repr

/-- The handler returned by `LoginRateLimiter(rdb, limit, window)` on a request from client
address `ip`; `incr` and `expire` are the connections of its two Redis commands. -/
def LoginRateLimiter (rdb : Redis) (now : Int) (incr expire : Conn) (limit window : Int)
    (ip : String) : Redis × Limited :=
  let key := rlKey "login" ip
  let inc := rdb.Incr now incr key
  match inc.2.2 with
  | some _ => (inc.1, ⟨[], some ⟨500, [("error", "rate limiter failed")]⟩⟩)
  | none =>
    let count := inc.2.1
    let rdb1 := if count = 1 then (inc.1.Expire now expire key window).1 else inc.1
    if limit < count then
      (rdb1, ⟨[("Retry-After", fmtSeconds window)],
        some ⟨429, [("error", "too many login attempts")]⟩⟩)
    else
      (rdb1, ⟨[("X-RateLimit-Limit", fmtInt64 limit),
          ("X-RateLimit-Remaining", fmtInt64 (wrapInt64 (limit - count)))], none⟩)

/-- A run of the limiter over the requests of one client address, in order; each request
comes with its instant and the connections of its two commands.  The result is the key
space at the end and what the limiter did with each request. -/
def limiterRun (limit window : Int) (ip : String) :
    Redis → List (Int × Conn × Conn) → Redis × List Limited
  | rdb, [] => (rdb, [])
  | rdb, (now, incr, expire) :: rest =>
    let r := LoginRateLimiter rdb now incr expire limit window ip
    let rs := limiterRun limit window ip r.1 rest
    (rs.1, r.2 :: rs.2)

/-- Lines 29 to 41 of the limiter: what it does with the request once `INCR` has returned
`count`. -/
def limiterAnswer (limit window count : Int) : Limited :=
  if limit < count then
    ⟨[("Retry-After", fmtSeconds window)], some ⟨429, [("error", "too many login attempts")]⟩⟩
  else
    ⟨[("X-RateLimit-Limit", fmtInt64 limit),
      ("X-RateLimit-Remaining", fmtInt64 (wrapInt64 (limit - count)))], none⟩

/-! ## A concrete client of the limiter -/

/-- The limit and the window that `main` gives the login limiter: 5 and `time.Minute`. -/
def demoLimit : Int := 5

/-- The window `time.Minute`, in nanoseconds. -/
def demoWindow : Int := 60000000000

/-- Five further requests of one address, 1 to 5 seconds after `t0`, every command working. -/
def demoHits : List (Int × Conn × Conn) :=
  [(t0 + 1000000000, Conn.up, Conn.up), (t0 + 2000000000, Conn.up, Conn.up),
   (t0 + 3000000000, Conn.up, Conn.up), (t0 + 4000000000, Conn.up, Conn.up),
   (t0 + 5000000000, Conn.up, Conn.up)]

/-- The key space in which address `10.0.0.1` has used up its five attempts in the window
that its first request opened at `t0`. -/
def demoCounter : Redis :=
  fun k => if k = rlKey "login" "10.0.0.1" then
    some { value := "5", expireAt := some (t0 + 60000000000) } else none

/-! ## internal/validator/validator.go

The standard package `regexp` is modelled for the syntax that the pattern of `IsMobile`
uses: literals, character ranges, `\d`, a counted repetition, concatenation and the two
anchors, without flags. -/

/-- A regular expression of the fragment. -/
inductive Regex where
  | lit (c : Char)
  | range (lo hi : Char)
  | digit
  | beginText
  | endText
  | cat (a b : Regex)
  | rep (r : Regex) (n : Nat)
  deriving Repr

/-- Run `f` exactly `n` times, one after the other, over every way the runs before it
ended. -/
def iterate (f : Bool → List Char → List (Bool × List Char)) :
    Nat → Bool → List Char → List (Bool × List Char)
  | 0, atStart, s => [(atStart, s)]
  | n + 1, atStart, s => (f atStart s).flatMap (fun p => iterate f n p.1 p.2)

/-- Every way in which the expression matches a prefix of `s`, the part of the text that is
still to be read; `atStart` says that nothing of the text lies before `s`.  Each result is
what is left of the text, with the flag for it.  `\d` is the class `[0-9]`; `^` holds at the
beginning of the text only and `$` at its end only. -/
def Regex.run : Regex → Bool → List Char → List (Bool × List Char)
  | .lit c, _, s =>
    match s with
    | [] => []
    | x :: xs => if x = c then [(false, xs)] else []
  | .range lo hi, _, s =>
    match s with
    | [] => []
    | x :: xs => if lo ≤ x ∧ x ≤ hi then [(false, xs)] else []
  | .digit, _, s =>
    match s with
    | [] => []
    | x :: xs => if '0' ≤ x ∧ x ≤ '9' then [(false, xs)] else []
  | .beginText, atStart, s => if atStart then [(atStart, s)] else []
  | .endText, atStart, s => if s = [] then [(atStart, s)] else []
  | .cat a b, atStart, s => (a.run atStart s).flatMap (fun p => b.run p.1 p.2)
  | .rep r n, atStart, s => iterate r.run n atStart s

/-- The method `(*Regexp).MatchString`: the expression matches somewhere in the text. -/
def Regex.MatchString (re : Regex) (s : String) : Bool :=
  (List.range (s.data.length + 1)).any
    (fun i => !(re.run (i == 0) (s.data.drop i)).isEmpty)

/-- The pattern `^1[3-9]\d{9}$`. -/
def mobilePattern : Regex :=
  .cat .beginText (.cat (.lit '1') (.cat (.range '3' '9') (.cat (.rep .digit 9) .endText)))

/-- `IsMobile`, on the string value of the validated field. -/
def IsMobile (mobile : String) : Bool :=
  mobilePattern.MatchString mobile

/-! ## The mobile numbers of the tests -/

/-- The text `fmt.Sprintf("%0{width}d", n)`: the decimal digits of `n`, padded with zeros on
the left to `width` characters, the sign of a negative number first. -/
def Sprintf0d (width : Nat) (n : Int) : String :=
  if n < 0 then
    String.mk ('-' :: (List.replicate (width - 1 - (Nat.repr n.natAbs).length) '0'
      ++ (Nat.repr n.natAbs).data))
  else
    String.mk (List.replicate (width - (Nat.repr n.natAbs).length) '0'
      ++ (Nat.repr n.natAbs).data)

/-- The mobile number of `endpointSmokeTests`:
`fmt.Sprintf("13%09d", time.Now().UnixNano()%1000000000)`. -/
def smokeMobile (unixNano : Int) : String :=
  "13" ++ Sprintf0d 9 (unixNano.tmod 1000000000)

/-- The mobile number of `TestUserLifecycle`:
`fmt.Sprintf("138%08d", time.Now().UnixNano()%100000000)`. -/
def lifecycleMobile (unixNano : Int) : String :=
  "138" ++ Sprintf0d 8 (unixNano.tmod 100000000)

end Redbook

namespace Redbook

/-! ## The concrete scheme is lawful -/

theorem splitDot_append (l rest : List Char) (h : ∀ c ∈ l, c ≠ '.') :
    splitDot (l ++ '.' :: rest) = some (l, rest) := by
  induction l with
  | nil => simp [splitDot]
  | cons a t ih =>
    have ha : a ≠ '.' := h a (by simp)
    have ht : ∀ c ∈ t, c ≠ '.' := fun c hc => h c (by simp [hc])
    simp [splitDot, ha, ih ht]

theorem digitChar_toNat (d : Nat) (h : d < 10) : (Char.ofNat (48 + d)).toNat - 48 = d := by
  interval_cases d <;> rfl

theorem digitChar_ne_dot (d : Nat) (h : d < 10) : Char.ofNat (48 + d) ≠ '.' := by
  interval_cases d <;> decide

theorem decNat_encNat (n : Nat) (rest : List Char) :
    decNat (encNat n ++ rest) = some (n, rest) := by
  have hlt : ∀ d ∈ Nat.digits 10 n, d < 10 := fun d hd => Nat.digits_lt_base (by norm_num) hd
  have hdot : ∀ c ∈ (Nat.digits 10 n).map (fun d => Char.ofNat (48 + d)), c ≠ '.' := by
    intro c hc
    obtain ⟨d, hd, rfl⟩ := List.mem_map.1 hc
    exact digitChar_ne_dot d (hlt d hd)
  have hback : ((Nat.digits 10 n).map (fun d => Char.ofNat (48 + d))).map
      (fun c => c.toNat - 48) = Nat.digits 10 n := by
    rw [List.map_map]
    conv_rhs => rw [← List.map_id (Nat.digits 10 n)]
    exact List.map_congr_left (fun d hd => digitChar_toNat d (hlt d hd))
  unfold decNat encNat
  rw [List.append_assoc, List.singleton_append, splitDot_append _ _ hdot]
  simp [hback, Nat.ofDigits_digits]

theorem decOpt_encOpt (o : Option Int) (rest : List Char) :
    decOpt (encOpt o ++ rest) = some (o, rest) := by
  cases o with
  | none => simp [encOpt, decOpt]
  | some z =>
    by_cases hz : z < 0
    · have h1 : (('m' : Char) = 'n') = False := by decide
      have h2 : -|z| = z := by rw [abs_of_neg hz]; omega
      simp [encOpt, decOpt, hz, decNat_encNat, h1, h2]
    · have h1 : (('p' : Char) = 'n') = False := by decide
      have h3 : (('p' : Char) = 'm') = False := by decide
      have h2 : |z| = z := abs_of_nonneg (by omega)
      simp [encOpt, decOpt, hz, decNat_encNat, h1, h2, h3]

theorem demoJWT_lawful : demoJWT.Lawful := by
  constructor
  · intro key c
    show demoDecode key (demoSign key c) = some c
    simp [demoDecode, demoSign, List.append_assoc, decNat_encNat, decOpt_encOpt]
  · intro key
    show demoDecode key "" = none
    simp [demoDecode, decNat, splitDot]

/-! ## Keys -/

theorem blackKey_ne_sessionKey (token : String) (userID : Nat) (device : String) :
    blackKey token ≠ sessionKey userID device := by
  intro h
  have h2 := congrArg String.data h
  simp [blackKey, sessionKey, String.data_append] at h2

theorem sessionKey_ne_blackKey (userID : Nat) (device : String) (token : String) :
    sessionKey userID device ≠ blackKey token :=
  fun h => blackKey_ne_sessionKey token userID device h.symm

/-! ## Basic facts -/

theorem HasPrefix_bearer (t : String) : HasPrefix ("Bearer " ++ t) "Bearer " = true := by
  simp [HasPrefix, String.data_append]

theorem TrimPrefix_bearer (t : String) : TrimPrefix ("Bearer " ++ t) "Bearer " = t := by
  simp [TrimPrefix, HasPrefix, String.data_append]

theorem signed_ne_empty {J : JWT} (hJ : J.Lawful) (key : String) (c : Claims) :
    J.SignedString key c ≠ "" := by
  intro h
  have h1 := hJ.decode_signed key c
  rw [h, hJ.decode_empty] at h1
  exact Option.noConfusion h1

theorem signed_injective {J : JWT} (hJ : J.Lawful) (key : String) (c c' : Claims)
    (h : J.SignedString key c = J.SignedString key c') : c = c' := by
  have h1 := hJ.decode_signed key c
  rw [h, hJ.decode_signed] at h1
  exact (Option.some.inj h1).symm

theorem ParseToken_signed {J : JWT} (hJ : J.Lawful) (cfg : JWTConfig) (now : Int) (c : Claims) :
    ParseToken J cfg now (J.SignedString cfg.Secret c) = if Validate now c then some c else none := by
  simp [ParseToken, ParseWithClaims, hJ.decode_signed]

theorem ParseToken_ne_empty {J : JWT} (hJ : J.Lawful) {cfg : JWTConfig} {now : Int}
    {tok : String} {c : Claims} (h : ParseToken J cfg now tok = some c) : tok ≠ "" := by
  intro he
  subst he
  simp [ParseToken, ParseWithClaims, hJ.decode_empty] at h

theorem ParseToken_decode {J : JWT} {cfg : JWTConfig} {now : Int} {tok : String} {c : Claims}
    (h : ParseToken J cfg now tok = some c) : J.Decode cfg.Secret tok = some c := by
  unfold ParseToken ParseWithClaims at h
  cases hd : J.Decode cfg.Secret tok with
  | none => simp [hd] at h
  | some c' =>
    simp only [hd] at h
    split at h
    · exact h
    · exact Option.noConfusion h

/-! ## Inversion of the successful runs -/

theorem Login_success {J : JWT} {cfg : JWTConfig} {D : Deps} {rdb : Redis} {now : Int}
    {save : Conn} {username password device : String}
    (h : (Login J cfg D rdb now save username password device).err = none) :
    ∃ user : User, D.GetByUsername username = some user ∧ user.ID ≠ 0 ∧
      Login J cfg D rdb now save username password device =
        ⟨(SaveRefreshToken rdb now save user.ID device
            (GenerateTokens J cfg now user.ID device).2 (secondsDuration cfg.RefreshExpire)).1,
          (GenerateTokens J cfg now user.ID device).1,
          (GenerateTokens J cfg now user.ID device).2, none⟩ := by
  unfold Login at h ⊢
  cases hu : D.GetByUsername username with
  | none => simp [hu] at h
  | some user =>
    simp only [hu] at h ⊢
    by_cases hid : user.ID = 0
    · simp [hid] at h
    · by_cases hpw : D.CheckPasswordHash password user.Password
      · refine ⟨user, rfl, hid, ?_⟩
        simp [hid, hpw]
      · simp [hid, hpw] at h

theorem Rotate_success {J : JWT} {cfg : JWTConfig} {rdb : Redis} {now : Int}
    {get save black : Conn} {refreshToken headerDevice : String}
    (h : (RotateRefreshToken J cfg rdb now get save black refreshToken headerDevice).err = none) :
    ∃ c : Claims, ParseToken J cfg now refreshToken = some c ∧ refreshToken ≠ "" ∧
      (headerDevice = "" ∨ headerDevice = c.Device) ∧
      GetRefreshToken rdb now get c.UserID c.Device = (refreshToken, none) ∧
      save = Conn.up ∧
      RotateRefreshToken J cfg rdb now get save black refreshToken headerDevice =
        ⟨(AddBlackList
            (SaveRefreshToken rdb now Conn.up c.UserID c.Device
              (GenerateTokens J cfg now c.UserID c.Device).2
              (secondsDuration cfg.RefreshExpire)).1
            now black refreshToken (secondsDuration cfg.RefreshExpire)).1,
          (GenerateTokens J cfg now c.UserID c.Device).1,
          (GenerateTokens J cfg now c.UserID c.Device).2, none⟩ := by
  unfold RotateRefreshToken at h ⊢
  by_cases he : refreshToken = ""
  · simp [he] at h
  · cases hp : ParseToken J cfg now refreshToken with
    | none => simp [he, hp] at h
    | some c =>
      simp only [he, hp, if_false] at h ⊢
      by_cases hd : headerDevice ≠ "" ∧ headerDevice ≠ c.Device
      · simp [hd] at h
      · simp only [hd, if_false] at h ⊢
        by_cases hg : (GetRefreshToken rdb now get c.UserID c.Device).2 ≠ none ∨
            (GetRefreshToken rdb now get c.UserID c.Device).1 ≠ refreshToken
        · simp [hg] at h
        · simp only [hg, if_false] at h ⊢
          cases save with
          | down m => simp [SaveRefreshToken, Redis.Set] at h
          | up =>
            refine ⟨c, rfl, he, ?_, ?_, rfl, ?_⟩
            · by_contra hc
              exact hd ⟨fun h1 => hc (Or.inl h1), fun h2 => hc (Or.inr h2)⟩
            · have h1 : (GetRefreshToken rdb now get c.UserID c.Device).2 = none := by
                by_contra hc; exact hg (Or.inl hc)
              have h2 : (GetRefreshToken rdb now get c.UserID c.Device).1 = refreshToken := by
                by_contra hc; exact hg (Or.inr hc)
              exact Prod.ext h2 h1
            · simp [SaveRefreshToken, Redis.Set]

/-! ## The key space after the writes of a rotation -/

theorem Redis.Get_value {rdb : Redis} {now : Int} {conn : Conn} {key : String}
    (h : (rdb.Get now conn key).2 = none) :
    ∃ e : Entry, rdb key = some e ∧ (rdb.Get now conn key).1 = e.value := by
  unfold Redis.Get at h ⊢
  cases conn with
  | down m => simp at h
  | up =>
    simp only at h ⊢
    cases hl : rdb.lookup now key with
    | none => simp [hl] at h
    | some e =>
      refine ⟨e, ?_, by simp⟩
      unfold Redis.lookup at hl
      cases hk : rdb key with
      | none => simp [hk] at hl
      | some e' =>
        simp only [hk] at hl
        cases hx : e'.expireAt with
        | none => simp only [hx] at hl; exact hl
        | some d =>
          simp only [hx] at hl
          split at hl
          · exact hl
          · exact Option.noConfusion hl

theorem session_after_rotation_writes (rdb : Redis) (now : Int) (black : Conn)
    (userID : Nat) (device newRefresh old : String) (ttl ttl2 : Int) :
    ∃ x : Option Int,
      (AddBlackList (SaveRefreshToken rdb now Conn.up userID device newRefresh ttl).1
        now black old ttl2).1 (sessionKey userID device) = some ⟨newRefresh, x⟩ := by
  have hk : sessionKey userID device ≠ blackKey old :=
    fun h => blackKey_ne_sessionKey _ _ _ h.symm
  cases black with
  | down m => exact ⟨_, by simp [AddBlackList, SaveRefreshToken, Redis.Set]; rfl⟩
  | up => exact ⟨_, by simp [AddBlackList, SaveRefreshToken, Redis.Set, hk]; rfl⟩

/-! ## C1: replay of a rotated refresh token -/

/-- C1 (as amended).  After a successful login that returned `r1` and one successful rotation
of `r1` in a later whole second than the login, every further rotation of `r1` with the same
device, at any instant and whatever the three Redis connections do, changes nothing, issues
no tokens and fails: with `refresh token expired or rotated` while `r1` still passes
`ParseToken`, with `refresh token invalid` once it no longer does. -/
theorem replay_after_rotation (J : JWT) (hJ : J.Lawful) (cfg : JWTConfig) (D : Deps)
    (rdb : Redis) (now0 now1 now2 : Int) (save0 get1 save1 black1 get2 save2 black2 : Conn)
    (username password device : String)
    (hlogin : (Login J cfg D rdb now0 save0 username password device).err = none)
    (hrot : (RotateRefreshToken J cfg (Login J cfg D rdb now0 save0 username password device).rdb
        now1 get1 save1 black1
        (Login J cfg D rdb now0 save0 username password device).refreshToken device).err = none)
    (hsec : NewNumericDate now1 ≠ NewNumericDate now0) :
    RotateRefreshToken J cfg
        (RotateRefreshToken J cfg (Login J cfg D rdb now0 save0 username password device).rdb
          now1 get1 save1 black1
          (Login J cfg D rdb now0 save0 username password device).refreshToken device).rdb
        now2 get2 save2 black2
        (Login J cfg D rdb now0 save0 username password device).refreshToken device
      = ⟨(RotateRefreshToken J cfg (Login J cfg D rdb now0 save0 username password device).rdb
          now1 get1 save1 black1
          (Login J cfg D rdb now0 save0 username password device).refreshToken device).rdb,
        "", "",
        some (if (ParseToken J cfg now2
            (Login J cfg D rdb now0 save0 username password device).refreshToken).isSome
          then "refresh token expired or rotated" else "refresh token invalid")⟩ := by
  obtain ⟨user, -, -, hL⟩ := Login_success hlogin
  rw [hL] at hrot ⊢
  simp only at hrot ⊢
  obtain ⟨c, hp, hne, hdev, hget, hsave, hR⟩ := Rotate_success hrot
  rw [hR]
  simp only
  -- the claims of the login token
  have hc : c = refreshClaims cfg now0 user.ID device := by
    have h1 := ParseToken_decode hp
    simp only [GenerateTokens] at h1
    rw [hJ.decode_signed] at h1
    exact (Option.some.inj h1).symm
  have hnew : (GenerateTokens J cfg now1 c.UserID c.Device).2 ≠
      (GenerateTokens J cfg now0 user.ID device).2 := by
    intro h
    simp only [GenerateTokens] at h
    have := signed_injective hJ _ _ _ h
    simp [hc, refreshClaims] at this
    exact hsec this.2
  unfold RotateRefreshToken
  simp only [hne, if_false]
  cases hp2 : ParseToken J cfg now2 (GenerateTokens J cfg now0 user.ID device).2 with
  | none => simp
  | some c2 =>
    have hc2 : c2 = c := by
      have h1 := ParseToken_decode hp
      have h2 := ParseToken_decode hp2
      rw [h1] at h2
      exact (Option.some.inj h2).symm
    subst hc2
    have hd : ¬ (device ≠ "" ∧ device ≠ c2.Device) := by
      rcases hdev with h | h
      · exact fun hh => hh.1 h
      · exact fun hh => hh.2 h
    simp only [hd, if_false]
    obtain ⟨x, hx⟩ := session_after_rotation_writes
      (SaveRefreshToken rdb now0 save0 user.ID device (GenerateTokens J cfg now0 user.ID device).2
        (secondsDuration cfg.RefreshExpire)).1
      now1 black1 c2.UserID c2.Device (GenerateTokens J cfg now1 c2.UserID c2.Device).2
      (GenerateTokens J cfg now0 user.ID device).2
      (secondsDuration cfg.RefreshExpire) (secondsDuration cfg.RefreshExpire)
    rw [if_pos]
    · simp [hp2]
    · by_contra hcon
      push_neg at hcon
      obtain ⟨e, he, hv⟩ := Redis.Get_value hcon.1
      rw [hx] at he
      have h3 := hcon.2
      unfold GetRefreshToken at h3
      rw [hv, ← Option.some.inj he] at h3
      exact hnew h3


theorem demo_login_ok (J : JWT) :
    (Login J demoCfg demoDeps noKeys t0 Conn.up "alice" "pw" "d1").err = none := by
  simp [Login, demoDeps]

theorem demo_rotate_next_second (J : JWT) (hJ : J.Lawful) :
    (RotateRefreshToken J demoCfg
        (Login J demoCfg demoDeps noKeys t0 Conn.up "alice" "pw" "d1").rdb
        (t0 + 1000000000) Conn.up Conn.up Conn.up
        (Login J demoCfg demoDeps noKeys t0 Conn.up "alice" "pw" "d1").refreshToken
        "d1").err = none := by
  have hne := signed_ne_empty hJ
  simp [Login, demoDeps, demoCfg, noKeys, t0, GenerateTokens, accessClaims, refreshClaims,
    RotateRefreshToken, ParseToken_signed hJ, Validate, NewNumericDate,
    secondsDuration, wrapInt64, Second, SaveRefreshToken, GetRefreshToken, Redis.Set,
    Redis.Get, Redis.lookup, AddBlackList, hne]

theorem demo_parse_two_seconds (J : JWT) (hJ : J.Lawful) :
    (ParseToken J demoCfg (t0 + 2000000000)
      (Login J demoCfg demoDeps noKeys t0 Conn.up "alice" "pw" "d1").refreshToken).isSome
      = true := by
  simp [Login, demoDeps, demoCfg, t0, GenerateTokens, refreshClaims,
    ParseToken_signed hJ, Validate, NewNumericDate, secondsDuration, wrapInt64,
    Second]

theorem demo_replay_same_second (J : JWT) (hJ : J.Lawful) :
    (demoLogin J t0 Conn.up).err = none ∧
      (demoRotate J (demoLogin J t0 Conn.up).rdb (t0 + 500000000) Conn.up
        (demoLogin J t0 Conn.up).refreshToken).err = none ∧
      (demoRotate J
        (demoRotate J (demoLogin J t0 Conn.up).rdb (t0 + 500000000) Conn.up
          (demoLogin J t0 Conn.up).refreshToken).rdb
        (t0 + 600000000) Conn.up (demoLogin J t0 Conn.up).refreshToken).err = none ∧
      (demoRotate J
        (demoRotate J (demoLogin J t0 Conn.up).rdb (t0 + 500000000) Conn.up
          (demoLogin J t0 Conn.up).refreshToken).rdb
        (t0 + 600000000) Conn.up (demoLogin J t0 Conn.up).refreshToken).refreshToken
        ≠ "" := by
  have hne := signed_ne_empty hJ
  have hk := sessionKey_ne_blackKey
  simp [demoLogin, demoRotate, Login, demoDeps, demoCfg, noKeys, t0, GenerateTokens,
    accessClaims, refreshClaims, RotateRefreshToken, ParseToken_signed hJ, Validate,
    NewNumericDate, secondsDuration, wrapInt64, Second, SaveRefreshToken, GetRefreshToken,
    Redis.Set, Redis.Get, Redis.lookup, AddBlackList, hne, hk]

theorem demo_replay_after_expiry (J : JWT) (hJ : J.Lawful) :
    (demoRotate J (demoLogin J t0 Conn.up).rdb (t0 + 1000000000) Conn.up
        (demoLogin J t0 Conn.up).refreshToken).err = none ∧
      (demoRotate J
        (demoRotate J (demoLogin J t0 Conn.up).rdb (t0 + 1000000000) Conn.up
          (demoLogin J t0 Conn.up).refreshToken).rdb
        (t0 + 691200000000000) Conn.up (demoLogin J t0 Conn.up).refreshToken).err
        = some "refresh token invalid" := by
  have hne := signed_ne_empty hJ
  have hk := sessionKey_ne_blackKey
  simp [demoLogin, demoRotate, Login, demoDeps, demoCfg, noKeys, t0, GenerateTokens,
    accessClaims, refreshClaims, RotateRefreshToken, ParseToken_signed hJ, Validate,
    NewNumericDate, secondsDuration, wrapInt64, Second, SaveRefreshToken, GetRefreshToken,
    Redis.Set, Redis.Get, Redis.lookup, AddBlackList, hne, hk]

/-- C1, witness: login at `t0`, rotation one second later, replay two seconds later. -/
theorem replay_after_rotation_witness :
    demoJWT.Lawful ∧
    (Login demoJWT demoCfg demoDeps noKeys t0 Conn.up "alice" "pw" "d1").err = none ∧
    (RotateRefreshToken demoJWT demoCfg
        (Login demoJWT demoCfg demoDeps noKeys t0 Conn.up "alice" "pw" "d1").rdb
        (t0 + 1000000000) Conn.up Conn.up Conn.up
        (Login demoJWT demoCfg demoDeps noKeys t0 Conn.up "alice" "pw" "d1").refreshToken
        "d1").err = none ∧
    NewNumericDate (t0 + 1000000000) ≠ NewNumericDate t0 ∧
    (RotateRefreshToken demoJWT demoCfg
        (RotateRefreshToken demoJWT demoCfg
          (Login demoJWT demoCfg demoDeps noKeys t0 Conn.up "alice" "pw" "d1").rdb
          (t0 + 1000000000) Conn.up Conn.up Conn.up
          (Login demoJWT demoCfg demoDeps noKeys t0 Conn.up "alice" "pw" "d1").refreshToken
          "d1").rdb
        (t0 + 2000000000) Conn.up Conn.up Conn.up
        (Login demoJWT demoCfg demoDeps noKeys t0 Conn.up "alice" "pw" "d1").refreshToken
        "d1").err = some "refresh token expired or rotated" := by
  have h1 := demo_login_ok demoJWT
  have h2 := demo_rotate_next_second demoJWT demoJWT_lawful
  have h3 : NewNumericDate (t0 + 1000000000) ≠ NewNumericDate t0 := by
    simp [NewNumericDate, t0, Second]
  refine ⟨demoJWT_lawful, h1, h2, h3, ?_⟩
  rw [replay_after_rotation demoJWT demoJWT_lawful demoCfg demoDeps noKeys t0 (t0 + 1000000000)
    (t0 + 2000000000) Conn.up Conn.up Conn.up Conn.up Conn.up Conn.up Conn.up "alice" "pw" "d1"
    h1 h2 h3, demo_parse_two_seconds demoJWT demoJWT_lawful]
  rfl

/-- C1, counterexample.  (1) Login at `t0`, rotation of the login's refresh token half a
second later, in the same whole second: the rotation succeeds and a replay of the same
token 100 ms later succeeds too and issues tokens.  (2) Login at `t0`, rotation one second
later, replay eight days later, after the token's expiry: the replay fails with
`refresh token invalid`, not with `refresh token expired or rotated`. -/
theorem replay_counterexample :
    ((demoLogin demoJWT t0 Conn.up).err = none ∧
      (demoRotate demoJWT (demoLogin demoJWT t0 Conn.up).rdb (t0 + 500000000) Conn.up
        (demoLogin demoJWT t0 Conn.up).refreshToken).err = none ∧
      (demoRotate demoJWT
        (demoRotate demoJWT (demoLogin demoJWT t0 Conn.up).rdb (t0 + 500000000) Conn.up
          (demoLogin demoJWT t0 Conn.up).refreshToken).rdb
        (t0 + 600000000) Conn.up (demoLogin demoJWT t0 Conn.up).refreshToken).err = none ∧
      (demoRotate demoJWT
        (demoRotate demoJWT (demoLogin demoJWT t0 Conn.up).rdb (t0 + 500000000) Conn.up
          (demoLogin demoJWT t0 Conn.up).refreshToken).rdb
        (t0 + 600000000) Conn.up (demoLogin demoJWT t0 Conn.up).refreshToken).refreshToken
        ≠ "") ∧
    ((demoRotate demoJWT (demoLogin demoJWT t0 Conn.up).rdb (t0 + 1000000000) Conn.up
        (demoLogin demoJWT t0 Conn.up).refreshToken).err = none ∧
      (demoRotate demoJWT
        (demoRotate demoJWT (demoLogin demoJWT t0 Conn.up).rdb (t0 + 1000000000) Conn.up
          (demoLogin demoJWT t0 Conn.up).refreshToken).rdb
        (t0 + 691200000000000) Conn.up (demoLogin demoJWT t0 Conn.up).refreshToken).err
        = some "refresh token invalid") :=
  ⟨demo_replay_same_second demoJWT demoJWT_lawful, demo_replay_after_expiry demoJWT demoJWT_lawful⟩

/-! ## C2: the refresh token returned by a rotation -/

/-- C2, at the failing input.  With any lawful signing scheme: login at `t0`, then rotation
of the login's refresh token half a second later, inside the same whole second.  The
rotation succeeds and the refresh token it returns is the very string it was given. -/
theorem rotation_in_issuing_second_returns_input (J : JWT) (hJ : J.Lawful) :
    (demoLogin J t0 Conn.up).err = none ∧
    (demoRotate J (demoLogin J t0 Conn.up).rdb (t0 + 500000000) Conn.up
      (demoLogin J t0 Conn.up).refreshToken).err = none ∧
    (demoRotate J (demoLogin J t0 Conn.up).rdb (t0 + 500000000) Conn.up
      (demoLogin J t0 Conn.up).refreshToken).refreshToken
      = (demoLogin J t0 Conn.up).refreshToken := by
  have hne := signed_ne_empty hJ
  simp [demoLogin, demoRotate, Login, demoDeps, demoCfg, noKeys, t0, GenerateTokens,
    accessClaims, refreshClaims, RotateRefreshToken, ParseToken_signed hJ, Validate,
    NewNumericDate, secondsDuration, wrapInt64, Second, SaveRefreshToken, GetRefreshToken,
    Redis.Set, Redis.Get, Redis.lookup, AddBlackList, hne]

/-- C2, witness: the failing run with the concrete signing scheme. -/
theorem rotation_in_issuing_second_witness :
    demoJWT.Lawful ∧
    (demoLogin demoJWT t0 Conn.up).err = none ∧
    (demoRotate demoJWT (demoLogin demoJWT t0 Conn.up).rdb (t0 + 500000000) Conn.up
      (demoLogin demoJWT t0 Conn.up).refreshToken).err = none ∧
    (demoRotate demoJWT (demoLogin demoJWT t0 Conn.up).rdb (t0 + 500000000) Conn.up
      (demoLogin demoJWT t0 Conn.up).refreshToken).refreshToken
      = (demoLogin demoJWT t0 Conn.up).refreshToken :=
  ⟨demoJWT_lawful, rotation_in_issuing_second_returns_input demoJWT demoJWT_lawful⟩

/-! ## C3: the first rotation after a login -/

/-- C3, at the failing input.  With any lawful signing scheme: a login whose session write
fails (`save` is down) still returns success and a non-empty refresh token; the rotation of
that token one second later, with every Redis command working, fails with
`refresh token expired or rotated` and issues nothing. -/
theorem login_with_failed_save_cannot_rotate (J : JWT) (hJ : J.Lawful) :
    (demoLogin J t0 (Conn.down "i/o timeout")).err = none ∧
    (demoLogin J t0 (Conn.down "i/o timeout")).refreshToken ≠ "" ∧
    demoRotate J (demoLogin J t0 (Conn.down "i/o timeout")).rdb (t0 + 1000000000) Conn.up
      (demoLogin J t0 (Conn.down "i/o timeout")).refreshToken
      = ⟨noKeys, "", "", some "refresh token expired or rotated"⟩ := by
  have hne := signed_ne_empty hJ
  simp [demoLogin, demoRotate, Login, demoDeps, demoCfg, noKeys, t0, GenerateTokens,
    accessClaims, refreshClaims, RotateRefreshToken, ParseToken_signed hJ, Validate,
    NewNumericDate, secondsDuration, wrapInt64, Second, SaveRefreshToken, GetRefreshToken,
    Redis.Set, Redis.Get, Redis.lookup, AddBlackList, hne]

/-- C3, witness: the failing run with the concrete signing scheme. -/
theorem login_with_failed_save_witness :
    demoJWT.Lawful ∧
    (demoLogin demoJWT t0 (Conn.down "i/o timeout")).err = none ∧
    (demoLogin demoJWT t0 (Conn.down "i/o timeout")).refreshToken ≠ "" ∧
    demoRotate demoJWT (demoLogin demoJWT t0 (Conn.down "i/o timeout")).rdb (t0 + 1000000000)
      Conn.up (demoLogin demoJWT t0 (Conn.down "i/o timeout")).refreshToken
      = ⟨noKeys, "", "", some "refresh token expired or rotated"⟩ :=
  ⟨demoJWT_lawful, login_with_failed_save_cannot_rotate demoJWT demoJWT_lawful⟩

/-! ## C4: the key space after a successful rotation -/

theorem Redis.lookup_live {rdb : Redis} {now : Int} {key : String} {e : Entry}
    (h : rdb.lookup now key = some e) :
    rdb key = some e ∧ ∀ d, e.expireAt = some d → now < d := by
  unfold Redis.lookup at h
  cases hk : rdb key with
  | none => simp [hk] at h
  | some e' =>
    simp only [hk] at h
    cases hx : e'.expireAt with
    | none =>
      simp only [hx] at h
      have := Option.some.inj h
      subst this
      exact ⟨rfl, fun d hd => by rw [hx] at hd; exact Option.noConfusion hd⟩
    | some d' =>
      simp only [hx] at h
      split at h
      · have := Option.some.inj h
        subst this
        refine ⟨rfl, fun d hd => ?_⟩
        rw [hx] at hd
        have := Option.some.inj hd
        omega
      · exact Option.noConfusion h

theorem Redis.lookup_of_live {rdb : Redis} {now : Int} {key : String} {e : Entry}
    (hk : rdb key = some e) (hl : ∀ d, e.expireAt = some d → now < d) :
    rdb.lookup now key = some e := by
  unfold Redis.lookup
  simp only [hk]
  cases hx : e.expireAt with
  | none => rfl
  | some d => simp [hl d hx]

theorem Redis.Set_lookup_self (rdb : Redis) (now : Int) (key value : String) (ttl : Int) :
    ∃ x : Option Int, (rdb.Set now Conn.up key value ttl).1 key = some ⟨value, x⟩ ∧
      (rdb.Set now Conn.up key value ttl).1.lookup now key = some ⟨value, x⟩ ∧
      (0 < ttl → x = some (now + ttl)) := by
  have key_eq : ∀ x : Option Int,
      (fun k => if k = key then some (Entry.mk value x) else rdb k) key
        = some ⟨value, x⟩ := fun x => by simp
  have hset : (rdb.Set now Conn.up key value ttl).1 key
      = some ⟨value, if 0 < ttl then some (now + ttl)
          else if ttl = -1 then (rdb.lookup now key).bind (fun e => e.expireAt)
          else none⟩ := by
    show (if key = key then _ else _) = _
    rw [if_pos rfl]
  refine ⟨_, hset, Redis.lookup_of_live hset ?_, fun h => by simp [h]⟩
  intro d hd
  simp only at hd
  by_cases h0 : 0 < ttl
  · rw [if_pos h0] at hd
    have := Option.some.inj hd
    omega
  · rw [if_neg h0] at hd
    by_cases h1 : ttl = -1
    · rw [if_pos h1] at hd
      cases hl : rdb.lookup now key with
      | none => rw [hl] at hd; exact Option.noConfusion hd
      | some e =>
        rw [hl] at hd
        exact (Redis.lookup_live hl).2 d hd
    · rw [if_neg h1] at hd
      exact Option.noConfusion hd

theorem Redis.Set_other (rdb : Redis) (now : Int) (conn : Conn) (key value : String) (ttl : Int)
    (key' : String) (h : key' ≠ key) : (rdb.Set now conn key value ttl).1 key' = rdb key' := by
  cases conn <;> simp [Redis.Set, h]

theorem Redis.Set_down (rdb : Redis) (now : Int) (m : String) (key value : String) (ttl : Int) :
    (rdb.Set now (Conn.down m) key value ttl).1 = rdb := rfl

theorem Redis.lookup_congr {rdb rdb' : Redis} {key : String} (h : rdb' key = rdb key)
    (now : Int) : rdb'.lookup now key = rdb.lookup now key := by
  unfold Redis.lookup
  rw [h]

theorem Redis.Get_congr {rdb rdb' : Redis} {key : String} (h : rdb' key = rdb key)
    (now : Int) (conn : Conn) : rdb'.Get now conn key = rdb.Get now conn key := by
  unfold Redis.Get
  rw [Redis.lookup_congr h]

/-- C4 (as amended).  Whenever a rotation of `r` returns success with the new refresh token
`r'`, whatever the blacklist write did: `r` passes `ParseToken` with some claims `c`, the key
space holds `r'` under the session key of `(c.UserID, c.Device)` and a read of that session
returns exactly `r'`; and if the blacklist write went through, the key space holds the marker
`1` under the blacklist key of `r`, expiring one refresh lifetime after the rotation (when
the configured lifetime is positive).  If the blacklist write failed the rotation still
succeeds and the blacklist key of `r` is as it was before the call. -/
theorem rotation_post_state (J : JWT) (cfg : JWTConfig) (rdb : Redis) (now : Int)
    (get save black : Conn) (r headerDevice : String)
    (h : (RotateRefreshToken J cfg rdb now get save black r headerDevice).err = none) :
    ∃ c : Claims, ParseToken J cfg now r = some c ∧
      (∃ x : Option Int,
        (RotateRefreshToken J cfg rdb now get save black r headerDevice).rdb
          (sessionKey c.UserID c.Device)
          = some ⟨(RotateRefreshToken J cfg rdb now get save black r headerDevice).refreshToken,
              x⟩) ∧
      GetRefreshToken (RotateRefreshToken J cfg rdb now get save black r headerDevice).rdb
          now Conn.up c.UserID c.Device
        = ((RotateRefreshToken J cfg rdb now get save black r headerDevice).refreshToken,
            none) ∧
      (black = Conn.up →
        ∃ e : Entry,
          (RotateRefreshToken J cfg rdb now get save black r headerDevice).rdb (blackKey r)
            = some e ∧ e.value = "1" ∧
          (0 < secondsDuration cfg.RefreshExpire →
            e.expireAt = some (now + secondsDuration cfg.RefreshExpire))) ∧
      (∀ m : String, black = Conn.down m →
        (RotateRefreshToken J cfg rdb now get save black r headerDevice).rdb (blackKey r)
          = rdb (blackKey r)) := by
  obtain ⟨c, hp, -, -, -, -, hR⟩ := Rotate_success h
  refine ⟨c, hp, ?_⟩
  rw [hR]
  simp only
  obtain ⟨x, hx1, hx2, -⟩ := Redis.Set_lookup_self rdb now (sessionKey c.UserID c.Device)
    (GenerateTokens J cfg now c.UserID c.Device).2 (secondsDuration cfg.RefreshExpire)
  have hk := sessionKey_ne_blackKey c.UserID c.Device r
  have hk2 := blackKey_ne_sessionKey r c.UserID c.Device
  have hsess : (AddBlackList
      (SaveRefreshToken rdb now Conn.up c.UserID c.Device
        (GenerateTokens J cfg now c.UserID c.Device).2 (secondsDuration cfg.RefreshExpire)).1
      now black r (secondsDuration cfg.RefreshExpire)).1 (sessionKey c.UserID c.Device)
      = (rdb.Set now Conn.up (sessionKey c.UserID c.Device)
        (GenerateTokens J cfg now c.UserID c.Device).2 (secondsDuration cfg.RefreshExpire)).1
        (sessionKey c.UserID c.Device) :=
    Redis.Set_other _ now black (blackKey r) "1" _ _ hk
  refine ⟨⟨x, hsess.trans hx1⟩, ?_, ?_, ?_⟩
  · unfold GetRefreshToken
    rw [Redis.Get_congr hsess]
    simp [Redis.Get, hx2]
  · intro hb
    subst hb
    obtain ⟨y, hy1, -, hy3⟩ := Redis.Set_lookup_self
      (SaveRefreshToken rdb now Conn.up c.UserID c.Device
        (GenerateTokens J cfg now c.UserID c.Device).2 (secondsDuration cfg.RefreshExpire)).1
      now (blackKey r) "1" (secondsDuration cfg.RefreshExpire)
    exact ⟨_, hy1, rfl, hy3⟩
  · intro m hb
    subst hb
    simp only [AddBlackList, Redis.Set_down, SaveRefreshToken]
    exact Redis.Set_other _ _ _ _ _ _ _ hk2

theorem InBlackList_up (rdb : Redis) (now : Int) (token : String) :
    InBlackList rdb now Conn.up token = ((rdb.lookup now (blackKey token)).isSome, none) := by
  unfold InBlackList Redis.Exists
  cases h : rdb.lookup now (blackKey token) <;> simp

theorem InBlackList_down (rdb : Redis) (now : Int) (m : String) (token : String) :
    InBlackList rdb now (Conn.down m) token = (false, some m) := by
  simp [InBlackList, Redis.Exists]

theorem demo_rotate_ok (J : JWT) (hJ : J.Lawful) (black : Conn) :
    (demoRotate J (demoLogin J t0 Conn.up).rdb (t0 + 1000000000) black
      (demoLogin J t0 Conn.up).refreshToken).err = none := by
  have hne := signed_ne_empty hJ
  cases black <;>
  simp only [demoRotate, demoLogin] <;>
  simp [demoLogin, demoRotate, Login, demoDeps, demoCfg, noKeys, t0, GenerateTokens,
    accessClaims, refreshClaims, RotateRefreshToken, ParseToken_signed hJ, Validate,
    NewNumericDate, secondsDuration, wrapInt64, Second, SaveRefreshToken, GetRefreshToken,
    Redis.Set, Redis.Get, Redis.lookup, AddBlackList, hne]

theorem demo_rotate_blacklist_down (J : JWT) (hJ : J.Lawful) :
    InBlackList
      (demoRotate J (demoLogin J t0 Conn.up).rdb (t0 + 1000000000) (Conn.down "i/o timeout")
        (demoLogin J t0 Conn.up).refreshToken).rdb
      (t0 + 1000000000) Conn.up (demoLogin J t0 Conn.up).refreshToken = (false, none) := by
  have hne := signed_ne_empty hJ
  have hk := blackKey_ne_sessionKey
  simp [demoLogin, demoRotate, Login, demoDeps, demoCfg, noKeys, t0, GenerateTokens,
    accessClaims, refreshClaims, RotateRefreshToken, ParseToken_signed hJ, Validate,
    NewNumericDate, secondsDuration, wrapInt64, Second, SaveRefreshToken, GetRefreshToken,
    Redis.Set, Redis.Get, Redis.lookup, AddBlackList, InBlackList_up, hne, hk]

/-- C4, witness: login at `t0`, rotation one second later with every command working. -/
theorem rotation_post_state_witness :
    (RotateRefreshToken demoJWT demoCfg
          (Login demoJWT demoCfg demoDeps noKeys t0 Conn.up "alice" "pw" "d1").rdb
          (t0 + 1000000000) Conn.up Conn.up Conn.up
          (Login demoJWT demoCfg demoDeps noKeys t0 Conn.up "alice" "pw" "d1").refreshToken "d1").err = none ∧
    ∃ c : Claims,
      ParseToken demoJWT demoCfg (t0 + 1000000000)
        (Login demoJWT demoCfg demoDeps noKeys t0 Conn.up "alice" "pw" "d1").refreshToken = some c ∧
      (∃ x : Option Int,
        (RotateRefreshToken demoJWT demoCfg
          (Login demoJWT demoCfg demoDeps noKeys t0 Conn.up "alice" "pw" "d1").rdb
          (t0 + 1000000000) Conn.up Conn.up Conn.up
          (Login demoJWT demoCfg demoDeps noKeys t0 Conn.up "alice" "pw" "d1").refreshToken "d1").rdb (sessionKey c.UserID c.Device)
          = some ⟨(RotateRefreshToken demoJWT demoCfg
          (Login demoJWT demoCfg demoDeps noKeys t0 Conn.up "alice" "pw" "d1").rdb
          (t0 + 1000000000) Conn.up Conn.up Conn.up
          (Login demoJWT demoCfg demoDeps noKeys t0 Conn.up "alice" "pw" "d1").refreshToken "d1").refreshToken, x⟩) ∧
      GetRefreshToken
          (RotateRefreshToken demoJWT demoCfg
          (Login demoJWT demoCfg demoDeps noKeys t0 Conn.up "alice" "pw" "d1").rdb
          (t0 + 1000000000) Conn.up Conn.up Conn.up
          (Login demoJWT demoCfg demoDeps noKeys t0 Conn.up "alice" "pw" "d1").refreshToken "d1").rdb
          (t0 + 1000000000) Conn.up c.UserID c.Device
        = ((RotateRefreshToken demoJWT demoCfg
          (Login demoJWT demoCfg demoDeps noKeys t0 Conn.up "alice" "pw" "d1").rdb
          (t0 + 1000000000) Conn.up Conn.up Conn.up
          (Login demoJWT demoCfg demoDeps noKeys t0 Conn.up "alice" "pw" "d1").refreshToken "d1").refreshToken, none) ∧
      (Conn.up = Conn.up →
        ∃ e : Entry,
          (RotateRefreshToken demoJWT demoCfg
          (Login demoJWT demoCfg demoDeps noKeys t0 Conn.up "alice" "pw" "d1").rdb
          (t0 + 1000000000) Conn.up Conn.up Conn.up
          (Login demoJWT demoCfg demoDeps noKeys t0 Conn.up "alice" "pw" "d1").refreshToken "d1").rdb
            (blackKey (Login demoJWT demoCfg demoDeps noKeys t0 Conn.up "alice" "pw" "d1").refreshToken) = some e ∧
          e.value = "1" ∧
          (0 < secondsDuration demoCfg.RefreshExpire →
            e.expireAt = some (t0 + 1000000000 + secondsDuration demoCfg.RefreshExpire))) ∧
      (∀ m : String, Conn.up = Conn.down m →
        (RotateRefreshToken demoJWT demoCfg
          (Login demoJWT demoCfg demoDeps noKeys t0 Conn.up "alice" "pw" "d1").rdb
          (t0 + 1000000000) Conn.up Conn.up Conn.up
          (Login demoJWT demoCfg demoDeps noKeys t0 Conn.up "alice" "pw" "d1").refreshToken "d1").rdb
          (blackKey (Login demoJWT demoCfg demoDeps noKeys t0 Conn.up "alice" "pw" "d1").refreshToken)
          = (Login demoJWT demoCfg demoDeps noKeys t0 Conn.up "alice" "pw" "d1").rdb
              (blackKey (Login demoJWT demoCfg demoDeps noKeys t0 Conn.up "alice" "pw" "d1").refreshToken)) :=
  ⟨demo_rotate_next_second demoJWT demoJWT_lawful,
    rotation_post_state demoJWT demoCfg
      (Login demoJWT demoCfg demoDeps noKeys t0 Conn.up "alice" "pw" "d1").rdb (t0 + 1000000000)
      Conn.up Conn.up Conn.up
      (Login demoJWT demoCfg demoDeps noKeys t0 Conn.up "alice" "pw" "d1").refreshToken "d1"
      (demo_rotate_next_second demoJWT demoJWT_lawful)⟩

/-- C4, counterexample: login at `t0`, rotation one second later whose blacklist write fails
with a timeout.  The rotation returns success, and afterwards the rotated-out token is not
in the blacklist. -/
theorem rotation_without_blacklist_entry :
    (demoRotate demoJWT (demoLogin demoJWT t0 Conn.up).rdb (t0 + 1000000000)
      (Conn.down "i/o timeout") (demoLogin demoJWT t0 Conn.up).refreshToken).err = none ∧
    InBlackList
      (demoRotate demoJWT (demoLogin demoJWT t0 Conn.up).rdb (t0 + 1000000000)
        (Conn.down "i/o timeout") (demoLogin demoJWT t0 Conn.up).refreshToken).rdb
      (t0 + 1000000000) Conn.up (demoLogin demoJWT t0 Conn.up).refreshToken = (false, none) :=
  ⟨demo_rotate_ok demoJWT demoJWT_lawful (Conn.down "i/o timeout"),
    demo_rotate_blacklist_down demoJWT demoJWT_lawful⟩

/-! ## C5: the device hint -/

/-- C5.  Let `r` pass `ParseToken` with claims `c`.  (1) For every non-empty hint different
from `c.Device` the rotation fails with `device mismatch`, changes nothing and issues
nothing, whatever the key space holds and whatever the connections do.  (2) With the empty
hint the rotation is the rotation with the matching hint `c.Device`: the device check plays
no part, and what decides is the comparison of the session record with `r`: if the read fails
or returns another value the result is `refresh token expired or rotated`; if it returns `r`
the rotation goes on to issue the pair, which succeeds when the session write goes through
and returns the write's error when it does not. -/
theorem device_hint_check (J : JWT) (hJ : J.Lawful) (cfg : JWTConfig) (rdb : Redis) (now : Int)
    (get save black : Conn) (r : String) (c : Claims)
    (hp : ParseToken J cfg now r = some c) :
    (∀ hint : String, hint ≠ "" → hint ≠ c.Device →
      RotateRefreshToken J cfg rdb now get save black r hint
        = ⟨rdb, "", "", some "device mismatch"⟩) ∧
    RotateRefreshToken J cfg rdb now get save black r ""
      = RotateRefreshToken J cfg rdb now get save black r c.Device ∧
    (GetRefreshToken rdb now get c.UserID c.Device ≠ (r, none) →
      RotateRefreshToken J cfg rdb now get save black r ""
        = ⟨rdb, "", "", some "refresh token expired or rotated"⟩) ∧
    (GetRefreshToken rdb now get c.UserID c.Device = (r, none) →
      (save = Conn.up →
        (RotateRefreshToken J cfg rdb now get save black r "").err = none ∧
        (RotateRefreshToken J cfg rdb now get save black r "").refreshToken
          = (GenerateTokens J cfg now c.UserID c.Device).2 ∧
        (RotateRefreshToken J cfg rdb now get save black r "").accessToken
          = (GenerateTokens J cfg now c.UserID c.Device).1) ∧
      (∀ m : String, save = Conn.down m →
        RotateRefreshToken J cfg rdb now get save black r "" = ⟨rdb, "", "", some m⟩)) := by
  have hne : r ≠ "" := ParseToken_ne_empty hJ hp
  refine ⟨?_, ?_, ?_, ?_⟩
  · intro hint h1 h2
    simp [RotateRefreshToken, hne, hp, h1, h2]
  · simp [RotateRefreshToken, hne, hp]
  · intro hg
    have hg' : (GetRefreshToken rdb now get c.UserID c.Device).2 ≠ none ∨
        (GetRefreshToken rdb now get c.UserID c.Device).1 ≠ r := by
      by_contra hcon
      push_neg at hcon
      exact hg (Prod.ext hcon.2 hcon.1)
    simp only [RotateRefreshToken, hne, hp, if_false]
    rw [if_neg (by simp), if_pos hg']
  · intro hg
    have hg' : ¬ ((GetRefreshToken rdb now get c.UserID c.Device).2 ≠ none ∨
        (GetRefreshToken rdb now get c.UserID c.Device).1 ≠ r) := by
      rw [hg]; simp
    constructor
    · intro hs
      subst hs
      simp only [RotateRefreshToken, hne, hp, if_false]
      rw [if_neg (by simp), if_neg hg']
      simp [SaveRefreshToken, Redis.Set]
    · intro m hs
      subst hs
      simp only [RotateRefreshToken, hne, hp, if_false]
      rw [if_neg (by simp), if_neg hg']
      simp [SaveRefreshToken, Redis.Set]

theorem demo_parse_next_second (J : JWT) (hJ : J.Lawful) :
    ParseToken J demoCfg (t0 + 1000000000)
      (Login J demoCfg demoDeps noKeys t0 Conn.up "alice" "pw" "d1").refreshToken
      = some (refreshClaims demoCfg t0 1 "d1") := by
  simp [Login, demoDeps, demoCfg, t0, GenerateTokens, refreshClaims,
    ParseToken_signed hJ, Validate, NewNumericDate, secondsDuration, wrapInt64, Second]

/-- C5, witness: the refresh token of the login at `t0`, presented one second later with the
hint `other-device`. -/
theorem device_hint_check_witness :
    demoJWT.Lawful ∧
    ParseToken demoJWT demoCfg (t0 + 1000000000)
      (Login demoJWT demoCfg demoDeps noKeys t0 Conn.up "alice" "pw" "d1").refreshToken
      = some (refreshClaims demoCfg t0 1 "d1") ∧
    RotateRefreshToken demoJWT demoCfg
      (Login demoJWT demoCfg demoDeps noKeys t0 Conn.up "alice" "pw" "d1").rdb
      (t0 + 1000000000) Conn.up Conn.up Conn.up
      (Login demoJWT demoCfg demoDeps noKeys t0 Conn.up "alice" "pw" "d1").refreshToken
      "other-device"
      = ⟨(Login demoJWT demoCfg demoDeps noKeys t0 Conn.up "alice" "pw" "d1").rdb, "", "",
          some "device mismatch"⟩ :=
  ⟨demoJWT_lawful, demo_parse_next_second demoJWT demoJWT_lawful,
    (device_hint_check demoJWT demoJWT_lawful demoCfg
      (Login demoJWT demoCfg demoDeps noKeys t0 Conn.up "alice" "pw" "d1").rdb
      (t0 + 1000000000) Conn.up Conn.up Conn.up
      (Login demoJWT demoCfg demoDeps noKeys t0 Conn.up "alice" "pw" "d1").refreshToken
      (refreshClaims demoCfg t0 1 "d1")
      (demo_parse_next_second demoJWT demoJWT_lawful)).1 "other-device"
      (by decide) (by decide)⟩

/-! ## C6 and C7: the authenticated-request guard -/

/-- C6, what the guard does on every request.  `AuthMiddleware` lets a request through if and
only if the `Authorization` header starts with `Bearer `, `ParseToken` accepts the token after
the prefix, and the blacklist lookup did not answer that the token is listed, which is the
case when the key space has no live marker for the token or when the lookup itself failed.
When it lets the request through, `user_id` and `device` are those of the token's claims.
When the lookup works and the marker is live the answer is 401 `token invalid`, whatever
`ParseToken` says.  The claim holds on every request whose lookup works and fails on the
others. -/
theorem auth_middleware_exact (J : JWT) (cfg : JWTConfig) (rdb : Redis) (now : Int)
    (look : Conn) (authHeader : String) :
    ((∃ u d, AuthMiddleware J cfg rdb now look authHeader = Guard.next u d) ↔
      HasPrefix authHeader "Bearer " = true ∧
      (∃ c, ParseToken J cfg now (TrimPrefix authHeader "Bearer ") = some c) ∧
      ((∃ m, look = Conn.down m) ∨
        rdb.lookup now (blackKey (TrimPrefix authHeader "Bearer ")) = none)) ∧
    (∀ u d, AuthMiddleware J cfg rdb now look authHeader = Guard.next u d →
      ∃ c, ParseToken J cfg now (TrimPrefix authHeader "Bearer ") = some c ∧
        u = c.UserID ∧ d = c.Device) ∧
    (look = Conn.up → HasPrefix authHeader "Bearer " = true →
      (rdb.lookup now (blackKey (TrimPrefix authHeader "Bearer "))).isSome = true →
      AuthMiddleware J cfg rdb now look authHeader
        = Guard.abort ⟨401, [("error", "token invalid")]⟩) := by
  unfold AuthMiddleware
  by_cases hpre : HasPrefix authHeader "Bearer " = true
  · simp only [hpre, Bool.not_true, Bool.false_eq_true, if_false, true_and]
    cases look with
    | down m =>
      simp only [InBlackList_down, Bool.false_eq_true, if_false]
      cases hp : ParseToken J cfg now (TrimPrefix authHeader "Bearer ") with
      | none => simp
      | some c => simp
    | up =>
      simp only [InBlackList_up]
      cases hl : rdb.lookup now (blackKey (TrimPrefix authHeader "Bearer ")) with
      | some e => simp
      | none =>
        cases hp : ParseToken J cfg now (TrimPrefix authHeader "Bearer ") with
        | none => simp
        | some c => simp
  · simp [hpre]

/-- C7, at the failing input.  A token that `ParseToken` accepts and that has a live blacklist
marker is rejected with 401 when the blacklist lookup works, and is let through, with its
claims exposed, when the lookup fails with a store error. -/
theorem auth_middleware_fails_open (J : JWT) (cfg : JWTConfig) (rdb : Redis) (now : Int)
    (m : String) (token : String) (c : Claims)
    (hp : ParseToken J cfg now token = some c)
    (hb : (rdb.lookup now (blackKey token)).isSome = true) :
    (InBlackList rdb now (Conn.down m) token).2 = some m ∧
    AuthMiddleware J cfg rdb now Conn.up ("Bearer " ++ token)
      = Guard.abort ⟨401, [("error", "token invalid")]⟩ ∧
    AuthMiddleware J cfg rdb now (Conn.down m) ("Bearer " ++ token)
      = Guard.next c.UserID c.Device := by
  refine ⟨by simp [InBlackList_down], ?_, ?_⟩
  · simp [AuthMiddleware, HasPrefix_bearer, TrimPrefix_bearer, InBlackList_up, hb]
  · simp [AuthMiddleware, HasPrefix_bearer, TrimPrefix_bearer, InBlackList_down, hp]

theorem demo_parse_access (J : JWT) (hJ : J.Lawful) :
    ParseToken J demoCfg (t0 + 1000000000)
      (Login J demoCfg demoDeps noKeys t0 Conn.up "alice" "pw" "d1").accessToken
      = some (accessClaims demoCfg t0 1 "d1") := by
  simp [Login, demoDeps, demoCfg, t0, GenerateTokens, accessClaims,
    ParseToken_signed hJ, Validate, NewNumericDate, secondsDuration, wrapInt64, Second]

theorem demo_blacklisted (token : String) :
    ((AddBlackList noKeys t0 Conn.up token (secondsDuration demoCfg.AccessExpire)).1.lookup
      (t0 + 1000000000) (blackKey token)).isSome = true := by
  simp [AddBlackList, Redis.Set, Redis.lookup, demoCfg, t0, secondsDuration, wrapInt64, Second]

/-- C7, witness: the access token of the login at `t0`, blacklisted at `t0`, presented one
second later while Redis times out. -/
theorem auth_middleware_fails_open_witness :
    ParseToken demoJWT demoCfg (t0 + 1000000000)
      (Login demoJWT demoCfg demoDeps noKeys t0 Conn.up "alice" "pw" "d1").accessToken
      = some (accessClaims demoCfg t0 1 "d1") ∧
    ((AddBlackList noKeys t0 Conn.up
        (Login demoJWT demoCfg demoDeps noKeys t0 Conn.up "alice" "pw" "d1").accessToken
        (secondsDuration demoCfg.AccessExpire)).1.lookup
      (t0 + 1000000000)
      (blackKey (Login demoJWT demoCfg demoDeps noKeys t0 Conn.up "alice" "pw" "d1").accessToken)
      ).isSome = true ∧
    AuthMiddleware demoJWT demoCfg
      (AddBlackList noKeys t0 Conn.up
        (Login demoJWT demoCfg demoDeps noKeys t0 Conn.up "alice" "pw" "d1").accessToken
        (secondsDuration demoCfg.AccessExpire)).1
      (t0 + 1000000000) (Conn.down "i/o timeout")
      ("Bearer " ++
        (Login demoJWT demoCfg demoDeps noKeys t0 Conn.up "alice" "pw" "d1").accessToken)
      = Guard.next (accessClaims demoCfg t0 1 "d1").UserID
          (accessClaims demoCfg t0 1 "d1").Device :=
  ⟨demo_parse_access demoJWT demoJWT_lawful, demo_blacklisted _,
    (auth_middleware_fails_open demoJWT demoCfg
      (AddBlackList noKeys t0 Conn.up
        (Login demoJWT demoCfg demoDeps noKeys t0 Conn.up "alice" "pw" "d1").accessToken
        (secondsDuration demoCfg.AccessExpire)).1
      (t0 + 1000000000) "i/o timeout"
      (Login demoJWT demoCfg demoDeps noKeys t0 Conn.up "alice" "pw" "d1").accessToken
      (accessClaims demoCfg t0 1 "d1")
      (demo_parse_access demoJWT demoJWT_lawful) (demo_blacklisted _)).2.2⟩

/-! ## C8: blacklisted tokens and rotation -/

/-- C8, at the failing input.  With any lawful signing scheme: login at `t0`, rotation of the
login's refresh token `r` half a second later.  The state reached holds a live blacklist
marker for `r` (the lookup answers `true` without error), and 100 ms later the rotation of
`r` succeeds with the hint `d1` and with the empty hint: `RotateRefreshToken` never reads
the blacklist. -/
theorem blacklisted_token_rotates (J : JWT) (hJ : J.Lawful) :
    InBlackList
      (demoRotate J (demoLogin J t0 Conn.up).rdb (t0 + 500000000) Conn.up
        (demoLogin J t0 Conn.up).refreshToken).rdb
      (t0 + 600000000) Conn.up (demoLogin J t0 Conn.up).refreshToken = (true, none) ∧
    (RotateRefreshToken J demoCfg
      (demoRotate J (demoLogin J t0 Conn.up).rdb (t0 + 500000000) Conn.up
        (demoLogin J t0 Conn.up).refreshToken).rdb
      (t0 + 600000000) Conn.up Conn.up Conn.up
      (demoLogin J t0 Conn.up).refreshToken "d1").err = none ∧
    (RotateRefreshToken J demoCfg
      (demoRotate J (demoLogin J t0 Conn.up).rdb (t0 + 500000000) Conn.up
        (demoLogin J t0 Conn.up).refreshToken).rdb
      (t0 + 600000000) Conn.up Conn.up Conn.up
      (demoLogin J t0 Conn.up).refreshToken "").err = none := by
  have hne := signed_ne_empty hJ
  have hk := sessionKey_ne_blackKey
  simp [demoLogin, demoRotate, Login, demoDeps, demoCfg, noKeys, t0, GenerateTokens,
    accessClaims, refreshClaims, RotateRefreshToken, ParseToken_signed hJ, Validate,
    NewNumericDate, secondsDuration, wrapInt64, Second, SaveRefreshToken, GetRefreshToken,
    Redis.Set, Redis.Get, Redis.lookup, AddBlackList, InBlackList_up, hne, hk]

/-- C8, witness: the failing run with the concrete signing scheme. -/
theorem blacklisted_token_rotates_witness :
    demoJWT.Lawful ∧
    InBlackList
      (demoRotate demoJWT (demoLogin demoJWT t0 Conn.up).rdb (t0 + 500000000) Conn.up
        (demoLogin demoJWT t0 Conn.up).refreshToken).rdb
      (t0 + 600000000) Conn.up (demoLogin demoJWT t0 Conn.up).refreshToken = (true, none) ∧
    (RotateRefreshToken demoJWT demoCfg
      (demoRotate demoJWT (demoLogin demoJWT t0 Conn.up).rdb (t0 + 500000000) Conn.up
        (demoLogin demoJWT t0 Conn.up).refreshToken).rdb
      (t0 + 600000000) Conn.up Conn.up Conn.up
      (demoLogin demoJWT t0 Conn.up).refreshToken "d1").err = none ∧
    (RotateRefreshToken demoJWT demoCfg
      (demoRotate demoJWT (demoLogin demoJWT t0 Conn.up).rdb (t0 + 500000000) Conn.up
        (demoLogin demoJWT t0 Conn.up).refreshToken).rdb
      (t0 + 600000000) Conn.up Conn.up Conn.up
      (demoLogin demoJWT t0 Conn.up).refreshToken "").err = none :=
  ⟨demoJWT_lawful, blacklisted_token_rotates demoJWT demoJWT_lawful⟩

/-! ## C9: logout with a token that passes `ParseToken` -/

theorem Redis.Del_other (rdb : Redis) (conn : Conn) (key key' : String) (h : key' ≠ key) :
    (rdb.Del conn key).1 key' = rdb key' := by
  cases conn <;> simp [Redis.Del, h]

theorem Redis.Del_self (rdb : Redis) (key : String) : (rdb.Del Conn.up key).1 key = none := by
  simp [Redis.Del]

theorem Redis.Del_down (rdb : Redis) (m : String) (key : String) :
    (rdb.Del (Conn.down m) key).1 = rdb := rfl

theorem Rotate_without_session (J : JWT) (cfg : JWTConfig) (rdb : Redis) (now : Int)
    (get save black : Conn) (r hint : String) (userID : Nat) (device : String)
    (hnone : rdb (sessionKey userID device) = none)
    (hc : ∀ c, ParseToken J cfg now r = some c → c.UserID = userID ∧ c.Device = device) :
    (RotateRefreshToken J cfg rdb now get save black r hint).err ≠ none ∧
    (RotateRefreshToken J cfg rdb now get save black r hint).accessToken = "" ∧
    (RotateRefreshToken J cfg rdb now get save black r hint).refreshToken = "" ∧
    (RotateRefreshToken J cfg rdb now get save black r hint).rdb = rdb := by
  unfold RotateRefreshToken
  by_cases he : r = ""
  · simp [he]
  · cases hp : ParseToken J cfg now r with
    | none => simp [he]
    | some c =>
      obtain ⟨hu, hd⟩ := hc c hp
      simp only [he, if_false]
      by_cases hdev : hint ≠ "" ∧ hint ≠ c.Device
      · simp [hdev]
      · have hget : (GetRefreshToken rdb now get c.UserID c.Device).2 ≠ none ∨
            (GetRefreshToken rdb now get c.UserID c.Device).1 ≠ r := by
          left
          rw [hu, hd]
          cases get <;> simp [GetRefreshToken, Redis.Get, Redis.lookup, hnone]
        simp only [hdev, if_false, hget, if_true]
        simp

/-- C9 (as amended).  Let the bearer token pass `ParseToken` with claims `c`, whichever
lifetime it was issued with.  If the blacklist write fails, `Logout` answers 500
`blacklist failed` and changes nothing.  If it goes through, `Logout` answers 200
`logout success` whether or not a session record existed and whether or not the delete went
through, and the key space holds the marker of the token, expiring one access lifetime
later (when that lifetime is positive).  If the delete went through as well, the key space
has no session record for `(c.UserID, c.Device)`, and every later rotation of a token whose
claims name that principal and device fails, issues nothing and changes nothing.  If the
delete failed, the session record is what it was before the logout. -/
theorem logout_with_valid_token (J : JWT) (cfg : JWTConfig) (rdb : Redis) (now : Int)
    (get black del : Conn) (authHeader : String) (c : Claims)
    (hpre : HasPrefix authHeader "Bearer " = true)
    (hp : ParseToken J cfg now (TrimPrefix authHeader "Bearer ") = some c) :
    (∀ m : String, black = Conn.down m →
      Logout J cfg rdb now get black del authHeader
        = (rdb, ⟨500, [("error", "blacklist failed")]⟩)) ∧
    (black = Conn.up →
      (Logout J cfg rdb now get black del authHeader).2
        = ⟨200, [("message", "logout success")]⟩ ∧
      (∃ e : Entry,
        (Logout J cfg rdb now get black del authHeader).1
          (blackKey (TrimPrefix authHeader "Bearer ")) = some e ∧ e.value = "1" ∧
        (0 < secondsDuration cfg.AccessExpire →
          e.expireAt = some (now + secondsDuration cfg.AccessExpire))) ∧
      (del = Conn.up →
        (Logout J cfg rdb now get black del authHeader).1 (sessionKey c.UserID c.Device)
          = none ∧
        ∀ (now' : Int) (get' save' black' : Conn) (r hint : String),
          (∀ c', ParseToken J cfg now' r = some c' →
            c'.UserID = c.UserID ∧ c'.Device = c.Device) →
          (RotateRefreshToken J cfg (Logout J cfg rdb now get black del authHeader).1
            now' get' save' black' r hint).err ≠ none ∧
          (RotateRefreshToken J cfg (Logout J cfg rdb now get black del authHeader).1
            now' get' save' black' r hint).accessToken = "" ∧
          (RotateRefreshToken J cfg (Logout J cfg rdb now get black del authHeader).1
            now' get' save' black' r hint).refreshToken = "" ∧
          (RotateRefreshToken J cfg (Logout J cfg rdb now get black del authHeader).1
            now' get' save' black' r hint).rdb
            = (Logout J cfg rdb now get black del authHeader).1) ∧
      (∀ m : String, del = Conn.down m →
        (Logout J cfg rdb now get black del authHeader).1 (sessionKey c.UserID c.Device)
          = rdb (sessionKey c.UserID c.Device))) := by
  have hL : ∀ b : Conn, Logout J cfg rdb now get b del authHeader =
      match (AddBlackList rdb now b (TrimPrefix authHeader "Bearer ")
          (secondsDuration cfg.AccessExpire)).2 with
      | some _ => ((AddBlackList rdb now b (TrimPrefix authHeader "Bearer ")
          (secondsDuration cfg.AccessExpire)).1, ⟨500, [("error", "blacklist failed")]⟩)
      | none => ((DeleteRefreshToken (AddBlackList rdb now b (TrimPrefix authHeader "Bearer ")
          (secondsDuration cfg.AccessExpire)).1 del c.UserID c.Device).1,
          ⟨200, [("message", "logout success")]⟩) := by
    intro b
    simp only [Logout, hpre, Bool.not_true, Bool.false_eq_true, if_false, hp]
  have hk := sessionKey_ne_blackKey c.UserID c.Device (TrimPrefix authHeader "Bearer ")
  have hk2 := blackKey_ne_sessionKey (TrimPrefix authHeader "Bearer ") c.UserID c.Device
  refine ⟨?_, ?_⟩
  · intro m hb
    subst hb
    rw [hL]
    rfl
  · intro hb
    subst hb
    have hL2 : Logout J cfg rdb now get Conn.up del authHeader =
        ((DeleteRefreshToken (AddBlackList rdb now Conn.up (TrimPrefix authHeader "Bearer ")
          (secondsDuration cfg.AccessExpire)).1 del c.UserID c.Device).1,
          ⟨200, [("message", "logout success")]⟩) := by
      rw [hL]
      rfl
    rw [hL2]
    obtain ⟨x, hx1, -, hx3⟩ := Redis.Set_lookup_self rdb now
      (blackKey (TrimPrefix authHeader "Bearer ")) "1" (secondsDuration cfg.AccessExpire)
    refine ⟨rfl, ⟨⟨"1", x⟩, ?_, rfl, hx3⟩, ?_, ?_⟩
    · exact (Redis.Del_other _ del _ _ hk2).trans hx1
    · intro hd
      subst hd
      have hnone : (DeleteRefreshToken (AddBlackList rdb now Conn.up
          (TrimPrefix authHeader "Bearer ") (secondsDuration cfg.AccessExpire)).1 Conn.up
          c.UserID c.Device).1 (sessionKey c.UserID c.Device) = none :=
        Redis.Del_self _ _
      refine ⟨hnone, ?_⟩
      intro now' get' save' black' r hint hc
      exact Rotate_without_session J cfg _ now' get' save' black' r hint c.UserID c.Device
        hnone hc
    · intro m hd
      subst hd
      show (AddBlackList rdb now Conn.up (TrimPrefix authHeader "Bearer ")
        (secondsDuration cfg.AccessExpire)).1 (sessionKey c.UserID c.Device) = _
      exact Redis.Set_other _ _ _ _ _ _ _ hk

theorem demo_parse_bearer_access (J : JWT) (hJ : J.Lawful) :
    ParseToken J demoCfg (t0 + 1000000000)
      (TrimPrefix ("Bearer " ++
        (Login J demoCfg demoDeps noKeys t0 Conn.up "alice" "pw" "d1").accessToken) "Bearer ")
      = some (accessClaims demoCfg t0 1 "d1") := by
  rw [TrimPrefix_bearer]
  exact demo_parse_access J hJ

/-- C9, witness: logout one second after the login at `t0`, with the login's access token
and every command working. -/
theorem logout_with_valid_token_witness :
    HasPrefix ("Bearer " ++ (Login demoJWT demoCfg demoDeps noKeys t0 Conn.up "alice" "pw" "d1").accessToken) "Bearer " = true ∧
    ParseToken demoJWT demoCfg (t0 + 1000000000)
      (TrimPrefix ("Bearer " ++ (Login demoJWT demoCfg demoDeps noKeys t0 Conn.up "alice" "pw" "d1").accessToken) "Bearer ")
      = some (accessClaims demoCfg t0 1 "d1") ∧
    (Logout demoJWT demoCfg (Login demoJWT demoCfg demoDeps noKeys t0 Conn.up "alice" "pw" "d1").rdb (t0 + 1000000000) Conn.up Conn.up Conn.up
      ("Bearer " ++ (Login demoJWT demoCfg demoDeps noKeys t0 Conn.up "alice" "pw" "d1").accessToken)).2 = ⟨200, [("message", "logout success")]⟩ :=
  ⟨HasPrefix_bearer _, demo_parse_bearer_access demoJWT demoJWT_lawful,
    ((logout_with_valid_token demoJWT demoCfg (Login demoJWT demoCfg demoDeps noKeys t0 Conn.up "alice" "pw" "d1").rdb (t0 + 1000000000) Conn.up Conn.up Conn.up
      ("Bearer " ++ (Login demoJWT demoCfg demoDeps noKeys t0 Conn.up "alice" "pw" "d1").accessToken) (accessClaims demoCfg t0 1 "d1")
      (HasPrefix_bearer _) (demo_parse_bearer_access demoJWT demoJWT_lawful)).2 rfl).1⟩

theorem demo_logout_delete_down (J : JWT) (hJ : J.Lawful) :
    ParseToken J demoCfg (t0 + 1000000000) (demoLogin J t0 Conn.up).accessToken
      = some (accessClaims demoCfg t0 1 "d1") ∧
    (Logout J demoCfg (demoLogin J t0 Conn.up).rdb (t0 + 1000000000) Conn.up Conn.up
      (Conn.down "i/o timeout") ("Bearer " ++ (demoLogin J t0 Conn.up).accessToken)).2
      = ⟨200, [("message", "logout success")]⟩ ∧
    (RotateRefreshToken J demoCfg
      (Logout J demoCfg (demoLogin J t0 Conn.up).rdb (t0 + 1000000000) Conn.up Conn.up
        (Conn.down "i/o timeout") ("Bearer " ++ (demoLogin J t0 Conn.up).accessToken)).1
      (t0 + 2000000000) Conn.up Conn.up Conn.up
      (demoLogin J t0 Conn.up).refreshToken "d1").err = none ∧
    (RotateRefreshToken J demoCfg
      (Logout J demoCfg (demoLogin J t0 Conn.up).rdb (t0 + 1000000000) Conn.up Conn.up
        (Conn.down "i/o timeout") ("Bearer " ++ (demoLogin J t0 Conn.up).accessToken)).1
      (t0 + 2000000000) Conn.up Conn.up Conn.up
      (demoLogin J t0 Conn.up).refreshToken "d1").refreshToken ≠ "" := by
  have hne := signed_ne_empty hJ
  have hk := sessionKey_ne_blackKey
  simp [demoLogin, Login, demoDeps, demoCfg, noKeys, t0, GenerateTokens,
    accessClaims, refreshClaims, RotateRefreshToken, ParseToken_signed hJ, Validate,
    NewNumericDate, secondsDuration, wrapInt64, Second, SaveRefreshToken, GetRefreshToken,
    Redis.Set, Redis.Get, Redis.lookup, AddBlackList, Logout, HasPrefix_bearer,
    TrimPrefix_bearer, DeleteRefreshToken, Redis.Del, hne, hk]

/-- C9, counterexample: login at `t0`; one second later logout with the login's access token,
which `ParseToken` accepts, while the session delete times out: the answer is 200
`logout success`; one more second later the rotation of the session's refresh token succeeds
and issues a new pair. -/
theorem logout_then_rotation_succeeds :
    ParseToken demoJWT demoCfg (t0 + 1000000000) (demoLogin demoJWT t0 Conn.up).accessToken
      = some (accessClaims demoCfg t0 1 "d1") ∧
    (Logout demoJWT demoCfg (demoLogin demoJWT t0 Conn.up).rdb (t0 + 1000000000) Conn.up
      Conn.up (Conn.down "i/o timeout")
      ("Bearer " ++ (demoLogin demoJWT t0 Conn.up).accessToken)).2
      = ⟨200, [("message", "logout success")]⟩ ∧
    (RotateRefreshToken demoJWT demoCfg
      (Logout demoJWT demoCfg (demoLogin demoJWT t0 Conn.up).rdb (t0 + 1000000000) Conn.up
        Conn.up (Conn.down "i/o timeout")
        ("Bearer " ++ (demoLogin demoJWT t0 Conn.up).accessToken)).1
      (t0 + 2000000000) Conn.up Conn.up Conn.up
      (demoLogin demoJWT t0 Conn.up).refreshToken "d1").err = none ∧
    (RotateRefreshToken demoJWT demoCfg
      (Logout demoJWT demoCfg (demoLogin demoJWT t0 Conn.up).rdb (t0 + 1000000000) Conn.up
        Conn.up (Conn.down "i/o timeout")
        ("Bearer " ++ (demoLogin demoJWT t0 Conn.up).accessToken)).1
      (t0 + 2000000000) Conn.up Conn.up Conn.up
      (demoLogin demoJWT t0 Conn.up).refreshToken "d1").refreshToken ≠ "" :=
  demo_logout_delete_down demoJWT demoJWT_lawful

/-! ## C10: logout with a token that fails `ParseToken` -/

theorem ParseTokenAllowExpired_ne_empty {J : JWT} (hJ : J.Lawful) {cfg : JWTConfig} {now : Int}
    {tok : String} {c : Claims} (h : ParseTokenAllowExpired J cfg now tok = some c) :
    tok ≠ "" := by
  intro he
  subst he
  simp [ParseTokenAllowExpired, ParseWithClaims, hJ.decode_empty] at h

/-- C10 (as amended).  Let the bearer token fail `ParseToken`.  If `ParseTokenAllowExpired`
fails too, `Logout` answers 401 `invalid token`.  If it accepts the token with claims `c` and
the read of the session record of `(c.UserID, c.Device)` fails or returns anything but the
token, `Logout` answers 401 `refresh invalid or expired`.  If the read returns the token and
the blacklist write fails, `Logout` answers 500 `blacklist failed`.  In these three cases the
key space is unchanged.  If the read returns the token and the blacklist write goes through,
`Logout` answers 200 `logout success`, the key space holds the marker of the token expiring
one refresh lifetime later (when that lifetime is positive), and the session record is gone
if the delete went through and is as before if the delete failed.  So the answer is 200
if and only if `ParseTokenAllowExpired` accepts the token, the session read returns exactly
the token, and the blacklist write goes through. -/
theorem logout_with_invalid_token (J : JWT) (hJ : J.Lawful) (cfg : JWTConfig) (rdb : Redis)
    (now : Int) (get black del : Conn) (authHeader : String)
    (hpre : HasPrefix authHeader "Bearer " = true)
    (hp : ParseToken J cfg now (TrimPrefix authHeader "Bearer ") = none) :
    (ParseTokenAllowExpired J cfg now (TrimPrefix authHeader "Bearer ") = none →
      Logout J cfg rdb now get black del authHeader
        = (rdb, ⟨401, [("error", "invalid token")]⟩)) ∧
    (∀ c : Claims, ParseTokenAllowExpired J cfg now (TrimPrefix authHeader "Bearer ") = some c →
      (GetRefreshToken rdb now get c.UserID c.Device ≠ (TrimPrefix authHeader "Bearer ", none) →
        Logout J cfg rdb now get black del authHeader
          = (rdb, ⟨401, [("error", "refresh invalid or expired")]⟩)) ∧
      (GetRefreshToken rdb now get c.UserID c.Device = (TrimPrefix authHeader "Bearer ", none) →
        (∀ m : String, black = Conn.down m →
          Logout J cfg rdb now get black del authHeader
            = (rdb, ⟨500, [("error", "blacklist failed")]⟩)) ∧
        (black = Conn.up →
          (Logout J cfg rdb now get black del authHeader).2
            = ⟨200, [("message", "logout success")]⟩ ∧
          (∃ e : Entry,
            (Logout J cfg rdb now get black del authHeader).1
              (blackKey (TrimPrefix authHeader "Bearer ")) = some e ∧ e.value = "1" ∧
            (0 < secondsDuration cfg.RefreshExpire →
              e.expireAt = some (now + secondsDuration cfg.RefreshExpire))) ∧
          (del = Conn.up →
            (Logout J cfg rdb now get black del authHeader).1
              (sessionKey c.UserID c.Device) = none) ∧
          (∀ m : String, del = Conn.down m →
            (Logout J cfg rdb now get black del authHeader).1
              (sessionKey c.UserID c.Device) = rdb (sessionKey c.UserID c.Device))))) ∧
    ((Logout J cfg rdb now get black del authHeader).2.status = 200 ↔
      ∃ c : Claims, ParseTokenAllowExpired J cfg now (TrimPrefix authHeader "Bearer ") = some c ∧
        GetRefreshToken rdb now get c.UserID c.Device = (TrimPrefix authHeader "Bearer ", none) ∧
        black = Conn.up) := by
  have h1 : ParseTokenAllowExpired J cfg now (TrimPrefix authHeader "Bearer ") = none →
      Logout J cfg rdb now get black del authHeader
        = (rdb, ⟨401, [("error", "invalid token")]⟩) := by
    intro hl
    simp only [Logout, hpre, Bool.not_true, Bool.false_eq_true, if_false, hp, hl]
  have h2 : ∀ c : Claims,
      ParseTokenAllowExpired J cfg now (TrimPrefix authHeader "Bearer ") = some c →
      GetRefreshToken rdb now get c.UserID c.Device ≠ (TrimPrefix authHeader "Bearer ", none) →
      Logout J cfg rdb now get black del authHeader
        = (rdb, ⟨401, [("error", "refresh invalid or expired")]⟩) := by
    intro c hl hg
    have hg' : (GetRefreshToken rdb now get c.UserID c.Device).2 ≠ none ∨
        (GetRefreshToken rdb now get c.UserID c.Device).1 = "" ∨
        (GetRefreshToken rdb now get c.UserID c.Device).1 ≠ TrimPrefix authHeader "Bearer " := by
      by_contra hcon
      push_neg at hcon
      exact hg (Prod.ext hcon.2.2 hcon.1)
    simp only [Logout, hpre, Bool.not_true, Bool.false_eq_true, if_false, hp, hl]
    rw [if_pos hg']
  have h3 : ∀ c : Claims,
      ParseTokenAllowExpired J cfg now (TrimPrefix authHeader "Bearer ") = some c →
      GetRefreshToken rdb now get c.UserID c.Device = (TrimPrefix authHeader "Bearer ", none) →
      ∀ b : Conn, Logout J cfg rdb now get b del authHeader =
        match (AddBlackList rdb now b (TrimPrefix authHeader "Bearer ")
            (secondsDuration cfg.RefreshExpire)).2 with
        | some _ => ((AddBlackList rdb now b (TrimPrefix authHeader "Bearer ")
            (secondsDuration cfg.RefreshExpire)).1, ⟨500, [("error", "blacklist failed")]⟩)
        | none => ((DeleteRefreshToken (AddBlackList rdb now b
            (TrimPrefix authHeader "Bearer ") (secondsDuration cfg.RefreshExpire)).1 del
            c.UserID c.Device).1, ⟨200, [("message", "logout success")]⟩) := by
    intro c hl hg b
    have hne := ParseTokenAllowExpired_ne_empty hJ hl
    have hg' : ¬ ((GetRefreshToken rdb now get c.UserID c.Device).2 ≠ none ∨
        (GetRefreshToken rdb now get c.UserID c.Device).1 = "" ∨
        (GetRefreshToken rdb now get c.UserID c.Device).1 ≠ TrimPrefix authHeader "Bearer ") := by
      rw [hg]
      simp [hne]
    simp only [Logout, hpre, Bool.not_true, Bool.false_eq_true, if_false, hp, hl]
    rw [if_neg hg']
  refine ⟨h1, ?_, ?_⟩
  · intro c hl
    refine ⟨h2 c hl, ?_⟩
    intro hg
    have hk := sessionKey_ne_blackKey c.UserID c.Device (TrimPrefix authHeader "Bearer ")
    have hk2 := blackKey_ne_sessionKey (TrimPrefix authHeader "Bearer ") c.UserID c.Device
    refine ⟨?_, ?_⟩
    · intro m hb
      subst hb
      rw [h3 c hl hg]
      rfl
    · intro hb
      subst hb
      have hL2 : Logout J cfg rdb now get Conn.up del authHeader =
          ((DeleteRefreshToken (AddBlackList rdb now Conn.up (TrimPrefix authHeader "Bearer ")
            (secondsDuration cfg.RefreshExpire)).1 del c.UserID c.Device).1,
            ⟨200, [("message", "logout success")]⟩) := by
        rw [h3 c hl hg]
        rfl
      rw [hL2]
      obtain ⟨x, hx1, -, hx3⟩ := Redis.Set_lookup_self rdb now
        (blackKey (TrimPrefix authHeader "Bearer ")) "1" (secondsDuration cfg.RefreshExpire)
      refine ⟨rfl, ⟨⟨"1", x⟩, ?_, rfl, hx3⟩, ?_, ?_⟩
      · exact (Redis.Del_other _ del _ _ hk2).trans hx1
      · intro hd
        subst hd
        exact Redis.Del_self _ _
      · intro m hd
        subst hd
        show (AddBlackList rdb now Conn.up (TrimPrefix authHeader "Bearer ")
          (secondsDuration cfg.RefreshExpire)).1 (sessionKey c.UserID c.Device) = _
        exact Redis.Set_other _ _ _ _ _ _ _ hk
  · cases hl : ParseTokenAllowExpired J cfg now (TrimPrefix authHeader "Bearer ") with
    | none =>
      rw [h1 hl]
      simp
    | some c =>
      by_cases hg : GetRefreshToken rdb now get c.UserID c.Device
          = (TrimPrefix authHeader "Bearer ", none)
      · cases black with
        | down m =>
          rw [h3 c hl hg]
          simp [AddBlackList, Redis.Set]
        | up =>
          rw [h3 c hl hg]
          simp [AddBlackList, Redis.Set, hg]
      · rw [h2 c hl hg]
        simp [hg]

theorem demo_expired_strict (J : JWT) (hJ : J.Lawful) :
    ParseToken J demoCfg (t0 + 604799850000000) (TrimPrefix ("Bearer " ++ (Login J demoCfg demoDeps noKeys t0 Conn.up "alice" "pw" "d1").refreshToken) "Bearer ") = none := by
  have hne := signed_ne_empty hJ
  have hk := sessionKey_ne_blackKey
  simp [demoLogin, Login, demoDeps, demoCfg, noKeys, t0, GenerateTokens,
    accessClaims, refreshClaims, ParseToken_signed hJ, Validate, ParseTokenAllowExpired,
    ParseWithClaims, hJ.decode_signed,
    NewNumericDate, secondsDuration, wrapInt64, Second, SaveRefreshToken, GetRefreshToken,
    Redis.Set, Redis.Get, Redis.lookup, AddBlackList, Logout, HasPrefix_bearer,
    TrimPrefix_bearer, DeleteRefreshToken, Redis.Del, hne, hk]

theorem demo_expired_lenient (J : JWT) (hJ : J.Lawful) :
    ParseTokenAllowExpired J demoCfg (t0 + 604799850000000) (TrimPrefix ("Bearer " ++ (Login J demoCfg demoDeps noKeys t0 Conn.up "alice" "pw" "d1").refreshToken) "Bearer ")
      = some (refreshClaims demoCfg t0 1 "d1") := by
  have hne := signed_ne_empty hJ
  have hk := sessionKey_ne_blackKey
  simp [demoLogin, Login, demoDeps, demoCfg, noKeys, t0, GenerateTokens,
    accessClaims, refreshClaims, ParseToken_signed hJ, Validate, ParseTokenAllowExpired,
    ParseWithClaims, hJ.decode_signed,
    NewNumericDate, secondsDuration, wrapInt64, Second, SaveRefreshToken, GetRefreshToken,
    Redis.Set, Redis.Get, Redis.lookup, AddBlackList, Logout, HasPrefix_bearer,
    TrimPrefix_bearer, DeleteRefreshToken, Redis.Del, hne, hk]

theorem demo_expired_record (J : JWT) (hJ : J.Lawful) :
    GetRefreshToken (Login J demoCfg demoDeps noKeys t0 Conn.up "alice" "pw" "d1").rdb (t0 + 604799850000000) Conn.up
      (refreshClaims demoCfg t0 1 "d1").UserID (refreshClaims demoCfg t0 1 "d1").Device
      = (TrimPrefix ("Bearer " ++ (Login J demoCfg demoDeps noKeys t0 Conn.up "alice" "pw" "d1").refreshToken) "Bearer ", none) := by
  have hne := signed_ne_empty hJ
  have hk := sessionKey_ne_blackKey
  simp [demoLogin, Login, demoDeps, demoCfg, noKeys, t0, GenerateTokens,
    accessClaims, refreshClaims, ParseToken_signed hJ, Validate, ParseTokenAllowExpired,
    ParseWithClaims, hJ.decode_signed,
    NewNumericDate, secondsDuration, wrapInt64, Second, SaveRefreshToken, GetRefreshToken,
    Redis.Set, Redis.Get, Redis.lookup, AddBlackList, Logout, HasPrefix_bearer,
    TrimPrefix_bearer, DeleteRefreshToken, Redis.Del, hne, hk]

/-- C10, witness: the refresh token of the login at `t0`, presented 100 ms after its expiry,
while the session record, which expires 250 ms after the token, is still there; every
command works. -/
theorem logout_with_invalid_token_witness :
    demoJWT.Lawful ∧
    HasPrefix ("Bearer " ++ (Login demoJWT demoCfg demoDeps noKeys t0 Conn.up "alice" "pw" "d1").refreshToken) "Bearer " = true ∧
    ParseToken demoJWT demoCfg (t0 + 604799850000000) (TrimPrefix ("Bearer " ++ (Login demoJWT demoCfg demoDeps noKeys t0 Conn.up "alice" "pw" "d1").refreshToken) "Bearer ")
      = none ∧
    (Logout demoJWT demoCfg (Login demoJWT demoCfg demoDeps noKeys t0 Conn.up "alice" "pw" "d1").rdb (t0 + 604799850000000) Conn.up Conn.up Conn.up
      ("Bearer " ++ (Login demoJWT demoCfg demoDeps noKeys t0 Conn.up "alice" "pw" "d1").refreshToken)).2 = ⟨200, [("message", "logout success")]⟩ :=
  ⟨demoJWT_lawful, HasPrefix_bearer _, demo_expired_strict demoJWT demoJWT_lawful,
    (((((logout_with_invalid_token demoJWT demoJWT_lawful demoCfg (Login demoJWT demoCfg demoDeps noKeys t0 Conn.up "alice" "pw" "d1").rdb (t0 + 604799850000000)
      Conn.up Conn.up Conn.up ("Bearer " ++ (Login demoJWT demoCfg demoDeps noKeys t0 Conn.up "alice" "pw" "d1").refreshToken)
      (HasPrefix_bearer _) (demo_expired_strict demoJWT demoJWT_lawful)).2.1
      (refreshClaims demoCfg t0 1 "d1") (demo_expired_lenient demoJWT demoJWT_lawful)).2
      (demo_expired_record demoJWT demoJWT_lawful)).2) rfl).1⟩

theorem demo_logout_blacklist_down (J : JWT) (hJ : J.Lawful) :
    ParseToken J demoCfg (t0 + 604799850000000) (demoLogin J t0 Conn.up).refreshToken = none ∧
    ParseTokenAllowExpired J demoCfg (t0 + 604799850000000) (demoLogin J t0 Conn.up).refreshToken
      = some (refreshClaims demoCfg t0 1 "d1") ∧
    GetRefreshToken (demoLogin J t0 Conn.up).rdb (t0 + 604799850000000) Conn.up 1 "d1"
      = ((demoLogin J t0 Conn.up).refreshToken, none) ∧
    Logout J demoCfg (demoLogin J t0 Conn.up).rdb (t0 + 604799850000000) Conn.up (Conn.down "i/o timeout") Conn.up
      ("Bearer " ++ (demoLogin J t0 Conn.up).refreshToken)
      = ((demoLogin J t0 Conn.up).rdb, ⟨500, [("error", "blacklist failed")]⟩) := by
  have hne := signed_ne_empty hJ
  have hk := sessionKey_ne_blackKey
  simp [demoLogin, Login, demoDeps, demoCfg, noKeys, t0, GenerateTokens,
    accessClaims, refreshClaims, ParseToken_signed hJ, Validate, ParseTokenAllowExpired,
    ParseWithClaims, hJ.decode_signed,
    NewNumericDate, secondsDuration, wrapInt64, Second, SaveRefreshToken, GetRefreshToken,
    Redis.Set, Redis.Get, Redis.lookup, AddBlackList, Logout, HasPrefix_bearer,
    TrimPrefix_bearer, DeleteRefreshToken, Redis.Del, hne, hk]

/-- C10, counterexample: the refresh token of the login at `t0`, presented 100 ms after its
expiry.  `ParseToken` rejects it, `ParseTokenAllowExpired` accepts it, and the session record
of its principal and device exists and equals it; the blacklist write times out, and `Logout`
answers 500 `blacklist failed`: neither success nor 401. -/
theorem logout_answers_500 :
    ParseToken demoJWT demoCfg (t0 + 604799850000000) (demoLogin demoJWT t0 Conn.up).refreshToken = none ∧
    ParseTokenAllowExpired demoJWT demoCfg (t0 + 604799850000000) (demoLogin demoJWT t0 Conn.up).refreshToken
      = some (refreshClaims demoCfg t0 1 "d1") ∧
    GetRefreshToken (demoLogin demoJWT t0 Conn.up).rdb (t0 + 604799850000000) Conn.up 1 "d1"
      = ((demoLogin demoJWT t0 Conn.up).refreshToken, none) ∧
    Logout demoJWT demoCfg (demoLogin demoJWT t0 Conn.up).rdb (t0 + 604799850000000) Conn.up
      (Conn.down "i/o timeout") Conn.up
      ("Bearer " ++ (demoLogin demoJWT t0 Conn.up).refreshToken)
      = ((demoLogin demoJWT t0 Conn.up).rdb, ⟨500, [("error", "blacklist failed")]⟩) :=
  demo_logout_blacklist_down demoJWT demoJWT_lawful

/-! ## C11: logout with an expired refresh token, through the route -/

/-- C11, at the failing input.  Whatever the key space holds and whatever the connections
do, a request to the logout route whose bearer token fails `ParseToken` (an expired token,
for one) is answered 401 by `AuthMiddleware`, `UserAPI.Logout` never runs and the key space
is unchanged; in particular the session record that equals the token is still there.  When
the header has the prefix and the blacklist lookup does not report the token, the body is
`invalid token`. -/
theorem private_logout_rejects_expired (J : JWT) (cfg : JWTConfig) (rdb : Redis) (now : Int)
    (look get black del : Conn) (authHeader : String)
    (hp : ParseToken J cfg now (TrimPrefix authHeader "Bearer ") = none) :
    (privateLogout J cfg rdb now look get black del authHeader).2.status = 401 ∧
    (privateLogout J cfg rdb now look get black del authHeader).1 = rdb ∧
    (HasPrefix authHeader "Bearer " = true →
      (InBlackList rdb now look (TrimPrefix authHeader "Bearer ")).1 = false →
      privateLogout J cfg rdb now look get black del authHeader
        = (rdb, ⟨401, [("error", "invalid token")]⟩)) := by
  unfold privateLogout AuthMiddleware
  by_cases hpre : HasPrefix authHeader "Bearer " = true
  · by_cases hin : (InBlackList rdb now look (TrimPrefix authHeader "Bearer ")).1 = true
    · simp [hpre, hin]
    · simp [hpre, hin, hp]
  · simp [hpre]

/-- C11, witness: the refresh token of the login at `t0`, presented to the logout route
100 ms after its expiry, while the session record that equals it is still there and every
command works. -/
theorem private_logout_rejects_expired_witness :
    ParseToken demoJWT demoCfg (t0 + 604799850000000)
      (TrimPrefix ("Bearer " ++
        (Login demoJWT demoCfg demoDeps noKeys t0 Conn.up "alice" "pw" "d1").refreshToken)
        "Bearer ") = none ∧
    GetRefreshToken (Login demoJWT demoCfg demoDeps noKeys t0 Conn.up "alice" "pw" "d1").rdb
      (t0 + 604799850000000) Conn.up
      (refreshClaims demoCfg t0 1 "d1").UserID (refreshClaims demoCfg t0 1 "d1").Device
      = (TrimPrefix ("Bearer " ++
        (Login demoJWT demoCfg demoDeps noKeys t0 Conn.up "alice" "pw" "d1").refreshToken)
        "Bearer ", none) ∧
    (privateLogout demoJWT demoCfg
      (Login demoJWT demoCfg demoDeps noKeys t0 Conn.up "alice" "pw" "d1").rdb
      (t0 + 604799850000000) Conn.up Conn.up Conn.up Conn.up
      ("Bearer " ++
        (Login demoJWT demoCfg demoDeps noKeys t0 Conn.up "alice" "pw" "d1").refreshToken)
      ).2.status = 401 ∧
    (privateLogout demoJWT demoCfg
      (Login demoJWT demoCfg demoDeps noKeys t0 Conn.up "alice" "pw" "d1").rdb
      (t0 + 604799850000000) Conn.up Conn.up Conn.up Conn.up
      ("Bearer " ++
        (Login demoJWT demoCfg demoDeps noKeys t0 Conn.up "alice" "pw" "d1").refreshToken)
      ).1 = (Login demoJWT demoCfg demoDeps noKeys t0 Conn.up "alice" "pw" "d1").rdb :=
  ⟨demo_expired_strict demoJWT demoJWT_lawful, demo_expired_record demoJWT demoJWT_lawful,
    (private_logout_rejects_expired demoJWT demoCfg
      (Login demoJWT demoCfg demoDeps noKeys t0 Conn.up "alice" "pw" "d1").rdb
      (t0 + 604799850000000) Conn.up Conn.up Conn.up Conn.up
      ("Bearer " ++
        (Login demoJWT demoCfg demoDeps noKeys t0 Conn.up "alice" "pw" "d1").refreshToken)
      (demo_expired_strict demoJWT demoJWT_lawful)).1,
    (private_logout_rejects_expired demoJWT demoCfg
      (Login demoJWT demoCfg demoDeps noKeys t0 Conn.up "alice" "pw" "d1").rdb
      (t0 + 604799850000000) Conn.up Conn.up Conn.up Conn.up
      ("Bearer " ++
        (Login demoJWT demoCfg demoDeps noKeys t0 Conn.up "alice" "pw" "d1").refreshToken)
      (demo_expired_strict demoJWT demoJWT_lawful)).2.1⟩

/-! ## C14: the answers of the refresh endpoint to a failed rotation -/

/-- C14 (as amended).  Whenever the rotation behind the refresh endpoint fails with error
`e`, the endpoint answers with status 401 and the body `error: e`, the text of the error of
`RotateRefreshToken`: `refresh token invalid` for a token that fails `ParseToken`,
`device mismatch` for a hint that differs from the token's device, and
`refresh token expired or rotated` for a session record that is absent or different.  The
status code is the same in the three cases, the body is not. -/
theorem refresh_failure_response (J : JWT) (hJ : J.Lawful) (cfg : JWTConfig) (rdb : Redis)
    (now : Int) (get save black : Conn) (refreshToken device : String) :
    (∀ e, (RotateRefreshToken J cfg rdb now get save black refreshToken device).err = some e →
      (RefreshToken J cfg rdb now get save black (Except.ok refreshToken) device).2
        = ⟨401, [("error", e)]⟩) ∧
    (refreshToken ≠ "" → ParseToken J cfg now refreshToken = none →
      (RefreshToken J cfg rdb now get save black (Except.ok refreshToken) device).2
        = ⟨401, [("error", "refresh token invalid")]⟩) ∧
    (∀ c, ParseToken J cfg now refreshToken = some c →
      (device ≠ "" → device ≠ c.Device →
        (RefreshToken J cfg rdb now get save black (Except.ok refreshToken) device).2
          = ⟨401, [("error", "device mismatch")]⟩) ∧
      ((device = "" ∨ device = c.Device) →
        GetRefreshToken rdb now get c.UserID c.Device ≠ (refreshToken, none) →
        (RefreshToken J cfg rdb now get save black (Except.ok refreshToken) device).2
          = ⟨401, [("error", "refresh token expired or rotated")]⟩)) := by
  refine ⟨?_, ?_, ?_⟩
  · intro e he
    simp [RefreshToken, he]
  · intro hne hp
    simp [RefreshToken, RotateRefreshToken, hne, hp]
  · intro c hp
    have hne : refreshToken ≠ "" := ParseToken_ne_empty hJ hp
    refine ⟨?_, ?_⟩
    · intro h1 h2
      simp [RefreshToken, RotateRefreshToken, hne, hp, h1, h2]
    · intro hd hg
      have hd' : ¬ (device ≠ "" ∧ device ≠ c.Device) := by
        rcases hd with h | h
        · exact fun hh => hh.1 h
        · exact fun hh => hh.2 h
      have hg' : (GetRefreshToken rdb now get c.UserID c.Device).2 ≠ none ∨
          (GetRefreshToken rdb now get c.UserID c.Device).1 ≠ refreshToken := by
        by_contra hcon
        push_neg at hcon
        exact hg (Prod.ext hcon.2 hcon.1)
      simp only [RefreshToken, RotateRefreshToken, hne, hp, if_false]
      rw [if_neg hd', if_pos hg']

/-- C14, witness: the refresh token of the login at `t0`, presented one second later with the
hint `other-device`. -/
theorem refresh_failure_response_witness :
    demoJWT.Lawful ∧
    (RefreshToken demoJWT demoCfg (Login demoJWT demoCfg demoDeps noKeys t0 Conn.up "alice" "pw" "d1").rdb (t0 + 1000000000) Conn.up Conn.up Conn.up
      (Except.ok (Login demoJWT demoCfg demoDeps noKeys t0 Conn.up "alice" "pw" "d1").refreshToken) "other-device").2
      = ⟨401, [("error", "device mismatch")]⟩ :=
  ⟨demoJWT_lawful,
    ((refresh_failure_response demoJWT demoJWT_lawful demoCfg (Login demoJWT demoCfg demoDeps noKeys t0 Conn.up "alice" "pw" "d1").rdb (t0 + 1000000000)
      Conn.up Conn.up Conn.up (Login demoJWT demoCfg demoDeps noKeys t0 Conn.up "alice" "pw" "d1").refreshToken "other-device").2.2
      (refreshClaims demoCfg t0 1 "d1") (demo_parse_next_second demoJWT demoJWT_lawful)).1
      (by decide) (by decide)⟩

theorem demo_refresh_failures (J : JWT) (hJ : J.Lawful) :
    (RefreshToken J demoCfg (demoLogin J t0 Conn.up).rdb (t0 + 1000000000) Conn.up Conn.up
      Conn.up (Except.ok (demoLogin J t0 Conn.up).refreshToken) "other-device").2
      = ⟨401, [("error", "device mismatch")]⟩ ∧
    (RefreshToken J demoCfg noKeys (t0 + 1000000000) Conn.up Conn.up
      Conn.up (Except.ok (demoLogin J t0 Conn.up).refreshToken) "d1").2
      = ⟨401, [("error", "refresh token expired or rotated")]⟩ ∧
    (RefreshToken J demoCfg (demoLogin J t0 Conn.up).rdb (t0 + 691200000000000) Conn.up Conn.up
      Conn.up (Except.ok (demoLogin J t0 Conn.up).refreshToken) "d1").2
      = ⟨401, [("error", "refresh token invalid")]⟩ := by
  have hne := signed_ne_empty hJ
  simp [RefreshToken, demoLogin, Login, demoDeps, demoCfg, noKeys, t0, GenerateTokens,
    accessClaims, refreshClaims, RotateRefreshToken, ParseToken_signed hJ, Validate,
    NewNumericDate, secondsDuration, wrapInt64, Second, SaveRefreshToken, GetRefreshToken,
    Redis.Set, Redis.Get, Redis.lookup, hne]

/-- C14, counterexample: three refresh requests with the refresh token of the login at `t0`
that all fail rotation: one with a foreign device hint, one against a key space without the
session record, one after the token's expiry.  The three bodies are `device mismatch`,
`refresh token expired or rotated` and `refresh token invalid`: the caller reads off which
check failed. -/
theorem refresh_failures_differ :
    (RefreshToken demoJWT demoCfg (demoLogin demoJWT t0 Conn.up).rdb (t0 + 1000000000) Conn.up
      Conn.up Conn.up (Except.ok (demoLogin demoJWT t0 Conn.up).refreshToken) "other-device").2
      = ⟨401, [("error", "device mismatch")]⟩ ∧
    (RefreshToken demoJWT demoCfg noKeys (t0 + 1000000000) Conn.up Conn.up
      Conn.up (Except.ok (demoLogin demoJWT t0 Conn.up).refreshToken) "d1").2
      = ⟨401, [("error", "refresh token expired or rotated")]⟩ ∧
    (RefreshToken demoJWT demoCfg (demoLogin demoJWT t0 Conn.up).rdb (t0 + 691200000000000)
      Conn.up Conn.up Conn.up (Except.ok (demoLogin demoJWT t0 Conn.up).refreshToken) "d1").2
      = ⟨401, [("error", "refresh token invalid")]⟩ :=
  demo_refresh_failures demoJWT demoJWT_lawful

/-! ## C20: a failed rotation writes nothing -/

/-- C20.  Whenever `RotateRefreshToken` fails because the token is empty, because it fails
`ParseToken`, because the device hint is non-empty and differs from the token's device, or
because the read of the session record fails or returns another value than the token, the
key space it leaves (session records and blacklist) is the key space it was given and both
returned tokens are empty; the error is, in this order, `missing refresh token`,
`refresh token invalid`, `device mismatch`, `refresh token expired or rotated`. -/
theorem rotation_failure_is_atomic (J : JWT) (cfg : JWTConfig) (rdb : Redis) (now : Int)
    (get save black : Conn) (r hint : String) :
    (r = "" →
      RotateRefreshToken J cfg rdb now get save black r hint
        = ⟨rdb, "", "", some "missing refresh token"⟩) ∧
    (r ≠ "" → ParseToken J cfg now r = none →
      RotateRefreshToken J cfg rdb now get save black r hint
        = ⟨rdb, "", "", some "refresh token invalid"⟩) ∧
    (∀ c, r ≠ "" → ParseToken J cfg now r = some c →
      (hint ≠ "" → hint ≠ c.Device →
        RotateRefreshToken J cfg rdb now get save black r hint
          = ⟨rdb, "", "", some "device mismatch"⟩) ∧
      ((hint = "" ∨ hint = c.Device) →
        GetRefreshToken rdb now get c.UserID c.Device ≠ (r, none) →
        RotateRefreshToken J cfg rdb now get save black r hint
          = ⟨rdb, "", "", some "refresh token expired or rotated"⟩)) := by
  refine ⟨?_, ?_, ?_⟩
  · intro he
    simp [RotateRefreshToken, he]
  · intro hne hp
    simp [RotateRefreshToken, hne, hp]
  · intro c hne hp
    refine ⟨?_, ?_⟩
    · intro h1 h2
      simp [RotateRefreshToken, hne, hp, h1, h2]
    · intro hd hg
      have hd' : ¬ (hint ≠ "" ∧ hint ≠ c.Device) := by
        rcases hd with h | h
        · exact fun hh => hh.1 h
        · exact fun hh => hh.2 h
      have hg' : (GetRefreshToken rdb now get c.UserID c.Device).2 ≠ none ∨
          (GetRefreshToken rdb now get c.UserID c.Device).1 ≠ r := by
        by_contra hcon
        push_neg at hcon
        exact hg (Prod.ext hcon.2 hcon.1)
      simp only [RotateRefreshToken, hne, hp, if_false]
      rw [if_neg hd', if_pos hg']

/-! ## C16: how long a logged-out token stays rejected -/

/-- C16, at the failing input.  With any lawful signing scheme: login at `t0`; one second
later the refresh token `r` of that login is sent as the bearer token to the logout route,
every command working.  The guard lets it through, `Logout` takes it for an access token,
blacklists it for the access lifetime (15 minutes) and answers 200.  One second after the
logout the guard rejects `r` with 401 `token invalid`; 901 seconds after the logout, almost
seven days before the expiry of `r`, the marker is gone and the guard lets `r` through
again. -/
theorem logged_out_token_accepted_again (J : JWT) (hJ : J.Lawful) :
    privateLogout J demoCfg (demoLogin J t0 Conn.up).rdb (t0 + 1000000000)
      Conn.up Conn.up Conn.up Conn.up ("Bearer " ++ (demoLogin J t0 Conn.up).refreshToken)
      = ((Logout J demoCfg (demoLogin J t0 Conn.up).rdb (t0 + 1000000000)
          Conn.up Conn.up Conn.up ("Bearer " ++ (demoLogin J t0 Conn.up).refreshToken)).1,
          ⟨200, [("message", "logout success")]⟩) ∧
    AuthMiddleware J demoCfg
      (Logout J demoCfg (demoLogin J t0 Conn.up).rdb (t0 + 1000000000)
        Conn.up Conn.up Conn.up ("Bearer " ++ (demoLogin J t0 Conn.up).refreshToken)).1
      (t0 + 2000000000) Conn.up ("Bearer " ++ (demoLogin J t0 Conn.up).refreshToken)
      = Guard.abort ⟨401, [("error", "token invalid")]⟩ ∧
    AuthMiddleware J demoCfg
      (Logout J demoCfg (demoLogin J t0 Conn.up).rdb (t0 + 1000000000)
        Conn.up Conn.up Conn.up ("Bearer " ++ (demoLogin J t0 Conn.up).refreshToken)).1
      (t0 + 902000000000) Conn.up ("Bearer " ++ (demoLogin J t0 Conn.up).refreshToken)
      = Guard.next 1 "d1" ∧
    (refreshClaims demoCfg t0 1 "d1").ExpiresAt = some 1700604800 ∧
    t0 + 902000000000 < 1700604800 * Second := by
  have hne := signed_ne_empty hJ
  have hk := blackKey_ne_sessionKey
  have hk2 := sessionKey_ne_blackKey
  refine ⟨?_, ?_, ?_, ?_, ?_⟩
  · simp [privateLogout, AuthMiddleware, InBlackList_up, demoLogin, Login, demoDeps, demoCfg,
      noKeys, t0, GenerateTokens,
      accessClaims, refreshClaims, ParseToken_signed hJ, Validate,
      NewNumericDate, secondsDuration, wrapInt64, Second, SaveRefreshToken,
      Redis.Set, Redis.lookup, AddBlackList, Logout, HasPrefix_bearer,
      TrimPrefix_bearer, DeleteRefreshToken, Redis.Del, hne, hk, hk2]
  · simp [AuthMiddleware, InBlackList_up, demoLogin, Login, demoDeps, demoCfg,
      noKeys, t0, GenerateTokens,
      accessClaims, refreshClaims, ParseToken_signed hJ, Validate,
      NewNumericDate, secondsDuration, wrapInt64, Second, SaveRefreshToken,
      Redis.Set, Redis.lookup, AddBlackList, Logout, HasPrefix_bearer,
      TrimPrefix_bearer, DeleteRefreshToken, Redis.Del, hne, hk, hk2]
  · simp [AuthMiddleware, InBlackList_up, demoLogin, Login, demoDeps, demoCfg,
      noKeys, t0, GenerateTokens,
      accessClaims, refreshClaims, ParseToken_signed hJ, Validate,
      NewNumericDate, secondsDuration, wrapInt64, Second, SaveRefreshToken,
      Redis.Set, Redis.lookup, AddBlackList, Logout, HasPrefix_bearer,
      TrimPrefix_bearer, DeleteRefreshToken, Redis.Del, hne, hk, hk2]
  · simp [refreshClaims, demoCfg, t0, NewNumericDate, secondsDuration, wrapInt64, Second]
  · simp [t0, Second]

/-- C16, witness: the failing run with the concrete signing scheme. -/
theorem logged_out_token_accepted_again_witness :
    demoJWT.Lawful ∧
    AuthMiddleware demoJWT demoCfg
      (Logout demoJWT demoCfg (demoLogin demoJWT t0 Conn.up).rdb (t0 + 1000000000)
        Conn.up Conn.up Conn.up ("Bearer " ++ (demoLogin demoJWT t0 Conn.up).refreshToken)).1
      (t0 + 902000000000) Conn.up ("Bearer " ++ (demoLogin demoJWT t0 Conn.up).refreshToken)
      = Guard.next 1 "d1" :=
  ⟨demoJWT_lawful, (logged_out_token_accepted_again demoJWT demoJWT_lawful).2.2.1⟩

/-! ## C15: the lifetime of a blacklist entry -/

theorem AddBlackList_entry (rdb : Redis) (now : Int) (token : String) (ttl : Int)
    (h : 0 < ttl) :
    (AddBlackList rdb now Conn.up token ttl).1 (blackKey token)
      = some ⟨"1", some (now + ttl)⟩ := by
  simp [AddBlackList, Redis.Set, h]

theorem Logout_strict_up {J : JWT} {cfg : JWTConfig} {rdb : Redis} {now : Int}
    {get del : Conn} {authHeader : String} {c : Claims}
    (hpre : HasPrefix authHeader "Bearer " = true)
    (hp : ParseToken J cfg now (TrimPrefix authHeader "Bearer ") = some c) :
    Logout J cfg rdb now get Conn.up del authHeader =
      ((DeleteRefreshToken (AddBlackList rdb now Conn.up (TrimPrefix authHeader "Bearer ")
        (secondsDuration cfg.AccessExpire)).1 del c.UserID c.Device).1,
        ⟨200, [("message", "logout success")]⟩) := by
  simp only [Logout, hpre, Bool.not_true, Bool.false_eq_true, if_false, hp]
  rfl

theorem Logout_lenient_up {J : JWT} {cfg : JWTConfig} {rdb : Redis} {now : Int}
    {get del : Conn} {authHeader : String} {c : Claims}
    (hpre : HasPrefix authHeader "Bearer " = true)
    (hp : ParseToken J cfg now (TrimPrefix authHeader "Bearer ") = none)
    (hl : ParseTokenAllowExpired J cfg now (TrimPrefix authHeader "Bearer ") = some c)
    (hne : TrimPrefix authHeader "Bearer " ≠ "")
    (hg : GetRefreshToken rdb now get c.UserID c.Device
      = (TrimPrefix authHeader "Bearer ", none)) :
    Logout J cfg rdb now get Conn.up del authHeader =
      ((DeleteRefreshToken (AddBlackList rdb now Conn.up (TrimPrefix authHeader "Bearer ")
        (secondsDuration cfg.RefreshExpire)).1 del c.UserID c.Device).1,
        ⟨200, [("message", "logout success")]⟩) := by
  have hg' : ¬ ((GetRefreshToken rdb now get c.UserID c.Device).2 ≠ none ∨
      (GetRefreshToken rdb now get c.UserID c.Device).1 = "" ∨
      (GetRefreshToken rdb now get c.UserID c.Device).1 ≠ TrimPrefix authHeader "Bearer ") := by
    rw [hg]
    simp [hne]
  simp only [Logout, hpre, Bool.not_true, Bool.false_eq_true, if_false, hp, hl]
  rw [if_neg hg']
  rfl

theorem numericDate_le (t : Int) : NewNumericDate t * Second ≤ t := by
  unfold NewNumericDate Second
  exact Int.ediv_mul_le t (by norm_num)

/-- C15 (as amended).  The TTL of a blacklist entry is a configured lifetime counted from the
instant of the write, not what is left of the token's own lifetime.  A rotation that
succeeds and whose blacklist write goes through leaves the marker of the old token expiring
one refresh lifetime after the rotation; `Logout` with a token that `ParseToken` accepts
leaves the marker expiring one access lifetime after the logout; `Logout` with a token that
only `ParseTokenAllowExpired` accepts and that equals the session record leaves it expiring
one refresh lifetime after the logout (lifetimes positive).  For a token issued at `issued`
with lifetime `d` and blacklisted at `now`, not before `issued`, with the same lifetime,
the entry expires at `now + d`, which is not before the token's expiry. -/
theorem blacklist_entry_lifetime (J : JWT) (cfg : JWTConfig) (rdb : Redis) (now : Int)
    (get save del : Conn) (r hint authHeader : String) :
    ((RotateRefreshToken J cfg rdb now get save Conn.up r hint).err = none →
      0 < secondsDuration cfg.RefreshExpire →
      (RotateRefreshToken J cfg rdb now get save Conn.up r hint).rdb (blackKey r)
        = some ⟨"1", some (now + secondsDuration cfg.RefreshExpire)⟩) ∧
    (∀ c, HasPrefix authHeader "Bearer " = true →
      ParseToken J cfg now (TrimPrefix authHeader "Bearer ") = some c →
      0 < secondsDuration cfg.AccessExpire →
      (Logout J cfg rdb now get Conn.up del authHeader).1
        (blackKey (TrimPrefix authHeader "Bearer "))
        = some ⟨"1", some (now + secondsDuration cfg.AccessExpire)⟩) ∧
    (∀ c, HasPrefix authHeader "Bearer " = true →
      ParseToken J cfg now (TrimPrefix authHeader "Bearer ") = none →
      ParseTokenAllowExpired J cfg now (TrimPrefix authHeader "Bearer ") = some c →
      TrimPrefix authHeader "Bearer " ≠ "" →
      GetRefreshToken rdb now get c.UserID c.Device = (TrimPrefix authHeader "Bearer ", none) →
      0 < secondsDuration cfg.RefreshExpire →
      (Logout J cfg rdb now get Conn.up del authHeader).1
        (blackKey (TrimPrefix authHeader "Bearer "))
        = some ⟨"1", some (now + secondsDuration cfg.RefreshExpire)⟩) ∧
    (∀ issued d : Int, issued ≤ now → NewNumericDate (issued + d) * Second ≤ now + d) := by
  refine ⟨?_, ?_, ?_, ?_⟩
  · intro h hpos
    obtain ⟨c, -, -, -, -, -, hR⟩ := Rotate_success h
    rw [hR]
    exact AddBlackList_entry _ now r _ hpos
  · intro c hpre hp hpos
    rw [Logout_strict_up hpre hp]
    exact (Redis.Del_other _ del _ _ (blackKey_ne_sessionKey _ _ _)).trans
      (AddBlackList_entry _ now _ _ hpos)
  · intro c hpre hp hl hne hg hpos
    rw [Logout_lenient_up hpre hp hl hne hg]
    exact (Redis.Del_other _ del _ _ (blackKey_ne_sessionKey _ _ _)).trans
      (AddBlackList_entry _ now _ _ hpos)
  · intro issued d hle
    have := numericDate_le (issued + d)
    omega

theorem demo_blacklist_entry (J : JWT) (hJ : J.Lawful) :
    (demoRotate J (demoLogin J t0 Conn.up).rdb (t0 + 1000000000) Conn.up
      (demoLogin J t0 Conn.up).refreshToken).err = none ∧
    (demoRotate J (demoLogin J t0 Conn.up).rdb (t0 + 1000000000) Conn.up
      (demoLogin J t0 Conn.up).refreshToken).rdb
      (blackKey (demoLogin J t0 Conn.up).refreshToken)
      = some ⟨"1", some 1700604801250000000⟩ ∧
    ParseToken J demoCfg (t0 + 1000000000) (demoLogin J t0 Conn.up).refreshToken
      = some ⟨1, "d1", some 1700604800, none, some 1700000000⟩ := by
  have hne := signed_ne_empty hJ
  have hk := sessionKey_ne_blackKey
  simp [demoLogin, demoRotate, Login, demoDeps, demoCfg, noKeys, t0, GenerateTokens,
    accessClaims, refreshClaims, RotateRefreshToken, ParseToken_signed hJ, Validate,
    NewNumericDate, secondsDuration, wrapInt64, Second, SaveRefreshToken, GetRefreshToken,
    Redis.Set, Redis.Get, Redis.lookup, AddBlackList, hne, hk]

/-- C15, counterexample: login at `t0` (22:13:20.25), rotation one second later.  The token
that is rotated out expires at second 1700604800, that is 604798.75 s after the rotation;
its blacklist entry is written with a TTL of 604800 s and expires at 1700604801.25 s, 1.25 s
after the token. -/
theorem blacklist_entry_outlives_token :
    (demoRotate demoJWT (demoLogin demoJWT t0 Conn.up).rdb (t0 + 1000000000) Conn.up
      (demoLogin demoJWT t0 Conn.up).refreshToken).err = none ∧
    (demoRotate demoJWT (demoLogin demoJWT t0 Conn.up).rdb (t0 + 1000000000) Conn.up
      (demoLogin demoJWT t0 Conn.up).refreshToken).rdb
      (blackKey (demoLogin demoJWT t0 Conn.up).refreshToken)
      = some ⟨"1", some 1700604801250000000⟩ ∧
    ParseToken demoJWT demoCfg (t0 + 1000000000) (demoLogin demoJWT t0 Conn.up).refreshToken
      = some ⟨1, "d1", some 1700604800, none, some 1700000000⟩ ∧
    (1700604800 : Int) * Second - (t0 + 1000000000) = 604798750000000 ∧
    (1700604801250000000 : Int) - (t0 + 1000000000) = 604800000000000 ∧
    (1700604800 : Int) * Second < 1700604801250000000 :=
  ⟨(demo_blacklist_entry demoJWT demoJWT_lawful).1,
    (demo_blacklist_entry demoJWT demoJWT_lawful).2.1,
    (demo_blacklist_entry demoJWT demoJWT_lawful).2.2,
    by simp [t0, Second], by simp [t0], by simp [Second]⟩

/-! ## C17: two rotations of the same token at the same time -/

theorem RotateRefreshToken_eq_halves (J : JWT) (cfg : JWTConfig) (rdb : Redis) (now : Int)
    (get save black : Conn) (r hint : String) :
    RotateRefreshToken J cfg rdb now get save black r hint =
      match rotateCheck J cfg rdb now get r hint with
      | .error failed => failed
      | .ok c => rotateIssue J cfg rdb now save black r c := by
  unfold RotateRefreshToken rotateCheck rotateIssue
  by_cases he : r = ""
  · simp [he]
  · cases hp : ParseToken J cfg now r with
    | none => simp [he]
    | some c =>
      by_cases hd : hint ≠ "" ∧ hint ≠ c.Device
      · simp [he, hd]
      · by_cases hg : (GetRefreshToken rdb now get c.UserID c.Device).2 ≠ none ∨
            (GetRefreshToken rdb now get c.UserID c.Device).1 ≠ r
        · simp only [he, if_false, hd, hg, if_true]
        · simp only [he, if_false, hd, hg]

theorem rotateIssue_up (J : JWT) (cfg : JWTConfig) (rdb : Redis) (now : Int) (black : Conn)
    (r : String) (c : Claims) :
    rotateIssue J cfg rdb now Conn.up black r c =
      ⟨(AddBlackList (SaveRefreshToken rdb now Conn.up c.UserID c.Device
          (GenerateTokens J cfg now c.UserID c.Device).2 (secondsDuration cfg.RefreshExpire)).1
          now black r (secondsDuration cfg.RefreshExpire)).1,
        (GenerateTokens J cfg now c.UserID c.Device).1,
        (GenerateTokens J cfg now c.UserID c.Device).2, none⟩ := by
  simp [rotateIssue, SaveRefreshToken, Redis.Set]

/-- C17 (as amended).  The check of the session record and its replacement are two Redis
commands, a `GET` and a later `SET`, with nothing atomic between them.  `RotateRefreshToken`
is its check half followed by its issue half.  (1) If the check halves of two calls that
present the same token `r` both run before either issue half (both pass, on the same key
space), then both issue halves succeed whenever their session write goes through: each call
returns a pair.  (2) If a call's check half runs after the other call's issue half has
stored a refresh token different from `r`, it fails and issues nothing, with
`refresh token expired or rotated` when `r` still passes `ParseToken` and the hint fits. -/
theorem concurrent_rotation (J : JWT) (cfg : JWTConfig) (rdb : Redis)
    (nowA nowB nowA' nowB' : Int) (getA getB blackA blackB : Conn)
    (r hintA hintB : String) (cA cB : Claims)
    (hA : rotateCheck J cfg rdb nowA getA r hintA = Except.ok cA)
    (hB : rotateCheck J cfg rdb nowB getB r hintB = Except.ok cB) :
    (∀ (now : Int) (get save black : Conn) (hint : String),
      RotateRefreshToken J cfg rdb now get save black r hint =
        match rotateCheck J cfg rdb now get r hint with
        | .error failed => failed
        | .ok c => rotateIssue J cfg rdb now save black r c) ∧
    (rotateIssue J cfg rdb nowA' Conn.up blackA r cA).err = none ∧
    (rotateIssue J cfg (rotateIssue J cfg rdb nowA' Conn.up blackA r cA).rdb
      nowB' Conn.up blackB r cB).err = none ∧
    (rotateIssue J cfg (rotateIssue J cfg rdb nowA' Conn.up blackA r cA).rdb
      nowB' Conn.up blackB r cB).refreshToken = (GenerateTokens J cfg nowB' cB.UserID cB.Device).2 ∧
    ((rotateIssue J cfg rdb nowA' Conn.up blackA r cA).refreshToken ≠ r →
      ∀ (now : Int) (get : Conn) (hint : String) (c : Claims),
        ParseToken J cfg now r = some c → c.UserID = cA.UserID → c.Device = cA.Device →
        (hint = "" ∨ hint = c.Device) →
        rotateCheck J cfg (rotateIssue J cfg rdb nowA' Conn.up blackA r cA).rdb now get r hint
          = Except.error ⟨(rotateIssue J cfg rdb nowA' Conn.up blackA r cA).rdb, "", "",
              some "refresh token expired or rotated"⟩) := by
  refine ⟨fun now get save black hint =>
    RotateRefreshToken_eq_halves J cfg rdb now get save black r hint, ?_, ?_, ?_, ?_⟩
  · rw [rotateIssue_up]
  · rw [rotateIssue_up, rotateIssue_up]
  · rw [rotateIssue_up, rotateIssue_up]
  · rw [rotateIssue_up]
    intro hne now get hint c hp hu hd hh
    have hr : r ≠ "" := by
      intro he
      subst he
      simp [rotateCheck] at hA
    have hd' : ¬ (hint ≠ "" ∧ hint ≠ c.Device) := by
      rcases hh with h | h
      · exact fun hh => hh.1 h
      · exact fun hh => hh.2 h
    obtain ⟨x, hx⟩ := session_after_rotation_writes rdb nowA' blackA cA.UserID cA.Device
      (GenerateTokens J cfg nowA' cA.UserID cA.Device).2 r
      (secondsDuration cfg.RefreshExpire) (secondsDuration cfg.RefreshExpire)
    have hg : (GetRefreshToken (AddBlackList (SaveRefreshToken rdb nowA' Conn.up cA.UserID
          cA.Device (GenerateTokens J cfg nowA' cA.UserID cA.Device).2
          (secondsDuration cfg.RefreshExpire)).1 nowA' blackA r
          (secondsDuration cfg.RefreshExpire)).1 now get c.UserID c.Device).2 ≠ none ∨
        (GetRefreshToken (AddBlackList (SaveRefreshToken rdb nowA' Conn.up cA.UserID
          cA.Device (GenerateTokens J cfg nowA' cA.UserID cA.Device).2
          (secondsDuration cfg.RefreshExpire)).1 nowA' blackA r
          (secondsDuration cfg.RefreshExpire)).1 now get c.UserID c.Device).1 ≠ r := by
      by_contra hcon
      push_neg at hcon
      obtain ⟨e, he, hv⟩ := Redis.Get_value hcon.1
      rw [hu, hd, hx] at he
      have h3 := hcon.2
      unfold GetRefreshToken at h3
      rw [hv, ← Option.some.inj he] at h3
      exact hne h3
    simp only [rotateCheck, hr, if_false, hp]
    rw [if_neg hd', if_pos hg]

theorem demo_rotateCheck (J : JWT) (hJ : J.Lawful) :
    rotateCheck J demoCfg (Login J demoCfg demoDeps noKeys t0 Conn.up "alice" "pw" "d1").rdb (t0 + 1000000000) Conn.up (Login J demoCfg demoDeps noKeys t0 Conn.up "alice" "pw" "d1").refreshToken "d1"
      = Except.ok (refreshClaims demoCfg t0 1 "d1") ∧
    rotateCheck J demoCfg (Login J demoCfg demoDeps noKeys t0 Conn.up "alice" "pw" "d1").rdb (t0 + 1100000000) Conn.up (Login J demoCfg demoDeps noKeys t0 Conn.up "alice" "pw" "d1").refreshToken "d1"
      = Except.ok (refreshClaims demoCfg t0 1 "d1") := by
  have hne := signed_ne_empty hJ
  constructor <;>
  simp [rotateCheck, Login, demoDeps, demoCfg, noKeys, t0, GenerateTokens,
    accessClaims, refreshClaims, ParseToken_signed hJ, Validate,
    NewNumericDate, secondsDuration, wrapInt64, Second, SaveRefreshToken, GetRefreshToken,
    Redis.Set, Redis.Get, Redis.lookup, hne]

/-- C17, witness: after the login at `t0` two calls present the login's refresh token; their
checks run 1 s and 1.1 s after the login, their issue halves 2 s and 3 s after it. -/
theorem concurrent_rotation_witness :
    rotateCheck demoJWT demoCfg (Login demoJWT demoCfg demoDeps noKeys t0 Conn.up "alice" "pw" "d1").rdb (t0 + 1000000000) Conn.up (Login demoJWT demoCfg demoDeps noKeys t0 Conn.up "alice" "pw" "d1").refreshToken "d1"
      = Except.ok (refreshClaims demoCfg t0 1 "d1") ∧
    rotateCheck demoJWT demoCfg (Login demoJWT demoCfg demoDeps noKeys t0 Conn.up "alice" "pw" "d1").rdb (t0 + 1100000000) Conn.up (Login demoJWT demoCfg demoDeps noKeys t0 Conn.up "alice" "pw" "d1").refreshToken "d1"
      = Except.ok (refreshClaims demoCfg t0 1 "d1") ∧
    (rotateIssue demoJWT demoCfg (Login demoJWT demoCfg demoDeps noKeys t0 Conn.up "alice" "pw" "d1").rdb (t0 + 2000000000) Conn.up Conn.up
      (Login demoJWT demoCfg demoDeps noKeys t0 Conn.up "alice" "pw" "d1").refreshToken (refreshClaims demoCfg t0 1 "d1")).err = none ∧
    (rotateIssue demoJWT demoCfg
      (rotateIssue demoJWT demoCfg (Login demoJWT demoCfg demoDeps noKeys t0 Conn.up "alice" "pw" "d1").rdb (t0 + 2000000000) Conn.up Conn.up
        (Login demoJWT demoCfg demoDeps noKeys t0 Conn.up "alice" "pw" "d1").refreshToken (refreshClaims demoCfg t0 1 "d1")).rdb
      (t0 + 3000000000) Conn.up Conn.up (Login demoJWT demoCfg demoDeps noKeys t0 Conn.up "alice" "pw" "d1").refreshToken (refreshClaims demoCfg t0 1 "d1")).err = none :=
  ⟨(demo_rotateCheck demoJWT demoJWT_lawful).1, (demo_rotateCheck demoJWT demoJWT_lawful).2,
    (concurrent_rotation demoJWT demoCfg (Login demoJWT demoCfg demoDeps noKeys t0 Conn.up "alice" "pw" "d1").rdb (t0 + 1000000000) (t0 + 1100000000)
      (t0 + 2000000000) (t0 + 3000000000) Conn.up Conn.up Conn.up Conn.up
      (Login demoJWT demoCfg demoDeps noKeys t0 Conn.up "alice" "pw" "d1").refreshToken "d1" "d1" (refreshClaims demoCfg t0 1 "d1") (refreshClaims demoCfg t0 1 "d1")
      (demo_rotateCheck demoJWT demoJWT_lawful).1
      (demo_rotateCheck demoJWT demoJWT_lawful).2).2.1,
    (concurrent_rotation demoJWT demoCfg (Login demoJWT demoCfg demoDeps noKeys t0 Conn.up "alice" "pw" "d1").rdb (t0 + 1000000000) (t0 + 1100000000)
      (t0 + 2000000000) (t0 + 3000000000) Conn.up Conn.up Conn.up Conn.up
      (Login demoJWT demoCfg demoDeps noKeys t0 Conn.up "alice" "pw" "d1").refreshToken "d1" "d1" (refreshClaims demoCfg t0 1 "d1") (refreshClaims demoCfg t0 1 "d1")
      (demo_rotateCheck demoJWT demoJWT_lawful).1
      (demo_rotateCheck demoJWT demoJWT_lawful).2).2.2.1⟩

theorem demo_two_winners (J : JWT) (hJ : J.Lawful) :
    rotateCheck J demoCfg (demoLogin J t0 Conn.up).rdb (t0 + 1000000000) Conn.up
      (demoLogin J t0 Conn.up).refreshToken "d1" = Except.ok (refreshClaims demoCfg t0 1 "d1") ∧
    rotateCheck J demoCfg (demoLogin J t0 Conn.up).rdb (t0 + 1100000000) Conn.up
      (demoLogin J t0 Conn.up).refreshToken "d1" = Except.ok (refreshClaims demoCfg t0 1 "d1") ∧
    (rotateIssue J demoCfg (demoLogin J t0 Conn.up).rdb (t0 + 2000000000) Conn.up Conn.up
      (demoLogin J t0 Conn.up).refreshToken (refreshClaims demoCfg t0 1 "d1")).err = none ∧
    (rotateIssue J demoCfg
      (rotateIssue J demoCfg (demoLogin J t0 Conn.up).rdb (t0 + 2000000000) Conn.up Conn.up
        (demoLogin J t0 Conn.up).refreshToken (refreshClaims demoCfg t0 1 "d1")).rdb
      (t0 + 3000000000) Conn.up Conn.up (demoLogin J t0 Conn.up).refreshToken (refreshClaims demoCfg t0 1 "d1")).err = none ∧
    (rotateIssue J demoCfg
      (rotateIssue J demoCfg (demoLogin J t0 Conn.up).rdb (t0 + 2000000000) Conn.up Conn.up
        (demoLogin J t0 Conn.up).refreshToken (refreshClaims demoCfg t0 1 "d1")).rdb
      (t0 + 3000000000) Conn.up Conn.up (demoLogin J t0 Conn.up).refreshToken (refreshClaims demoCfg t0 1 "d1")).refreshToken
      ≠ (rotateIssue J demoCfg (demoLogin J t0 Conn.up).rdb (t0 + 2000000000) Conn.up Conn.up
        (demoLogin J t0 Conn.up).refreshToken (refreshClaims demoCfg t0 1 "d1")).refreshToken := by
  refine ⟨(demo_rotateCheck J hJ).1, (demo_rotateCheck J hJ).2, ?_, ?_, ?_⟩
  · rw [rotateIssue_up]
  · rw [rotateIssue_up, rotateIssue_up]
  · rw [rotateIssue_up, rotateIssue_up]
    intro h
    simp only [GenerateTokens] at h
    have h2 := signed_injective hJ _ _ _ h
    simp [refreshClaims, NewNumericDate, t0, Second] at h2

/-- C17, counterexample: after the login at `t0` two calls present the login's refresh
token.  Both session reads run (1 s and 1.1 s after the login) before either session write,
so both comparisons pass; the issue halves run 2 s and 3 s after the login and both return
a new pair, with two different refresh tokens. -/
theorem concurrent_rotation_two_winners :
    rotateCheck demoJWT demoCfg (demoLogin demoJWT t0 Conn.up).rdb (t0 + 1000000000) Conn.up
      (demoLogin demoJWT t0 Conn.up).refreshToken "d1" = Except.ok (refreshClaims demoCfg t0 1 "d1") ∧
    rotateCheck demoJWT demoCfg (demoLogin demoJWT t0 Conn.up).rdb (t0 + 1100000000) Conn.up
      (demoLogin demoJWT t0 Conn.up).refreshToken "d1" = Except.ok (refreshClaims demoCfg t0 1 "d1") ∧
    (rotateIssue demoJWT demoCfg (demoLogin demoJWT t0 Conn.up).rdb (t0 + 2000000000) Conn.up
      Conn.up (demoLogin demoJWT t0 Conn.up).refreshToken (refreshClaims demoCfg t0 1 "d1")).err = none ∧
    (rotateIssue demoJWT demoCfg
      (rotateIssue demoJWT demoCfg (demoLogin demoJWT t0 Conn.up).rdb (t0 + 2000000000) Conn.up
        Conn.up (demoLogin demoJWT t0 Conn.up).refreshToken (refreshClaims demoCfg t0 1 "d1")).rdb
      (t0 + 3000000000) Conn.up Conn.up (demoLogin demoJWT t0 Conn.up).refreshToken (refreshClaims demoCfg t0 1 "d1")).err
      = none ∧
    (rotateIssue demoJWT demoCfg
      (rotateIssue demoJWT demoCfg (demoLogin demoJWT t0 Conn.up).rdb (t0 + 2000000000) Conn.up
        Conn.up (demoLogin demoJWT t0 Conn.up).refreshToken (refreshClaims demoCfg t0 1 "d1")).rdb
      (t0 + 3000000000) Conn.up Conn.up
      (demoLogin demoJWT t0 Conn.up).refreshToken (refreshClaims demoCfg t0 1 "d1")).refreshToken
      ≠ (rotateIssue demoJWT demoCfg (demoLogin demoJWT t0 Conn.up).rdb (t0 + 2000000000)
        Conn.up Conn.up (demoLogin demoJWT t0 Conn.up).refreshToken (refreshClaims demoCfg t0 1 "d1")).refreshToken :=
  demo_two_winners demoJWT demoJWT_lawful

/-! ## Decimal renderings -/

theorem digitChar_isDigit (d : Nat) (h : d < 10) : (Nat.digitChar d).isDigit = true := by
  interval_cases d <;> decide

theorem digitChar_digitVal (d : Nat) (h : d < 10) : digitVal (Nat.digitChar d) = d := by
  interval_cases d <;> decide

theorem decVal_append (l : List Char) (c : Char) :
    decVal (l ++ [c]) = 10 * decVal l + digitVal c := by
  simp [decVal, List.foldl_append]

theorem toDigitsCore_spec (fuel : Nat) : ∀ (n : Nat) (ds : List Char), n < fuel →
    ∃ l : List Char, Nat.toDigitsCore 10 fuel n ds = l ++ ds ∧ l ≠ [] ∧
      (∀ c ∈ l, c.isDigit = true) ∧ decVal l = n := by
  induction fuel with
  | zero => intro n ds h; omega
  | succ f ih =>
    intro n ds h
    have hd : n % 10 < 10 := Nat.mod_lt _ (by norm_num)
    by_cases h0 : n / 10 = 0
    · refine ⟨[Nat.digitChar (n % 10)], ?_, by simp, ?_, ?_⟩
      · simp [Nat.toDigitsCore, h0]
      · intro c hc
        simp at hc
        subst hc
        exact digitChar_isDigit _ hd
      · have hn : n % 10 = n := Nat.mod_eq_of_lt (by omega)
        have hv := digitChar_digitVal _ hd
        simp only [decVal, List.foldl]
        rw [hv]
        omega
    · have hlt : n / 10 < f := by omega
      obtain ⟨l, hl, -, hdig, hval⟩ := ih (n / 10) (Nat.digitChar (n % 10) :: ds) hlt
      refine ⟨l ++ [Nat.digitChar (n % 10)], ?_, by simp, ?_, ?_⟩
      · simp [Nat.toDigitsCore, h0, hl]
      · intro c hc
        rcases List.mem_append.1 hc with h1 | h1
        · exact hdig c h1
        · simp at h1
          subst h1
          exact digitChar_isDigit _ hd
      · rw [decVal_append, hval, digitChar_digitVal _ hd]
        omega

theorem repr_spec (n : Nat) :
    (Nat.repr n).data ≠ [] ∧ (∀ c ∈ (Nat.repr n).data, c.isDigit = true) ∧
      decVal (Nat.repr n).data = n := by
  obtain ⟨l, hl, hne, hdig, hval⟩ := toDigitsCore_spec (n + 1) n [] (by omega)
  have : (Nat.repr n).data = l := by
    simp [Nat.repr, Nat.toDigits, hl, List.asString]
  rw [this]
  exact ⟨hne, hdig, hval⟩

theorem repr_injective (m n : Nat) (h : Nat.repr m = Nat.repr n) : m = n := by
  have h1 := (repr_spec m).2.2
  rw [h, (repr_spec n).2.2] at h1
  exact h1.symm

theorem isDigit_ne_colon (c : Char) (h : c.isDigit = true) : c ≠ ':' := by
  intro he
  subst he
  exact absurd h (by decide)

theorem colon_split_unique : ∀ (l1 l2 a b : List Char),
    (∀ c ∈ l1, c ≠ ':') → (∀ c ∈ l2, c ≠ ':') →
    l1 ++ ':' :: a = l2 ++ ':' :: b → l1 = l2 ∧ a = b := by
  intro l1
  induction l1 with
  | nil =>
    intro l2 a b _ h2 h
    cases l2 with
    | nil => simpa using h
    | cons x t =>
      simp at h
      exact absurd h.1.symm (h2 x (by simp))
  | cons x t ih =>
    intro l2 a b h1 h2 h
    cases l2 with
    | nil =>
      simp at h
      exact absurd h.1 (h1 x (by simp))
    | cons y s =>
      simp at h
      obtain ⟨hxy, hrest⟩ := h
      obtain ⟨hts, hab⟩ := ih s a b (fun c hc => h1 c (by simp [hc]))
        (fun c hc => h2 c (by simp [hc])) hrest
      exact ⟨by rw [hxy, hts], hab⟩

theorem sessionKey_injective (p1 p2 : Nat) (d1 d2 : String)
    (h : sessionKey p1 d1 = sessionKey p2 d2) : p1 = p2 ∧ d1 = d2 := by
  have h2 := congrArg String.data h
  simp only [sessionKey, String.data_append] at h2
  rw [List.append_assoc, List.append_assoc, List.append_assoc, List.append_assoc] at h2
  have h3 := List.append_cancel_left h2
  simp only [List.singleton_append] at h3
  obtain ⟨hr, hd⟩ := colon_split_unique _ _ _ _
    (fun c hc => isDigit_ne_colon c ((repr_spec p1).2.1 c hc))
    (fun c hc => isDigit_ne_colon c ((repr_spec p2).2.1 c hc)) h3
  exact ⟨repr_injective p1 p2 (String.ext hr), String.ext hd⟩

theorem rlKey_ne_sessionKey (name ip : String) (userID : Nat) (device : String) :
    rlKey name ip ≠ sessionKey userID device := by
  intro h
  have h2 := congrArg String.data h
  simp [rlKey, sessionKey, String.data_append] at h2

theorem rlKey_ne_blackKey (name ip : String) (token : String) :
    rlKey name ip ≠ blackKey token := by
  intro h
  have h2 := congrArg String.data h
  simp [rlKey, blackKey, String.data_append] at h2

/-! ## The keys an operation writes -/

theorem ParseToken_lenient {J : JWT} {cfg : JWTConfig} {now : Int} {tok : String} {c : Claims}
    (h : ParseToken J cfg now tok = some c) : ParseTokenAllowExpired J cfg now tok = some c := by
  have hd := ParseToken_decode h
  simp [ParseTokenAllowExpired, ParseWithClaims, hd]

theorem Login_frame (J : JWT) (cfg : JWTConfig) (D : Deps) (rdb : Redis) (now : Int)
    (save : Conn) (username password device : String) (k : String)
    (hk : ∀ user, D.GetByUsername username = some user → k ≠ sessionKey user.ID device) :
    (Login J cfg D rdb now save username password device).rdb k = rdb k := by
  unfold Login
  cases hu : D.GetByUsername username with
  | none => rfl
  | some user =>
    simp only
    by_cases hid : user.ID = 0
    · simp [hid]
    · by_cases hpw : D.CheckPasswordHash password user.Password
      · simp only [hid, if_false, hpw, Bool.not_true, Bool.false_eq_true]
        exact Redis.Set_other _ _ _ _ _ _ _ (hk user hu)
      · simp [hid, hpw]

theorem Rotate_frame (J : JWT) (cfg : JWTConfig) (rdb : Redis) (now : Int)
    (get save black : Conn) (r hint : String) (k : String)
    (hk : ∀ c, ParseToken J cfg now r = some c → k ≠ sessionKey c.UserID c.Device)
    (hb : k ≠ blackKey r) :
    (RotateRefreshToken J cfg rdb now get save black r hint).rdb k = rdb k := by
  rw [RotateRefreshToken_eq_halves]
  cases hc : rotateCheck J cfg rdb now get r hint with
  | error failed =>
    simp only
    unfold rotateCheck at hc
    by_cases he : r = ""
    · simp [he] at hc; rw [← hc]
    · cases hp : ParseToken J cfg now r with
      | none => simp [he, hp] at hc; rw [← hc]
      | some c =>
        simp only [he, if_false, hp] at hc
        split at hc
        · simp at hc; rw [← hc]
        · split at hc
          · simp at hc; rw [← hc]
          · exact Except.noConfusion hc
  | ok c =>
    simp only
    have hp : ParseToken J cfg now r = some c := by
      unfold rotateCheck at hc
      by_cases he : r = ""
      · simp [he] at hc
      · cases hp : ParseToken J cfg now r with
        | none => simp [he, hp] at hc
        | some c' =>
          simp only [he, if_false, hp] at hc
          split at hc
          · exact Except.noConfusion hc
          · split at hc
            · exact Except.noConfusion hc
            · have := Except.ok.inj hc
              rw [this]
    cases save with
    | down m => simp [rotateIssue, SaveRefreshToken, Redis.Set]
    | up =>
      rw [rotateIssue_up]
      simp only [AddBlackList, SaveRefreshToken]
      rw [Redis.Set_other _ _ _ _ _ _ _ hb, Redis.Set_other _ _ _ _ _ _ _ (hk c hp)]

theorem Logout_frame (J : JWT) (cfg : JWTConfig) (rdb : Redis) (now : Int)
    (get black del : Conn) (authHeader : String) (k : String)
    (hk : ∀ c, ParseTokenAllowExpired J cfg now (TrimPrefix authHeader "Bearer ") = some c →
      k ≠ sessionKey c.UserID c.Device)
    (hb : k ≠ blackKey (TrimPrefix authHeader "Bearer ")) :
    (Logout J cfg rdb now get black del authHeader).1 k = rdb k := by
  unfold Logout
  by_cases hpre : HasPrefix authHeader "Bearer " = true
  · simp only [hpre, Bool.not_true, Bool.false_eq_true, if_false]
    cases hp : ParseToken J cfg now (TrimPrefix authHeader "Bearer ") with
    | some c =>
      simp only
      have hkc := hk c (ParseToken_lenient hp)
      cases black with
      | down m => simp [AddBlackList, Redis.Set]
      | up =>
        show (Redis.Del (Redis.Set rdb now Conn.up (blackKey (TrimPrefix authHeader "Bearer "))
          "1" (secondsDuration cfg.AccessExpire)).1 del (sessionKey c.UserID c.Device)).1 k = rdb k
        rw [Redis.Del_other _ _ _ _ hkc, Redis.Set_other _ _ _ _ _ _ _ hb]
    | none =>
      simp only
      cases hl : ParseTokenAllowExpired J cfg now (TrimPrefix authHeader "Bearer ") with
      | none => rfl
      | some c =>
        simp only
        have hkc := hk c hl
        split
        · rfl
        · cases black with
          | down m => simp [AddBlackList, Redis.Set]
          | up =>
            show (Redis.Del (Redis.Set rdb now Conn.up (blackKey (TrimPrefix authHeader "Bearer "))
              "1" (secondsDuration cfg.RefreshExpire)).1 del (sessionKey c.UserID c.Device)).1 k = rdb k
            rw [Redis.Del_other _ _ _ _ hkc, Redis.Set_other _ _ _ _ _ _ _ hb]
  · simp [hpre]

/-! ## C19: sessions are isolated per principal and device -/

/-- C19.  The session key is an injective function of (user id, device), whatever characters
the device contains: the decimal user id has no colon, so the first colon after the prefix
ends it.  A login, a rotation or a logout that acts on one (user id, device) leaves the
session record of every other pair as it was: the login acts on the pair of the user it
finds and the device it is given, the rotation and the logout on the pair in the claims of
the token they are given.  No session key is a blacklist key or a rate-limit key. -/
theorem session_isolation (J : JWT) (cfg : JWTConfig) (D : Deps) (rdb : Redis) (now : Int)
    (get save black del : Conn) (username password device r hint authHeader : String)
    (p2 : Nat) (d2 : String) :
    (∀ (p1 p : Nat) (d1 d : String), sessionKey p1 d1 = sessionKey p d → p1 = p ∧ d1 = d) ∧
    ((∀ user, D.GetByUsername username = some user → (user.ID, device) ≠ (p2, d2)) →
      (Login J cfg D rdb now save username password device).rdb (sessionKey p2 d2)
        = rdb (sessionKey p2 d2)) ∧
    ((∀ c, ParseToken J cfg now r = some c → (c.UserID, c.Device) ≠ (p2, d2)) →
      (RotateRefreshToken J cfg rdb now get save black r hint).rdb (sessionKey p2 d2)
        = rdb (sessionKey p2 d2)) ∧
    ((∀ c, ParseTokenAllowExpired J cfg now (TrimPrefix authHeader "Bearer ") = some c →
        (c.UserID, c.Device) ≠ (p2, d2)) →
      (Logout J cfg rdb now get black del authHeader).1 (sessionKey p2 d2)
        = rdb (sessionKey p2 d2)) ∧
    (∀ (p : Nat) (d token : String), sessionKey p d ≠ blackKey token) ∧
    (∀ (p : Nat) (d name ip : String), sessionKey p d ≠ rlKey name ip) := by
  refine ⟨sessionKey_injective, ?_, ?_, ?_, sessionKey_ne_blackKey,
    fun p d name ip h => rlKey_ne_sessionKey name ip p d h.symm⟩
  · intro h
    apply Login_frame
    intro user hu hk
    obtain ⟨h1, h2⟩ := sessionKey_injective _ _ _ _ hk
    exact h user hu (by rw [h1, h2])
  · intro h
    apply Rotate_frame
    · intro c hc hk
      obtain ⟨h1, h2⟩ := sessionKey_injective _ _ _ _ hk
      exact h c hc (by rw [h1, h2])
    · exact sessionKey_ne_blackKey _ _ _
  · intro h
    apply Logout_frame
    · intro c hc hk
      obtain ⟨h1, h2⟩ := sessionKey_injective _ _ _ _ hk
      exact h c hc (by rw [h1, h2])
    · exact sessionKey_ne_blackKey _ _ _

/-! ## The counter of the limiter -/

theorem Redis.Incr_other (rdb : Redis) (now : Int) (conn : Conn) (key key' : String)
    (h : key' ≠ key) : (rdb.Incr now conn key).1 key' = rdb key' := by
  unfold Redis.Incr
  cases conn with
  | down m => rfl
  | up =>
    simp only
    cases rdb.lookup now key with
    | none => simp [h]
    | some e =>
      simp only
      cases parseInt64 e.value with
      | none => rfl
      | some n =>
        simp only
        split
        · simp [h]
        · rfl

theorem Redis.Expire_other (rdb : Redis) (now : Int) (conn : Conn) (key key' : String)
    (expiration : Int) (h : key' ≠ key) :
    (rdb.Expire now conn key expiration).1 key' = rdb key' := by
  unfold Redis.Expire
  cases conn with
  | down m => rfl
  | up =>
    simp only
    cases rdb.lookup now key with
    | none => rfl
    | some e =>
      simp only
      split
      · simp [h]
      · simp [h]

theorem LoginRateLimiter_frame (rdb : Redis) (now : Int) (incr expire : Conn)
    (limit window : Int) (ip : String) (k : String) (h : k ≠ rlKey "login" ip) :
    (LoginRateLimiter rdb now incr expire limit window ip).1 k = rdb k := by
  unfold LoginRateLimiter
  simp only
  split
  · exact Redis.Incr_other _ _ _ _ _ h
  · have hx : (if (rdb.Incr now incr (rlKey "login" ip)).2.1 = 1 then
          ((rdb.Incr now incr (rlKey "login" ip)).1.Expire now expire (rlKey "login" ip)
            window).1
        else (rdb.Incr now incr (rlKey "login" ip)).1) k = rdb k := by
      split
      · rw [Redis.Expire_other _ _ _ _ _ _ h, Redis.Incr_other _ _ _ _ _ h]
      · exact Redis.Incr_other _ _ _ _ _ h
    split
    · exact hx
    · exact hx

theorem parseInt64_fmt (n : Int) (h0 : 0 ≤ n) (h1 : n < 2 ^ 63) :
    parseInt64 (fmtInt64 n) = some n := by
  have hf : fmtInt64 n = Nat.repr n.natAbs := by simp [fmtInt64, not_lt.2 h0]
  obtain ⟨hne, hdig, hval⟩ := repr_spec n.natAbs
  unfold parseInt64
  rw [hf]
  cases hd : (Nat.repr n.natAbs).data with
  | nil => exact absurd hd hne
  | cons c cs =>
    have hc : c ≠ '-' := by
      intro he
      have := hdig c (by rw [hd]; simp)
      rw [he] at this
      exact absurd this (by decide)
    have hall : (c :: cs).all Char.isDigit = true := by
      rw [← hd]
      exact List.all_eq_true.2 hdig
    have hpd : parseDecimal (c :: cs) = some n.natAbs := by
      unfold parseDecimal
      rw [if_pos ⟨by simp, hall⟩, ← hd, hval]
    have hcast : ((n.natAbs : Nat) : Int) = n := Int.natAbs_of_nonneg h0
    have h1' : n < 9223372036854775808 := by simpa using h1
    have h2 : -9223372036854775808 ≤ n := by omega
    simp [hc, hpd, hcast, hf, h1', h2]

theorem LoginRateLimiter_down (rdb : Redis) (now : Int) (m : String) (expire : Conn)
    (limit window : Int) (ip : String) :
    LoginRateLimiter rdb now (Conn.down m) expire limit window ip
      = (rdb, ⟨[], some ⟨500, [("error", "rate limiter failed")]⟩⟩) := rfl

theorem LoginRateLimiter_first (rdb : Redis) (now : Int) (limit window : Int) (ip : String)
    (h : rdb.lookup now (rlKey "login" ip) = none) :
    (∀ expire, (LoginRateLimiter rdb now Conn.up expire limit window ip).2
      = limiterAnswer limit window 1) ∧
    (0 < formatSec window →
      (LoginRateLimiter rdb now Conn.up Conn.up limit window ip).1 (rlKey "login" ip)
        = some ⟨"1", some (now + formatSec window * Second)⟩) ∧
    (∀ m, (LoginRateLimiter rdb now Conn.up (Conn.down m) limit window ip).1 (rlKey "login" ip)
        = some ⟨"1", none⟩) := by
  have hinc : rdb.Incr now Conn.up (rlKey "login" ip)
      = (fun k => if k = rlKey "login" ip then some { value := "1", expireAt := none }
          else rdb k, 1, none) := by
    simp [Redis.Incr, h]
  have hlk : Redis.lookup (fun k => if k = rlKey "login" ip then
      some { value := "1", expireAt := none } else rdb k) now (rlKey "login" ip)
      = some ⟨"1", none⟩ := by
    simp [Redis.lookup]
  refine ⟨?_, ?_, ?_⟩
  · intro expire
    unfold LoginRateLimiter limiterAnswer
    simp only [hinc]
    split <;> rfl
  · intro hw
    unfold LoginRateLimiter
    simp only [hinc]
    have hE : (Redis.Expire (fun k => if k = rlKey "login" ip then
        some { value := "1", expireAt := none } else rdb k) now Conn.up (rlKey "login" ip)
        window).1 (rlKey "login" ip) = some ⟨"1", some (now + formatSec window * Second)⟩ := by
      unfold Redis.Expire
      simp only [hlk]
      rw [if_neg (by omega)]
      simp
    split <;> simpa using hE
  · intro m
    unfold LoginRateLimiter
    simp only [hinc]
    split <;> simp [Redis.Expire]

theorem LoginRateLimiter_next (rdb : Redis) (now : Int) (expire : Conn) (limit window : Int)
    (ip : String) (n : Int) (x : Option Int)
    (hk : rdb (rlKey "login" ip) = some ⟨fmtInt64 n, x⟩)
    (hlive : ∀ d, x = some d → now < d)
    (hn : 1 ≤ n) (hmax : n + 1 < 2 ^ 63) :
    (LoginRateLimiter rdb now Conn.up expire limit window ip).2
      = limiterAnswer limit window (n + 1) ∧
    (LoginRateLimiter rdb now Conn.up expire limit window ip).1 (rlKey "login" ip)
      = some ⟨fmtInt64 (n + 1), x⟩ := by
  have hl : rdb.lookup now (rlKey "login" ip) = some ⟨fmtInt64 n, x⟩ :=
    Redis.lookup_of_live hk hlive
  have hparse := parseInt64_fmt n (by omega) (by omega)
  have hinc : rdb.Incr now Conn.up (rlKey "login" ip)
      = (fun k => if k = rlKey "login" ip then
          some { value := fmtInt64 (n + 1), expireAt := x } else rdb k, n + 1, none) := by
    have hmax' : n + 1 < 9223372036854775808 := by simpa using hmax
    simp [Redis.Incr, hl, hparse, hmax']
  have hne : ¬ (n + 1 = 1) := by omega
  unfold LoginRateLimiter limiterAnswer
  simp only [hinc, hne, if_false]
  constructor
  · split <;> rfl
  · split <;> simp

/-! ## C18: the layout of the keys -/

/-- C18 (as amended).  Every key carries the prefix `rb:`.  For every principal `p` and
device `d` the session record is stored under exactly `rb:session:` + decimal(`p`) + `:` +
`d` (the decimal text reads back as `p`): `SaveRefreshToken` puts the token there and
touches no other key, `GetRefreshToken` reads that key.  For every token `t` the blacklist
marker is stored under exactly `rb:black:` + `t`: `AddBlackList` puts `1` there and touches
no other key.  For every client address `i` the login counter is stored under exactly
`rb:rl:login:` + `i`: the limiter touches no other key, and its first hit puts `1` there. -/
theorem key_layout (p : Nat) (d t i : String) (rdb : Redis) (now ttl limit window : Int)
    (conn expire : Conn) (token : String) :
    (sessionKey p d = "rb:session:" ++ Nat.repr p ++ ":" ++ d ∧
      decVal (Nat.repr p).data = p ∧
      (∃ x, (SaveRefreshToken rdb now Conn.up p d token ttl).1
        ("rb:session:" ++ Nat.repr p ++ ":" ++ d) = some ⟨token, x⟩) ∧
      (∀ k, k ≠ "rb:session:" ++ Nat.repr p ++ ":" ++ d →
        (SaveRefreshToken rdb now conn p d token ttl).1 k = rdb k) ∧
      GetRefreshToken rdb now conn p d
        = rdb.Get now conn ("rb:session:" ++ Nat.repr p ++ ":" ++ d)) ∧
    (blackKey t = "rb:black:" ++ t ∧
      (∃ x, (AddBlackList rdb now Conn.up t ttl).1 ("rb:black:" ++ t) = some ⟨"1", x⟩) ∧
      (∀ k, k ≠ "rb:black:" ++ t → (AddBlackList rdb now conn t ttl).1 k = rdb k)) ∧
    (rlKey "login" i = "rb:rl:login:" ++ i ∧
      (∀ k, k ≠ "rb:rl:login:" ++ i →
        (LoginRateLimiter rdb now conn expire limit window i).1 k = rdb k) ∧
      (rdb.lookup now ("rb:rl:login:" ++ i) = none → 0 < formatSec window →
        (LoginRateLimiter rdb now Conn.up Conn.up limit window i).1 ("rb:rl:login:" ++ i)
          = some ⟨"1", some (now + formatSec window * Second)⟩)) := by
  have hrl : rlKey "login" i = "rb:rl:login:" ++ i := by
    apply String.ext
    simp [rlKey, String.data_append]
  refine ⟨⟨rfl, (repr_spec p).2.2, ?_, ?_, rfl⟩, ⟨rfl, ?_, ?_⟩, ⟨hrl, ?_, ?_⟩⟩
  · obtain ⟨x, hx, -, -⟩ := Redis.Set_lookup_self rdb now (sessionKey p d) token ttl
    exact ⟨x, hx⟩
  · intro k hk
    exact Redis.Set_other _ _ _ _ _ _ _ hk
  · obtain ⟨x, hx, -, -⟩ := Redis.Set_lookup_self rdb now (blackKey t) "1" ttl
    exact ⟨x, hx⟩
  · intro k hk
    exact Redis.Set_other _ _ _ _ _ _ _ hk
  · intro k hk
    rw [← hrl] at hk
    exact LoginRateLimiter_frame _ _ _ _ _ _ _ _ hk
  · intro hl hw
    rw [← hrl] at hl ⊢
    rw [(LoginRateLimiter_first rdb now limit window i hl).2.1 hw]

/-- C18, counterexample: principal 42 on device `ios`, token `abc`, client address
`10.0.0.1`.  The three keys are `rb:session:42:ios`, `rb:black:abc` and
`rb:rl:login:10.0.0.1`, not `session:42:ios`, `black:abc` and `rl:login:10.0.0.1`. -/
theorem keys_carry_rb_prefix :
    sessionKey 42 "ios" = "rb:session:42:ios" ∧ sessionKey 42 "ios" ≠ "session:42:ios" ∧
    blackKey "abc" = "rb:black:abc" ∧ blackKey "abc" ≠ "black:abc" ∧
    rlKey "login" "10.0.0.1" = "rb:rl:login:10.0.0.1" ∧
    rlKey "login" "10.0.0.1" ≠ "rl:login:10.0.0.1" := by
  decide

/-! ## C12: the fixed window -/

theorem fmtInt64_one : fmtInt64 1 = "1" := by decide

theorem limiterRun_from (limit window : Int) (ip : String) :
    ∀ (rest : List (Int × Conn × Conn)) (rdb : Redis) (n : Int) (x : Option Int),
      rdb (rlKey "login" ip) = some ⟨fmtInt64 n, x⟩ →
      (∀ d, x = some d → ∀ q ∈ rest, q.1 < d) →
      (∀ q ∈ rest, q.2.1 = Conn.up) →
      1 ≤ n → n + (rest.length : Int) + 1 < 2 ^ 63 →
      (limiterRun limit window ip rdb rest).2
        = (List.range rest.length).map (fun j : Nat => limiterAnswer limit window (n + (j : Int) + 1)) := by
  intro rest
  induction rest with
  | nil => intro rdb n x _ _ _ _ _; rfl
  | cons q tl ih =>
    intro rdb n x hk hlive hincr hn hmax
    obtain ⟨now, incr, expire⟩ := q
    have hup : incr = Conn.up := hincr (now, incr, expire) (by simp)
    subst hup
    have hlen : (((now, Conn.up, expire) :: tl).length : Int) = (tl.length : Int) + 1 := by
      simp
    rw [hlen] at hmax
    obtain ⟨hans, hstore⟩ := LoginRateLimiter_next rdb now expire limit window ip n x hk
      (fun d hd => hlive d hd (now, Conn.up, expire) (by simp)) hn (by omega)
    have hrec := ih (LoginRateLimiter rdb now Conn.up expire limit window ip).1 (n + 1) x hstore
      (fun d hd q hq => hlive d hd q (by simp [hq]))
      (fun q hq => hincr q (by simp [hq])) (by omega) (by omega)
    simp only [limiterRun, List.length_cons]
    rw [hans, hrec, List.range_succ_eq_map]
    simp only [List.map_cons, List.map_map]
    refine congrArg₂ List.cons ?_ ?_
    · simp
    · apply List.map_congr_left
      intro j _
      simp only [Function.comp, Nat.succ_eq_add_one, Nat.cast_add, Nat.cast_one]
      congr 1
      ring

/-- C12 (as amended).  Take requests of one client address whose `INCR` goes through,
starting when the address has no live counter, all of them before the expiry that the first
request gives the counter.  Then the limiter counts them 1, 2, 3, ... and answers the `k`-th
as `limiterAnswer limit window k`: it lets it through if and only if `k` is at most the
limit and answers 429 otherwise, so with a limit `N` of at least 1 the first rejected one is
the `N+1`-th.  Once the counter has expired, the next request is counted as 1 again and, if
the limit is at least 1, let through.  A request whose `INCR` fails is answered 500
`rate limiter failed`, is not counted and is not let through. -/
theorem fixed_window (limit window : Int) (ip : String) (rdb : Redis) (now1 : Int) (e1 : Conn)
    (rest : List (Int × Conn × Conn))
    (hstart : rdb.lookup now1 (rlKey "login" ip) = none)
    (hincr : ∀ q ∈ rest, q.2.1 = Conn.up)
    (hwin : 0 < formatSec window ∧ ∀ q ∈ rest, q.1 < now1 + formatSec window * Second)
    (hlen : (rest.length : Int) + 2 < 2 ^ 63) :
    (limiterRun limit window ip rdb ((now1, Conn.up, e1) :: rest)).2
      = (List.range (rest.length + 1)).map
          (fun j : Nat => limiterAnswer limit window ((j : Int) + 1)) ∧
    (∀ k : Int, ((limiterAnswer limit window k).abort = none ↔ k ≤ limit) ∧
      (limit < k → (limiterAnswer limit window k).abort
        = some ⟨429, [("error", "too many login attempts")]⟩)) ∧
    (∀ (rdb' : Redis) (now : Int) (expire : Conn) (e : Entry) (d : Int),
      rdb' (rlKey "login" ip) = some e → e.expireAt = some d → d ≤ now →
      rdb'.lookup now (rlKey "login" ip) = none ∧
      (LoginRateLimiter rdb' now Conn.up expire limit window ip).2
        = limiterAnswer limit window 1 ∧
      (1 ≤ limit → (limiterAnswer limit window 1).abort = none)) ∧
    (∀ (rdb' : Redis) (now : Int) (m : String) (expire : Conn),
      LoginRateLimiter rdb' now (Conn.down m) expire limit window ip
        = (rdb', ⟨[], some ⟨500, [("error", "rate limiter failed")]⟩⟩)) := by
  have hans : ∀ k : Int, ((limiterAnswer limit window k).abort = none ↔ k ≤ limit) ∧
      (limit < k → (limiterAnswer limit window k).abort
        = some ⟨429, [("error", "too many login attempts")]⟩) := by
    intro k
    unfold limiterAnswer
    by_cases h : limit < k
    · simp [h]
    · simp [h, not_lt.1 h]
  refine ⟨?_, hans, ?_, fun rdb' now m expire => rfl⟩
  · obtain ⟨hfirst, hup, hdown⟩ := LoginRateLimiter_first rdb now1 limit window ip hstart
    have hstore : ∃ x : Option Int,
        (LoginRateLimiter rdb now1 Conn.up e1 limit window ip).1 (rlKey "login" ip)
          = some ⟨fmtInt64 1, x⟩ ∧ (∀ d, x = some d → ∀ q ∈ rest, q.1 < d) := by
      rw [fmtInt64_one]
      cases e1 with
      | up =>
        refine ⟨_, hup hwin.1, ?_⟩
        intro d hd q hq
        have := Option.some.inj hd
        rw [← this]
        exact hwin.2 q hq
      | down m =>
        exact ⟨_, hdown m, fun d hd => Option.noConfusion hd⟩
    obtain ⟨x, hx, hlive⟩ := hstore
    have hrec := limiterRun_from limit window ip rest
      (LoginRateLimiter rdb now1 Conn.up e1 limit window ip).1 1 x hx hlive hincr (by omega)
      (by omega)
    simp only [limiterRun]
    rw [hfirst e1, hrec, List.range_succ_eq_map]
    simp only [List.map_cons, List.map_map]
    refine congrArg₂ List.cons ?_ ?_
    · simp
    · apply List.map_congr_left
      intro j _
      simp only [Function.comp, Nat.succ_eq_add_one, Nat.cast_add, Nat.cast_one]
      congr 1
      ring
  · intro rdb' now expire e d hk he hd
    have hl : rdb'.lookup now (rlKey "login" ip) = none := by
      unfold Redis.lookup
      simp only [hk, he]
      rw [if_neg (by omega)]
    refine ⟨hl, (LoginRateLimiter_first rdb' now limit window ip hl).1 expire, ?_⟩
    intro h1
    exact ((hans 1).1).2 h1

/-- C12, witness: six requests of address `10.0.0.1` within six seconds, limit 5 per minute,
starting from the empty key space. -/
theorem fixed_window_witness :
    noKeys.lookup t0 (rlKey "login" "10.0.0.1") = none ∧
    (∀ q ∈ demoHits, q.2.1 = Conn.up) ∧
    (0 < formatSec demoWindow ∧
      ∀ q ∈ demoHits, q.1 < t0 + formatSec demoWindow * Second) ∧
    ((demoHits.length : Int) + 2 < 2 ^ 63) ∧
    (limiterRun demoLimit demoWindow "10.0.0.1" noKeys ((t0, Conn.up, Conn.up) :: demoHits)).2
      = (List.range (demoHits.length + 1)).map
          (fun j : Nat => limiterAnswer demoLimit demoWindow ((j : Int) + 1)) :=
  have h1 : noKeys.lookup t0 (rlKey "login" "10.0.0.1") = none := rfl
  have h2 : ∀ q ∈ demoHits, q.2.1 = Conn.up := by
    intro q hq
    simp [demoHits] at hq
    rcases hq with h | h | h | h | h <;> rw [h]
  have h3 : 0 < formatSec demoWindow ∧
      ∀ q ∈ demoHits, q.1 < t0 + formatSec demoWindow * Second := by
    refine ⟨by simp [formatSec, demoWindow, Second], ?_⟩
    intro q hq
    simp [demoHits] at hq
    rcases hq with h | h | h | h | h <;> rw [h] <;>
      simp [formatSec, demoWindow, Second, t0]
  have h4 : (demoHits.length : Int) + 2 < 2 ^ 63 := by
    simp [demoHits]
  ⟨h1, h2, h3, h4,
    (fixed_window demoLimit demoWindow "10.0.0.1" noKeys t0 Conn.up demoHits h1 h2 h3 h4).1⟩

/-- C12, counterexample: limit 5; the first request of address `10.0.0.1`, at `t0`, finds
Redis timing out on `INCR`.  It is the first request and 1 is at most 5, yet the limiter
aborts it with 500 `rate limiter failed`. -/
theorem first_request_not_let_through :
    LoginRateLimiter noKeys t0 (Conn.down "i/o timeout") Conn.up demoLimit demoWindow "10.0.0.1"
      = (noKeys, ⟨[], some ⟨500, [("error", "rate limiter failed")]⟩⟩) ∧
    (1 : Int) ≤ demoLimit :=
  ⟨rfl, by decide⟩

/-! ## C13: the headers of the limiter -/

theorem limiterAnswer_spec (rdb : Redis) (now : Int) (incr expire : Conn) (limit window : Int)
    (ip : String) (h : (rdb.Incr now incr (rlKey "login" ip)).2.2 = none) :
    (LoginRateLimiter rdb now incr expire limit window ip).2
      = limiterAnswer limit window (rdb.Incr now incr (rlKey "login" ip)).2.1 := by
  unfold LoginRateLimiter limiterAnswer
  simp only [h]
  split <;> rfl

theorem LoginRateLimiter_incr_error (rdb : Redis) (now : Int) (incr expire : Conn)
    (limit window : Int) (ip : String) (e : String)
    (h : (rdb.Incr now incr (rlKey "login" ip)).2.2 = some e) :
    (LoginRateLimiter rdb now incr expire limit window ip).2
      = ⟨[], some ⟨500, [("error", "rate limiter failed")]⟩⟩ := by
  unfold LoginRateLimiter
  simp only [h]

/-- C13 (as amended).  When the limiter rejects a request with 429, the `Retry-After` value
is the length of the configured window in seconds, whatever part of the caller's window has
already elapsed: it depends on nothing but `window`, and for a window of `s` whole seconds
(`s` not negative) it is the decimal text of `s`.  When it lets a request through,
`X-RateLimit-Remaining` is the decimal text of the limit minus the count that `INCR`
returned; the count is at most the limit, so the difference is not negative (for an int64
limit and a count that is not negative, as every count of a counter that the limiter
created is). -/
theorem limiter_headers (rdb : Redis) (now : Int) (incr expire : Conn) (limit window : Int)
    (ip : String) :
    ((LoginRateLimiter rdb now incr expire limit window ip).2.abort
        = some ⟨429, [("error", "too many login attempts")]⟩ →
      (LoginRateLimiter rdb now incr expire limit window ip).2.headers
        = [("Retry-After", fmtSeconds window)]) ∧
    (∀ s : Int, 0 ≤ s → fmtSeconds (s * Second) = fmtInt64 s) ∧
    ((LoginRateLimiter rdb now incr expire limit window ip).2.abort = none →
      (LoginRateLimiter rdb now incr expire limit window ip).2.headers
        = [("X-RateLimit-Limit", fmtInt64 limit),
            ("X-RateLimit-Remaining",
              fmtInt64 (wrapInt64 (limit - (rdb.Incr now incr (rlKey "login" ip)).2.1)))] ∧
      (rdb.Incr now incr (rlKey "login" ip)).2.1 ≤ limit ∧
      (limit < 2 ^ 63 → 0 ≤ (rdb.Incr now incr (rlKey "login" ip)).2.1 →
        wrapInt64 (limit - (rdb.Incr now incr (rlKey "login" ip)).2.1)
          = limit - (rdb.Incr now incr (rlKey "login" ip)).2.1 ∧
        0 ≤ limit - (rdb.Incr now incr (rlKey "login" ip)).2.1)) := by
  refine ⟨?_, ?_, ?_⟩
  · intro h
    cases he : (rdb.Incr now incr (rlKey "login" ip)).2.2 with
    | some e =>
      rw [LoginRateLimiter_incr_error _ _ _ _ _ _ _ e he] at h
      simp at h
    | none =>
      rw [limiterAnswer_spec _ _ _ _ _ _ _ he] at h ⊢
      unfold limiterAnswer at h ⊢
      split at h
      · rename_i hlt
        rw [if_pos hlt]
      · simp at h
  · intro s hs
    unfold fmtSeconds roundHalfEven
    have h1 : s * Second % Second = 0 := Int.mul_emod_left s Second
    have h2 : s * Second / Second = s := Int.mul_ediv_cancel s (by unfold Second; norm_num)
    rw [h1, h2]
    simp [Second]
  · intro h
    cases he : (rdb.Incr now incr (rlKey "login" ip)).2.2 with
    | some e =>
      rw [LoginRateLimiter_incr_error _ _ _ _ _ _ _ e he] at h
      simp at h
    | none =>
      rw [limiterAnswer_spec _ _ _ _ _ _ _ he] at h ⊢
      unfold limiterAnswer at h ⊢
      split at h
      · simp at h
      · rename_i hlt
        rw [if_neg hlt]
        refine ⟨rfl, not_lt.1 hlt, ?_⟩
        intro hmax h0
        have hle := not_lt.1 hlt
        have hmax' : limit < 9223372036854775808 := by simpa using hmax
        constructor
        · unfold wrapInt64
          norm_num
          omega
        · omega

theorem fmtInt64_five : fmtInt64 5 = "5" := by decide

theorem fmtSeconds_minute : fmtSeconds demoWindow = "60" := by decide

/-- C13, counterexample: limit 5, window one minute; address `10.0.0.1` has made five
requests in the window that opened at `t0` and makes a sixth 59 seconds after `t0`.  The
limiter rejects it with 429 and `Retry-After: 60`, while 1 second of the window is left. -/
theorem retry_after_is_whole_window :
    demoCounter (rlKey "login" "10.0.0.1") = some ⟨"5", some (t0 + 60000000000)⟩ ∧
    (LoginRateLimiter demoCounter (t0 + 59000000000) Conn.up Conn.up demoLimit demoWindow
      "10.0.0.1").2
      = ⟨[("Retry-After", "60")], some ⟨429, [("error", "too many login attempts")]⟩⟩ ∧
    (t0 + 60000000000) - (t0 + 59000000000) = 1 * Second := by
  have hk : demoCounter (rlKey "login" "10.0.0.1")
      = some ⟨fmtInt64 5, some (t0 + 60000000000)⟩ := by
    rw [fmtInt64_five]
    simp [demoCounter]
  refine ⟨by simp [demoCounter], ?_, by simp [Second]⟩
  rw [(LoginRateLimiter_next demoCounter (t0 + 59000000000) Conn.up demoLimit demoWindow
    "10.0.0.1" 5 (some (t0 + 60000000000)) hk
    (fun d hd => by rw [← Option.some.inj hd]; simp) (by norm_num) (by norm_num)).1]
  simp [limiterAnswer, demoLimit, fmtSeconds_minute]

/-! ## C21: `IsMobile` -/

theorem digit_run_nil (b : Bool) : Regex.digit.run b [] = [] := rfl

theorem digit_run_cons (b : Bool) (x : Char) (xs : List Char) :
    Regex.digit.run b (x :: xs) = if '0' ≤ x ∧ x ≤ '9' then [(false, xs)] else [] := rfl

theorem iterate_succ (f : Bool → List Char → List (Bool × List Char)) (n : Nat) (b : Bool)
    (s : List Char) :
    iterate f (n + 1) b s = (f b s).flatMap (fun p => iterate f n p.1 p.2) := rfl

theorem iterate_digit (n : Nat) : ∀ (b : Bool) (s : List Char),
    iterate Regex.digit.run n b s =
      if n ≤ s.length ∧ ∀ c ∈ s.take n, '0' ≤ c ∧ c ≤ '9' then
        [(if n = 0 then b else false, s.drop n)]
      else [] := by
  induction n with
  | zero => intro b s; simp [iterate]
  | succ n ih =>
    intro b s
    cases s with
    | nil => rw [iterate_succ, digit_run_nil]; simp
    | cons x xs =>
      rw [iterate_succ, digit_run_cons]
      by_cases hx : '0' ≤ x ∧ x ≤ '9'
      · rw [if_pos hx]
        simp only [List.flatMap_cons, List.flatMap_nil, List.append_nil]
        rw [ih]
        by_cases hrest : n ≤ xs.length ∧ ∀ c ∈ xs.take n, '0' ≤ c ∧ c ≤ '9'
        · have hall : ∀ c ∈ (x :: xs).take (n + 1), '0' ≤ c ∧ c ≤ '9' := by
            intro c hc
            simp only [List.take_succ_cons, List.mem_cons] at hc
            rcases hc with h | h
            · rw [h]; exact hx
            · exact hrest.2 c h
          have hlen : n + 1 ≤ (x :: xs).length := by
            simp only [List.length_cons]; exact Nat.succ_le_succ hrest.1
          have hboth : n + 1 ≤ (x :: xs).length ∧
              ∀ c ∈ (x :: xs).take (n + 1), '0' ≤ c ∧ c ≤ '9' := ⟨hlen, hall⟩
          simp only [if_pos hrest, if_pos hboth]
          simp
        · have hneg : ¬ (n + 1 ≤ (x :: xs).length ∧
              ∀ c ∈ (x :: xs).take (n + 1), '0' ≤ c ∧ c ≤ '9') := by
            intro h
            apply hrest
            refine ⟨by simpa using h.1, fun c hc => h.2 c ?_⟩
            simp [List.take_succ_cons, hc]
          simp only [if_neg hrest, if_neg hneg]
      · have hneg : ¬ (n + 1 ≤ (x :: xs).length ∧
            ∀ c ∈ (x :: xs).take (n + 1), '0' ≤ c ∧ c ≤ '9') := by
          intro h
          exact hx (h.2 x (by simp [List.take_succ_cons]))
        simp only [if_neg hx, if_neg hneg]
        rfl

theorem mobilePattern_not_at_start (s : List Char) : mobilePattern.run false s = [] := by
  simp [mobilePattern, Regex.run]

theorem MatchString_mobile (s : String) :
    mobilePattern.MatchString s = !(mobilePattern.run true s.data).isEmpty := by
  unfold Regex.MatchString
  rw [List.range_succ_eq_map]
  simp [List.any_cons, List.any_map, Function.comp, mobilePattern_not_at_start]


theorem run_cat (a b : Regex) (st : Bool) (s : List Char) :
    (Regex.cat a b).run st s = (a.run st s).flatMap (fun p => b.run p.1 p.2) := rfl

theorem run_rep (r : Regex) (n : Nat) (st : Bool) (s : List Char) :
    (Regex.rep r n).run st s = iterate r.run n st s := rfl

theorem run_beginText (st : Bool) (s : List Char) :
    Regex.beginText.run st s = if st then [(st, s)] else [] := rfl

theorem run_endText (st : Bool) (s : List Char) :
    Regex.endText.run st s = if s = [] then [(st, s)] else [] := rfl

theorem run_lit_nil (c : Char) (st : Bool) : (Regex.lit c).run st [] = [] := rfl

theorem run_lit_cons (c : Char) (st : Bool) (x : Char) (xs : List Char) :
    (Regex.lit c).run st (x :: xs) = if x = c then [(false, xs)] else [] := rfl

theorem run_range_nil (lo hi : Char) (st : Bool) : (Regex.range lo hi).run st [] = [] := rfl

theorem run_range_cons (lo hi : Char) (st : Bool) (x : Char) (xs : List Char) :
    (Regex.range lo hi).run st (x :: xs) = if lo ≤ x ∧ x ≤ hi then [(false, xs)] else [] := rfl

theorem mobilePattern_at_start (l : List Char) :
    (mobilePattern.run true l).isEmpty = false ↔
      ∃ (c : Char) (ds : List Char), l = '1' :: c :: ds ∧ '3' ≤ c ∧ c ≤ '9' ∧
        ds.length = 9 ∧ ∀ d ∈ ds, '0' ≤ d ∧ d ≤ '9' := by
  have h0 : mobilePattern.run true l =
      (Regex.cat (.lit '1') (.cat (.range '3' '9') (.cat (.rep .digit 9) .endText))).run true l := by
    show (Regex.beginText.run true l).flatMap _ = _
    rw [run_beginText]
    simp only [if_true, List.flatMap_cons, List.flatMap_nil, List.append_nil]
  rw [h0, run_cat]
  cases l with
  | nil =>
    rw [run_lit_nil]
    simp
  | cons a l1 =>
    rw [run_lit_cons]
    by_cases ha : a = '1'
    · subst ha
      simp only [if_true, List.flatMap_cons, List.flatMap_nil, List.append_nil]
      rw [run_cat]
      cases l1 with
      | nil =>
        rw [run_range_nil]
        simp
      | cons c ds =>
        rw [run_range_cons]
        by_cases hc : '3' ≤ c ∧ c ≤ '9'
        · rw [if_pos hc]
          simp only [List.flatMap_cons, List.flatMap_nil, List.append_nil]
          rw [run_cat, run_rep, iterate_digit]
          by_cases hd : 9 ≤ ds.length ∧ ∀ d ∈ ds.take 9, '0' ≤ d ∧ d ≤ '9'
          · rw [if_pos hd]
            simp only [List.flatMap_cons, List.flatMap_nil, List.append_nil]
            rw [run_endText]
            by_cases he : ds.drop 9 = []
            · have hlen : ds.length = 9 := by
                have := List.drop_eq_nil_iff.mp he
                omega
              have htake : ds.take 9 = ds := by
                rw [← hlen]; exact List.take_length ds
              rw [if_pos he]
              constructor
              · intro _
                refine ⟨c, ds, rfl, hc.1, hc.2, hlen, ?_⟩
                rw [← htake]; exact hd.2
              · intro _; rfl
            · rw [if_neg he]
              constructor
              · intro h; exact absurd h (by simp)
              · rintro ⟨c1, ds1, heq, _, _, hlen, _⟩
                exfalso
                apply he
                injection heq with _ h2
                injection h2 with _ h3
                subst h3
                exact List.drop_eq_nil_iff.mpr (by omega)
          · rw [if_neg hd]
            constructor
            · intro h; exact absurd h (by simp)
            · rintro ⟨c1, ds1, heq, _, _, hlen, hall⟩
              exfalso
              apply hd
              injection heq with _ h2
              injection h2 with _ h3
              subst h3
              exact ⟨by omega, fun d hm => hall d (List.mem_of_mem_take hm)⟩
        · rw [if_neg hc]
          constructor
          · intro h; exact absurd h (by simp)
          · rintro ⟨c1, ds1, heq, h3, h9, _, _⟩
            exfalso
            apply hc
            injection heq with _ h2
            injection h2 with h2 _
            subst h2
            exact ⟨h3, h9⟩
    · rw [if_neg ha]
      constructor
      · intro h; exact absurd h (by simp)
      · rintro ⟨c1, ds1, heq, _⟩
        exfalso
        apply ha
        injection heq

theorem IsMobile_iff (s : String) :
    IsMobile s = true ↔
      ∃ (c : Char) (ds : List Char), s.data = '1' :: c :: ds ∧ '3' ≤ c ∧ c ≤ '9' ∧
        ds.length = 9 ∧ ∀ d ∈ ds, '0' ≤ d ∧ d ≤ '9' := by
  unfold IsMobile
  rw [MatchString_mobile, ← mobilePattern_at_start]
  cases (mobilePattern.run true s.data).isEmpty <;> simp


theorem isDigit_range (c : Char) (h : c.isDigit = true) : '0' ≤ c ∧ c ≤ '9' := by
  simp only [Char.isDigit, Bool.and_eq_true, decide_eq_true_eq] at h
  exact ⟨h.1, h.2⟩

theorem Sprintf0d_nat (w n : Nat) (hw : 0 < w) (hn : n < 10 ^ w) :
    ∃ ds : List Char, Sprintf0d w (n : Int) = String.mk ds ∧ ds.length = w ∧
      ∀ d ∈ ds, '0' ≤ d ∧ d ≤ '9' := by
  have hlen : (Nat.repr n).data.length ≤ w := Nat.repr_length n w hw hn
  obtain ⟨_, hdig, _⟩ := repr_spec n
  refine ⟨List.replicate (w - (Nat.repr n).length) '0' ++ (Nat.repr n).data, ?_, ?_, ?_⟩
  · unfold Sprintf0d
    rw [if_neg (by omega)]
    rfl
  · rw [List.length_append, List.length_replicate]
    show w - (Nat.repr n).data.length + (Nat.repr n).data.length = w
    omega
  · intro d hd
    rcases List.mem_append.mp hd with h | h
    · rw [List.eq_of_mem_replicate h]
      decide
    · exact isDigit_range d (hdig d h)

theorem IsMobile_13 (n : Nat) (hn : n < 10 ^ 9) :
    IsMobile ("13" ++ Sprintf0d 9 (n : Int)) = true := by
  obtain ⟨ds, heq, hlen, hall⟩ := Sprintf0d_nat 9 n (by decide) hn
  rw [heq, IsMobile_iff]
  exact ⟨'3', ds, rfl, by decide, by decide, hlen, hall⟩

theorem IsMobile_138 (n : Nat) (hn : n < 10 ^ 8) :
    IsMobile ("138" ++ Sprintf0d 8 (n : Int)) = true := by
  obtain ⟨ds, heq, hlen, hall⟩ := Sprintf0d_nat 8 n (by decide) hn
  rw [heq, IsMobile_iff]
  refine ⟨'3', '8' :: ds, rfl, by decide, by decide, by simp [hlen], ?_⟩
  intro d hd
  rcases List.mem_cons.mp hd with h | h
  · rw [h]; decide
  · exact hall d h

theorem tmod_nat (t : Int) (m : Nat) (ht : 0 ≤ t) (hm : 0 < m) :
    ∃ n : Nat, t.tmod (m : Int) = (n : Int) ∧ n < m := by
  have h1 : 0 ≤ t.tmod (m : Int) := Int.tmod_nonneg _ ht
  have h2 : t.tmod (m : Int) < (m : Int) := Int.tmod_lt_of_pos t (by exact_mod_cast hm)
  refine ⟨(t.tmod (m : Int)).toNat, (Int.toNat_of_nonneg h1).symm, ?_⟩
  omega

theorem IsMobile_accepts_digits (s : String) (h : IsMobile s = true) :
    s.length = 11 ∧ ∀ c ∈ s.data, '0' ≤ c ∧ c ≤ '9' := by
  obtain ⟨c, ds, heq, h3, h9, hlen, hall⟩ := (IsMobile_iff s).mp h
  constructor
  · show s.data.length = 11
    rw [heq]; simp [hlen]
  · intro x hx
    rw [heq] at hx
    rcases List.mem_cons.mp hx with h | hx
    · rw [h]; decide
    rcases List.mem_cons.mp hx with h | hx
    · rw [h]
      exact ⟨le_trans (by decide) h3, h9⟩
    · exact hall x hx


/-- C21: `IsMobile` accepts a string if and only if it has exactly 11 characters, the first
is `'1'`, the second lies in `'3'..'9'` and the other nine lie in `'0'..'9'`. Hence a string
that ends in a newline, a string whose length is not 11 (10 or 12 digits among them) and a
string with a character outside `'0'..'9'` (a digit that is not ASCII among them) are
rejected. The numbers of the test helpers are accepted: `"13"` followed by a number below
`10 ^ 9` printed with `%09d`, `"138"` followed by a number below `10 ^ 8` printed with `%08d`,
and so the numbers that `endpointSmokeTests` and `TestUserLifecycle` build from a reading of
the clock that is not before the Unix epoch. -/
theorem IsMobile_spec :
    (∀ s : String, IsMobile s = true ↔
      s.length = 11 ∧ ∃ (c : Char) (ds : List Char), s.data = '1' :: c :: ds ∧
        '3' ≤ c ∧ c ≤ '9' ∧ ∀ d ∈ ds, '0' ≤ d ∧ d ≤ '9') ∧
    (∀ s : String, IsMobile (s ++ "\n") = false) ∧
    (∀ s : String, s.length ≠ 11 → IsMobile s = false) ∧
    (∀ s : String, (∃ c ∈ s.data, ¬ ('0' ≤ c ∧ c ≤ '9')) → IsMobile s = false) ∧
    IsMobile "13800000000" = true ∧
    IsMobile "13800000000\n" = false ∧
    IsMobile "1380000000" = false ∧
    IsMobile "138000000000" = false ∧
    IsMobile "13８00000000" = false ∧
    (∀ n : Nat, n < 10 ^ 9 → IsMobile ("13" ++ Sprintf0d 9 (n : Int)) = true) ∧
    (∀ n : Nat, n < 10 ^ 8 → IsMobile ("138" ++ Sprintf0d 8 (n : Int)) = true) ∧
    (∀ t : Int, 0 ≤ t →
      IsMobile (smokeMobile t) = true ∧ IsMobile (lifecycleMobile t) = true) := by
  have hlen : ∀ s : String, s.length ≠ 11 → IsMobile s = false := by
    intro s hs
    cases h : IsMobile s with
    | false => rfl
    | true => exact absurd (IsMobile_accepts_digits s h).1 hs
  have hchar : ∀ s : String, (∃ c ∈ s.data, ¬ ('0' ≤ c ∧ c ≤ '9')) → IsMobile s = false := by
    rintro s ⟨c, hc, hn⟩
    cases h : IsMobile s with
    | false => rfl
    | true => exact absurd ((IsMobile_accepts_digits s h).2 c hc) hn
  refine ⟨?_, ?_, hlen, hchar, ?_, ?_, ?_, ?_, ?_, IsMobile_13, IsMobile_138, ?_⟩
  · intro s
    rw [IsMobile_iff]
    constructor
    · rintro ⟨c, ds, heq, h3, h9, hl, hall⟩
      refine ⟨?_, c, ds, heq, h3, h9, hall⟩
      show s.data.length = 11
      rw [heq]; simp [hl]
    · rintro ⟨hl, c, ds, heq, h3, h9, hall⟩
      refine ⟨c, ds, heq, h3, h9, ?_, hall⟩
      have : s.data.length = 11 := hl
      rw [heq] at this
      simpa using this
  · intro s
    apply hchar
    refine ⟨'\n', ?_, by decide⟩
    rw [String.data_append]
    exact List.mem_append_right _ (List.mem_singleton.mpr rfl)
  · rw [IsMobile_iff]
    exact ⟨'3', "800000000".data, rfl, by decide, by decide, rfl, by decide⟩
  · exact hlen _ (by decide)
  · exact hlen _ (by decide)
  · exact hlen _ (by decide)
  · exact hchar _ ⟨'８', by decide, by decide⟩
  · intro t ht
    obtain ⟨n, hn, hlt⟩ := tmod_nat t 1000000000 ht (by decide)
    obtain ⟨m, hm, hlt2⟩ := tmod_nat t 100000000 ht (by decide)
    constructor
    · unfold smokeMobile
      have h : t.tmod 1000000000 = (n : Int) := hn
      rw [h]
      exact IsMobile_13 n hlt
    · unfold lifecycleMobile
      have h : t.tmod 100000000 = (m : Int) := hm
      rw [h]
      exact IsMobile_138 m hlt2

end Redbook
